import Mathlib

/-!
# Rework: the business, client and user route handlers

A shallow embedding of the route handlers of the repository
(`src/app/api/**/route.js`) over an explicit store of Business, User and
Client rows.
Each handler is a pure function from the session, the request and the store to
a response and the store after the request.  A thrown exception is modelled by
the branch of the handler's `catch` block, with the store as the database left
it.
-/

namespace Rework

/-! ## JSON values and JavaScript primitives -/

/-- A value read from a request body: `undefined` stands for an absent key,
`obj` for any object or array. -/
inductive JVal where
  | undefined
  | null
  | bool (b : Bool)
  | num (n : Int)
  | str (s : String)
  | obj
  deriving DecidableEq, Repr

/-- JavaScript truthiness, as tested by `!x` and `x && ...`. -/
def JVal.truthy : JVal → Bool
  | .undefined => false
  | .null => false
  | .bool b => b
  | .num n => n != 0
  | .str s => s != ""
  | .obj => true

/-- White space and line terminators removed by `String.prototype.trim`. -/
def isJsSpace (c : Char) : Bool :=
  let n := c.toNat
  n == 0x09 || n == 0x0A || n == 0x0B || n == 0x0C || n == 0x0D || n == 0x20 ||
  n == 0xA0 || n == 0x1680 || (0x2000 ≤ n && n ≤ 0x200A) || n == 0x2028 ||
  n == 0x2029 || n == 0x202F || n == 0x205F || n == 0x3000 || n == 0xFEFF

/-- The method `trim()` of a JavaScript string. -/
def jsTrim (s : String) : String :=
  String.mk ((s.data.dropWhile isJsSpace).reverse.dropWhile isJsSpace).reverse

/-! ## Data model -/

/-- A row of the Business table; the columns are those selected by
`business/list/route.js` (lines 55-69). Dates are clock readings. -/
structure Business where
  id : String
  name : String
  description : Option String
  address : Option String
  phone : Option String
  email : Option String
  website : Option String
  whatsapp : Option String
  logo : Option String
  archived : Bool
  isSelected : Bool
  createdAt : Nat
  updatedAt : Nat
  deriving DecidableEq, Repr

/-- A row of the User table; the columns are those read by `lib/auth.js`
(lines 45-52) and `test/route.js` (lines 40-46). -/
structure User where
  id : String
  name : Option String
  email : Option String
  password : Option String
  role : String
  businessId : Option String
  deriving DecidableEq, Repr

/-- A row of the Client table; the columns are those written by
`clients/route.js` (lines 179-188) and `clients/[id]/route.js` (lines 145-154,
222-225). The table carries no unique constraint besides its primary key: the
client routes check the email themselves and handle no P2002. -/
structure Client where
  id : String
  name : String
  email : Option String
  phone : Option String
  address : Option String
  document : Option String
  documentType : Option String
  notes : Option String
  businessId : String
  archived : Bool
  createdAt : Nat
  updatedAt : Nat
  deriving DecidableEq, Repr

/-- The persistent store: the rows of the three tables in the order in which
the database scans them. -/
structure Store where
  businesses : List Business
  users : List User
  clients : List Client
  deriving DecidableEq, Repr

/-- The `session.user` object built by the `session` callback of `lib/auth.js`
(lines 88-96). An absent `id` is the empty string, an absent `businessId` is
`none`. -/
structure SessionUser where
  id : String
  email : Option String
  role : String
  businessId : Option String
  deriving DecidableEq, Repr

/-- The value returned by `auth()`: `none` when there is no session or the
session has no user. -/
abbrev Session := Option SessionUser

/-- An exception thrown inside a handler: a JavaScript `TypeError` (a method
called on a value that lacks it), or an error of the Prisma client: P2025
(record not found), P2002 (unique constraint, with the column it names), P2003
(foreign key constraint) or a validation error (an argument of the wrong
type). -/
inductive Thrown where
  | typeError
  | notFound
  | uniqueViolation (target : String)
  | validation
  | foreignKey
  deriving DecidableEq, Repr

/-- The `pagination` object of the client list (clients/route.js lines 86-93).
`totalPages` is `none` when `Math.ceil(total / limit)` is not a finite number,
which JSON writes as `null`. -/
structure Pagination where
  page : Int
  limit : Int
  total : Nat
  totalPages : Option Int
  hasNext : Bool
  hasPrev : Bool
  deriving DecidableEq, Repr

/-- The `id` and `name` of a business, as included in a client response. -/
abbrev BusinessRef := Option (String × String)

/-- The JSON body of a response. -/
inductive Body where
  | error (msg : String)
  | success (msg : String)
  | selected (selectedBusiness : Option Business) (autoSelected : Option Bool)
      (message : Option String)
  | business (msg : String) (b : Business)
  | registered (msg : String) (u : User) (b : Option Business)
  | ownBusiness (hasBusiness : Bool) (b : Option Business) (message : Option String)
  | businesses (rows : List Business) (count : Nat)
  | deleted (msg : String) (deletedBusinessId : String)
  | user (msg : String) (u : User) (b : Option Business)
  | client (c : Client) (business : BusinessRef)
  | clients (rows : List (Client × BusinessRef)) (pagination : Pagination)
  deriving DecidableEq, Repr

/-- An HTTP response: status code and JSON body. -/
structure Response where
  status : Nat
  body : Body
  deriving DecidableEq, Repr

/-! ## Store queries and mutations (the Prisma calls the handlers make) -/

/-- The call `prisma.business.findUnique` with `where: id`. -/
def Store.findBusiness (s : Store) (id : String) : Option Business :=
  s.businesses.find? (fun b => b.id == id)

/-- The call `prisma.user.findUnique` with `where: id`. -/
def Store.findUser (s : Store) (id : String) : Option User :=
  s.users.find? (fun u => u.id == id)

/-- The call `business.updateMany`: every row matching `p` is rewritten
by `f`. -/
def Store.updateManyBusiness (s : Store) (p : Business → Bool)
    (f : Business → Business) : Store :=
  { s with businesses := s.businesses.map (fun b => if p b then f b else b) }

/-- The call `business.update` with `where: id`: throws P2025 when no row has
that id. -/
def Store.updateBusiness (s : Store) (id : String) (f : Business → Business) :
    Except Thrown Store :=
  match s.findBusiness id with
  | none => .error .notFound
  | some _ => .ok (s.updateManyBusiness (fun b => b.id == id) f)

/-- The session check shared by the handlers,
`!isAuthenticated || !session?.user?.id` (auth-helpers.js line 34): the
session user when the check passes. -/
def verifyApiAuth (session : Session) : Option SessionUser :=
  match session with
  | none => none
  | some u => if u.id != "" then some u else none

/-! ## `business/select/route.js` -/

/-- The transaction of POST (lines 59-70): clear every flag, then set the flag
of `businessId`. A failure of the second step rolls the first one back. -/
def selectTransaction (s : Store) (businessId : String) : Except Thrown Store :=
  (s.updateManyBusiness (fun _ => true) (fun b => { b with isSelected := false })).updateBusiness
    businessId (fun b => { b with isSelected := true })

/-- The transaction of GET (lines 133-145): clear the flag of the rows that
have it, then set the flag of `businessId`. -/
def autoSelectTransaction (s : Store) (businessId : String) : Except Thrown Store :=
  (s.updateManyBusiness (fun b => b.isSelected) (fun b => { b with isSelected := false })).updateBusiness
    businessId (fun b => { b with isSelected := true })

/-- Handler `POST /api/business/select` (lines 11-86). `body` is `none` when
the request body is not a JSON object, otherwise it is the value of its
`businessId` key. -/
def SelectRoute.POST (session : Session) (body : Option JVal) (s : Store) : Response × Store :=
  match verifyApiAuth session with
  | none => (⟨401, .error "No autorizado"⟩, s)
  | some su =>
    match body with
    | none => (⟨500, .error "Error interno del servidor"⟩, s)
    | some businessId =>
      if !businessId.truthy then
        (⟨400, .error "ID del negocio es requerido"⟩, s)
      else
        match businessId with
        | .str bid =>
          match s.findBusiness bid with
          | none => (⟨404, .error "Negocio no encontrado"⟩, s)
          | some _ =>
            let run : Response × Store :=
              match selectTransaction s bid with
              | .ok s1 => (⟨200, .success "Negocio seleccionado correctamente"⟩, s1)
              | .error _ => (⟨500, .error "Error interno del servidor"⟩, s)
            if su.role != "ADMIN" then
              match s.findUser su.id with
              | none => (⟨500, .error "Error interno del servidor"⟩, s)
              | some user =>
                if user.businessId != some bid then
                  (⟨403, .error "No tienes permisos para seleccionar este negocio"⟩, s)
                else run
            else run
        | _ => (⟨500, .error "Error interno del servidor"⟩, s)

/-- The call `findFirst` with `orderBy: createdAt asc`: a row of least
`createdAt`, the earliest scanned one among equals. -/
def firstByCreatedAt : List Business → Option Business
  | [] => none
  | b :: rest =>
    match firstByCreatedAt rest with
    | none => some b
    | some c => if c.createdAt < b.createdAt then some c else some b

/-- The fallback of GET (lines 113-128): for ADMIN the earliest non-archived
business, otherwise the `business` relation of the stored user. -/
def fallbackBusiness (su : SessionUser) (s : Store) : Option Business :=
  if su.role == "ADMIN" then
    firstByCreatedAt (s.businesses.filter (fun b => !b.archived))
  else
    match s.findUser su.id with
    | none => none
    | some user =>
      match user.businessId with
      | none => none
      | some bid => s.findBusiness bid

/-- Handler `GET /api/business/select` (lines 92-176). -/
def SelectRoute.GET (session : Session) (s : Store) : Response × Store :=
  match verifyApiAuth session with
  | none => (⟨401, .error "No autorizado"⟩, s)
  | some su =>
    match s.businesses.find? (fun b => b.isSelected && !b.archived) with
    | some selectedBusiness =>
      (⟨200, .selected (some selectedBusiness) (some false) none⟩, s)
    | none =>
      match fallbackBusiness su s with
      | some firstBusiness =>
        match autoSelectTransaction s firstBusiness.id with
        | .ok s1 =>
          (⟨200, .selected (some { firstBusiness with isSelected := true }) (some true) none⟩, s1)
        | .error _ => (⟨500, .error "Error interno del servidor"⟩, s)
      | none => (⟨200, .selected none none (some "No hay negocios disponibles")⟩, s)

/-! ## Request payloads and the values written by the business routes -/

/-- The keys the business routes read from the request body. -/
structure BusinessPayload where
  name : JVal
  description : JVal
  address : JVal
  phone : JVal
  email : JVal
  website : JVal
  whatsapp : JVal
  archived : JVal
  deriving DecidableEq, Repr

/-- The keys `register/route.js` reads from the request body (line 9). -/
structure RegisterPayload where
  name : JVal
  email : JVal
  password : JVal
  businessName : JVal
  businessDescription : JVal
  deriving DecidableEq, Repr

/-- Values produced outside the handler while it runs: the ids the database
gives to new Business, User and Client rows, the clock, and the string built
from `Date.now()` and `Math.random()` by `register/route.js` (line 30). -/
structure Generated where
  businessId : String
  userId : String
  now : Nat
  placeholder : String
  clientId : String
  deriving DecidableEq, Repr

/-- The column defaults of a new Business row and the default of `archived`
for a new Client row. They are declared by the Prisma schema, which is not
among the sources, so the handlers take them as a parameter. -/
structure ColumnDefaults where
  logo : Option String
  archived : Bool
  isSelected : Bool
  clientArchived : Bool
  deriving DecidableEq, Repr

/-- The expression `x?.trim() || null`: `null` for an absent, null or blank
value, the trimmed string otherwise; a `TypeError` for a value without
`trim`. -/
def trimOrNull : JVal → Except Thrown (Option String)
  | .undefined => .ok none
  | .null => .ok none
  | .str x => .ok (if jsTrim x = "" then none else some (jsTrim x))
  | _ => .error .typeError

/-- The expression `name.trim()`. -/
def trimString : JVal → Except Thrown String
  | .str x => .ok (jsTrim x)
  | _ => .error .typeError

/-- The test `!name || name.trim() === ''`. -/
def nameMissing (name : JVal) : Except Thrown Bool :=
  if !name.truthy then .ok true
  else
    match name with
    | .str x => .ok (jsTrim x == "")
    | _ => .error .typeError

/-- The `data` object of `business.update`: for each column, `none` when the
key is absent and the new value otherwise. No route puts `isSelected` in
it. -/
structure BusinessUpdate where
  name : Option String
  description : Option (Option String)
  address : Option (Option String)
  phone : Option (Option String)
  email : Option (Option String)
  website : Option (Option String)
  whatsapp : Option (Option String)
  archived : Option Bool
  updatedAt : Option Nat
  deriving DecidableEq, Repr

/-- The row after `business.update` wrote `d` to it. -/
def BusinessUpdate.apply (d : BusinessUpdate) (b : Business) : Business :=
  { b with
    name := d.name.getD b.name
    description := d.description.getD b.description
    address := d.address.getD b.address
    phone := d.phone.getD b.phone
    email := d.email.getD b.email
    website := d.website.getD b.website
    whatsapp := d.whatsapp.getD b.whatsapp
    archived := d.archived.getD b.archived
    updatedAt := d.updatedAt.getD b.updatedAt }

/-- The call `prisma.business.findUnique` with `where: whatsapp`. -/
def Store.findBusinessByWhatsapp (s : Store) (w : String) : Option Business :=
  s.businesses.find? (fun b => b.whatsapp == some w)

/-- The call `prisma.user.findUnique` with `where: email`. -/
def Store.findUserByEmail (s : Store) (e : String) : Option User :=
  s.users.find? (fun u => u.email == some e)

/-- The call `business.update` with a `data` object that may write the unique
column `whatsapp`: P2025 when no row has the id, P2002 when another row holds
the new whatsapp; otherwise the updated row and the store. -/
def Store.updateBusinessData (s : Store) (id : String) (d : BusinessUpdate) :
    Except Thrown (Business × Store) :=
  match s.findBusiness id with
  | none => .error .notFound
  | some old =>
    let taken : Bool :=
      match d.whatsapp with
      | some (some w) => s.businesses.any (fun b => b.id != id && b.whatsapp == some w)
      | _ => false
    if taken then .error (.uniqueViolation "whatsapp")
    else .ok (d.apply old, s.updateManyBusiness (fun b => b.id == id) d.apply)

/-- The call `business.create`: P2002 when the id or a non-null whatsapp is
already held by a row; otherwise the row is appended. -/
def Store.createBusiness (s : Store) (b : Business) : Except Thrown Store :=
  if s.businesses.any (fun x => x.id == b.id) then .error (.uniqueViolation "id")
  else if b.whatsapp.isSome && s.businesses.any (fun x => x.whatsapp == b.whatsapp) then
    .error (.uniqueViolation "whatsapp")
  else .ok { s with businesses := s.businesses ++ [b] }

/-- The call `user.create`: P2002 when the id or a non-null email is already
held by a row; otherwise the row is appended. -/
def Store.createUser (s : Store) (u : User) : Except Thrown Store :=
  if s.users.any (fun x => x.id == u.id) then .error (.uniqueViolation "id")
  else if u.email.isSome && s.users.any (fun x => x.email == u.email) then
    .error (.uniqueViolation "email")
  else .ok { s with users := s.users ++ [u] }

/-- The call `user.update` with `where: id`: P2025 when no row has the id. -/
def Store.updateUser (s : Store) (id : String) (f : User → User) : Except Thrown Store :=
  match s.findUser id with
  | none => .error .notFound
  | some _ => .ok { s with users := s.users.map (fun u => if u.id == id then f u else u) }

/-- The response of a `catch` block that answers every exception with 500. -/
def internalError : Response :=
  ⟨500, .error "Error interno del servidor"⟩

/-! ## `business/[id]/route.js`, PUT -/

/-- A key of `updateData` written as `x?.trim() || null` when the request has
it (lines 190-194). -/
def optionalTrimmed (v : JVal) : Except Thrown (Option (Option String)) :=
  match v with
  | .undefined => .ok none
  | _ => (trimOrNull v).map some

/-- The object `updateData` of PUT (lines 184-203). A `name` that is not a
string has no `trim`; an `archived` that is not a boolean is refused by Prisma
when the update is sent. -/
def buildUpdateData (p : BusinessPayload) (whatsappValue : Option String) (now : Nat) :
    Except Thrown BusinessUpdate := do
  let name ← match p.name with
    | .undefined => pure none
    | v => (trimString v).map some
  let description ← optionalTrimmed p.description
  let address ← optionalTrimmed p.address
  let phone ← optionalTrimmed p.phone
  let email ← optionalTrimmed p.email
  let website ← optionalTrimmed p.website
  let whatsapp : Option (Option String) :=
    match p.whatsapp with
    | .undefined => none
    | _ => some whatsappValue
  let archived ← match p.archived with
    | .undefined => pure none
    | .bool a => pure (some a)
    | _ => throw .validation
  pure { name := name, description := description, address := address, phone := phone,
         email := email, website := website, whatsapp := whatsapp, archived := archived,
         updatedAt := some now }

/-- Handler `PUT /api/business/[id]` (lines 95-235). `id` is the path
parameter, `body` is `none` when the request body is not a JSON object. -/
def BusinessIdRoute.PUT (session : Session) (id : String) (body : Option BusinessPayload) (now : Nat)
    (s : Store) : Response × Store :=
  match verifyApiAuth session with
  | none => (⟨401, .error "No autorizado - Sesión inválida"⟩, s)
  | some su =>
    if id == "" then (⟨400, .error "ID del negocio es requerido"⟩, s)
    else
      match s.findUser su.id with
      | none => (⟨404, .error "Usuario no encontrado"⟩, s)
      | some user =>
        if user.role != "ADMIN" && user.businessId != some id then
          (⟨403, .error "No autorizado - No tienes acceso para actualizar este negocio"⟩, s)
        else
          match body with
          | none => (internalError, s)
          | some p =>
            match (if p.archived == .undefined then nameMissing p.name else .ok false) with
            | .error _ => (internalError, s)
            | .ok true => (⟨400, .error "El nombre del negocio es requerido"⟩, s)
            | .ok false =>
              match s.findBusiness id with
              | none => (⟨404, .error "Negocio no encontrado"⟩, s)
              | some existingBusiness =>
                match trimOrNull p.whatsapp with
                | .error _ => (internalError, s)
                | .ok whatsappValue =>
                  let conflict : Bool :=
                    match whatsappValue with
                    | some w =>
                      p.whatsapp != .undefined && some w != existingBusiness.whatsapp &&
                        (match s.findBusinessByWhatsapp w with
                         | some other => other.id != id
                         | none => false)
                    | none => false
                  if conflict then
                    (⟨400, .error "Este número de WhatsApp ya está registrado en otro negocio"⟩, s)
                  else
                    match buildUpdateData p whatsappValue now with
                    | .error _ => (internalError, s)
                    | .ok updateData =>
                      match s.updateBusinessData id updateData with
                      | .ok (updatedBusiness, s1) =>
                        (⟨200, .business "Negocio actualizado exitosamente" updatedBusiness⟩, s1)
                      | .error .notFound => (⟨404, .error "Negocio no encontrado"⟩, s)
                      | .error _ => (internalError, s)

/-! ## `business/update/route.js`, PUT -/

/-- A value passed unchanged to Prisma for a nullable string column: an absent
key leaves the column alone, `null` and strings are written, anything else is
a validation error. -/
def nullableColumn : JVal → Except Thrown (Option (Option String))
  | .undefined => .ok none
  | .null => .ok (some none)
  | .str x => .ok (some (some x))
  | _ => .error .validation

/-- A value passed unchanged to Prisma for the required string column `name`:
as `nullableColumn`, but `null` is refused as well. -/
def requiredColumn : JVal → Except Thrown (Option String)
  | .undefined => .ok none
  | .str x => .ok (some x)
  | _ => .error .validation

/-- The object `updateData` of the self-service PUT (lines 44-59), as Prisma
accepts it. -/
def buildSelfUpdateData (p : BusinessPayload) (whatsappValue : Option String) :
    Except Thrown BusinessUpdate := do
  let name ← requiredColumn p.name
  let description ← nullableColumn p.description
  let address ← nullableColumn p.address
  let phone ← nullableColumn p.phone
  let email ← nullableColumn p.email
  let website ← nullableColumn p.website
  pure { name := name, description := description, address := address, phone := phone,
         email := email, website := website, whatsapp := some whatsappValue, archived := none,
         updatedAt := none }

/-- Handler `PUT /api/business/update` (lines 7-78): the business updated is
the one named by the session. -/
def BusinessUpdateRoute.PUT (session : Session) (body : Option BusinessPayload) (s : Store) :
    Response × Store :=
  match verifyApiAuth session with
  | none => (⟨401, .error "No autorizado - Sesión inválida o sin negocio asociado"⟩, s)
  | some su =>
    match su.businessId with
    | none => (⟨401, .error "No autorizado - Sesión inválida o sin negocio asociado"⟩, s)
    | some businessId =>
      if businessId == "" then
        (⟨401, .error "No autorizado - Sesión inválida o sin negocio asociado"⟩, s)
      else
        match body with
        | none => (internalError, s)
        | some p =>
          match trimOrNull p.whatsapp with
          | .error _ => (internalError, s)
          | .ok whatsappValue =>
            let conflict : Bool :=
              match whatsappValue with
              | some w =>
                (match s.findBusinessByWhatsapp w with
                 | some existingBusiness => existingBusiness.id != businessId
                 | none => false)
              | none => false
            if conflict then
              (⟨400, .error "Este número de WhatsApp ya está registrado en otro negocio"⟩, s)
            else
              match buildSelfUpdateData p whatsappValue with
              | .error _ => (internalError, s)
              | .ok updateData =>
                match s.updateBusinessData businessId updateData with
                | .ok (updatedBusiness, s1) =>
                  (⟨200, .business "Negocio actualizado exitosamente" updatedBusiness⟩, s1)
                | .error _ => (internalError, s)

/-! ## `business/create/route.js`, POST -/

/-- The object `businessData` of POST (lines 80-92) as a new row: the trimmed
fields of the payload, the generated id and clock, and the column defaults. -/
def buildBusinessData (p : BusinessPayload) (whatsappValue : Option String) (g : Generated)
    (dflt : ColumnDefaults) : Except Thrown Business := do
  let name ← trimString p.name
  let description ← trimOrNull p.description
  let address ← trimOrNull p.address
  let phone ← trimOrNull p.phone
  let email ← trimOrNull p.email
  let website ← trimOrNull p.website
  pure { id := g.businessId, name := name, description := description, address := address,
         phone := phone, email := email, website := website, whatsapp := whatsappValue,
         logo := dflt.logo, archived := dflt.archived, isSelected := dflt.isSelected,
         createdAt := g.now, updatedAt := g.now }

/-- Handler `POST /api/business/create` (lines 7-129). -/
def BusinessCreateRoute.POST (session : Session) (body : Option BusinessPayload) (g : Generated)
    (dflt : ColumnDefaults) (s : Store) : Response × Store :=
  match verifyApiAuth session with
  | none => (⟨401, .error "No autorizado - Sesión inválida"⟩, s)
  | some su =>
    match s.findUser su.id with
    | none => (⟨404, .error "Usuario no encontrado"⟩, s)
    | some user =>
      if user.role != "ADMIN" && (user.businessId != none && user.businessId != some "") then
        (⟨400, .error "Los usuarios no ADMIN solo pueden tener un negocio asociado"⟩, s)
      else
        match body with
        | none => (internalError, s)
        | some p =>
          match nameMissing p.name with
          | .error _ => (internalError, s)
          | .ok true => (⟨400, .error "El nombre del negocio es requerido"⟩, s)
          | .ok false =>
            match trimOrNull p.whatsapp with
            | .error _ => (internalError, s)
            | .ok whatsappValue =>
              let taken : Bool :=
                match whatsappValue with
                | some w => (s.findBusinessByWhatsapp w).isSome
                | none => false
              if taken then
                (⟨400, .error "Este número de WhatsApp ya está registrado en otro negocio"⟩, s)
              else
                match buildBusinessData p whatsappValue g dflt with
                | .error _ => (internalError, s)
                | .ok newBusiness =>
                  match s.createBusiness newBusiness with
                  | .error (.uniqueViolation "whatsapp") =>
                    (⟨400, .error ("Este número de WhatsApp ya está registrado en otro negocio. " ++
                      "Por favor, usa un número diferente.")⟩, s)
                  | .error _ => (internalError, s)
                  | .ok s1 =>
                    match s1.updateUser su.id (fun u => { u with businessId := some newBusiness.id }) with
                    | .error _ => (internalError, s1)
                    | .ok s2 => (⟨200, .business "Negocio creado exitosamente" newBusiness⟩, s2)

/-! ## `register/route.js`, POST -/

/-- Handler `POST /api/register` (lines 7-83). `hash` is `bcrypt.hash` with
cost 12. The business is created first, the user second, outside any
transaction. -/
def RegisterRoute.POST (body : Option RegisterPayload) (hash : String → String) (g : Generated)
    (dflt : ColumnDefaults) (s : Store) : Response × Store :=
  match body with
  | none => (internalError, s)
  | some p =>
    match p.email with
    | .str email =>
      match s.findUserByEmail email with
      | some _ => (⟨400, .error "El usuario ya existe"⟩, s)
      | none =>
        match p.password with
        | .str password =>
          let hashedPassword := hash password
          match requiredColumn p.businessName, nullableColumn p.businessDescription with
          | .ok (some businessName), .ok businessDescription =>
            let business : Business :=
              { id := g.businessId, name := businessName,
                description := businessDescription.getD none, address := none, phone := none,
                email := none, website := none, whatsapp := some g.placeholder,
                logo := dflt.logo, archived := dflt.archived, isSelected := dflt.isSelected,
                createdAt := g.now, updatedAt := g.now }
            match s.createBusiness business with
            | .error (.uniqueViolation _) =>
              (⟨400, .error ("Ya existe un negocio con esos datos. " ++
                "Por favor, verifica la información.")⟩, s)
            | .error _ => (internalError, s)
            | .ok s1 =>
              match nullableColumn p.name with
              | .error _ => (internalError, s1)
              | .ok name =>
                let user : User :=
                  { id := g.userId, name := name.getD none, email := some email,
                    password := some hashedPassword, role := "ADMIN",
                    businessId := some business.id }
                match s1.createUser user with
                | .error _ => (internalError, s1)
                | .ok s2 =>
                  (⟨200, .registered "Usuario y negocio creados exitosamente"
                    { user with password := none } (some business)⟩, s2)
          | _, _ => (internalError, s)
        | _ => (internalError, s)
    | _ => (internalError, s)

/-- The id and the isSelected flag of every Business row, in store order. -/
def selectionFlags (s : Store) : List (String × Bool) :=
  s.businesses.map (fun b => (b.id, b.isSelected))

/-! ## `business/[id]/route.js`, GET -/

/-- Handler `GET /api/business/[id]` (lines 12-88). `id` is the path
parameter. The body of the 200 answer has no message. -/
def BusinessIdRoute.GET (session : Session) (id : String) (s : Store) : Response × Store :=
  match verifyApiAuth session with
  | none => (⟨401, .error "No autorizado - Sesión inválida"⟩, s)
  | some su =>
    if id == "" then (⟨400, .error "ID del negocio es requerido"⟩, s)
    else
      match s.findUser su.id with
      | none => (⟨404, .error "Usuario no encontrado"⟩, s)
      | some user =>
        if user.role != "ADMIN" && user.businessId != some id then
          (⟨403, .error "No autorizado - No tienes acceso a este negocio"⟩, s)
        else
          match s.findBusiness id with
          | none => (⟨404, .error "Negocio no encontrado"⟩, s)
          | some business => (⟨200, .business "" business⟩, s)

/-! ## `business/get/route.js` and `business/list/route.js` -/

/-- Handler `GET /api/business/get` (lines 7-74): the business of the stored
user. -/
def BusinessGetRoute.GET (session : Session) (s : Store) : Response × Store :=
  match verifyApiAuth session with
  | none => (⟨401, .error "No autorizado - Sesión inválida"⟩, s)
  | some su =>
    match s.findUser su.id with
    | none => (⟨404, .error "Usuario no encontrado"⟩, s)
    | some user =>
      match user.businessId.bind s.findBusiness with
      | none =>
        (⟨200, .ownBusiness false none (some "El usuario no tiene un negocio asociado")⟩, s)
      | some business => (⟨200, .ownBusiness true (some business) none⟩, s)

/-- Rows in descending order of a creation time; rows created at the same
time keep the order in which the database scans them. -/
def newestFirst {α : Type} (createdAt : α → Nat) (rows : List α) : List α :=
  rows.insertionSort (fun a b => createdAt b ≤ createdAt a)

/-- Handler `GET /api/business/list` (lines 12-87). `includeArchived` is the
value of the query parameter of that name, if present. -/
def BusinessListRoute.GET (session : Session) (includeArchived : Option String) (s : Store) :
    Response × Store :=
  match verifyApiAuth session with
  | none => (⟨401, .error "No autorizado - Sesión inválida"⟩, s)
  | some su =>
    match s.findUser su.id with
    | none =>
      (⟨403, .error "No autorizado - Solo usuarios ADMIN pueden gestionar múltiples negocios"⟩, s)
    | some user =>
      if user.role != "ADMIN" then
        (⟨403, .error "No autorizado - Solo usuarios ADMIN pueden gestionar múltiples negocios"⟩, s)
      else
        let businesses :=
          newestFirst (fun b : Business => b.createdAt)
            (s.businesses.filter (fun b => includeArchived == some "true" || b.archived != true))
        (⟨200, .businesses businesses businesses.length⟩, s)

/-! ## `business/delete/route.js` -/

/-- What the database does with the Client rows of a deleted Business. The
referential action is declared by the Prisma schema, which is not among the
sources, so the handler takes it as a parameter. -/
inductive OnDelete where
  | restrict
  | cascade
  deriving DecidableEq, Repr

/-- The call `user.updateMany` that sets `businessId` to null on the users of
a business (lines 73-76). -/
def Store.detachUsers (s : Store) (businessId : String) : Store :=
  { s with users := s.users.map (fun u =>
      if u.businessId == some businessId then { u with businessId := none } else u) }

/-- The call `business.delete` with `where: id`, made after the users of the
business were detached: P2025 when no row has the id, P2003 when, under
`restrict`, a client still refers to the row; otherwise the row is removed,
with its clients under `cascade`. -/
def Store.deleteBusiness (s : Store) (id : String) (clients : OnDelete) : Except Thrown Store :=
  match s.findBusiness id with
  | none => .error .notFound
  | some _ =>
    match clients with
    | .restrict =>
      if s.clients.any (fun c => c.businessId == id) then .error .foreignKey
      else .ok { s with businesses := s.businesses.filter (fun b => b.id != id) }
    | .cascade =>
      .ok { s with businesses := s.businesses.filter (fun b => b.id != id)
                   clients := s.clients.filter (fun c => c.businessId != id) }

/-- Handler `DELETE /api/business/delete` (lines 12-108). `body` is `none`
when the request body is not a JSON object, otherwise the value of its
`businessId` key. The users are detached before the delete and outside any
transaction. -/
def BusinessDeleteRoute.DELETE (session : Session) (body : Option JVal) (clients : OnDelete)
    (s : Store) : Response × Store :=
  match verifyApiAuth session with
  | none => (⟨401, .error "No autorizado - Sesión inválida"⟩, s)
  | some su =>
    let forbidden : Response × Store :=
      (⟨403, .error "No autorizado - Solo usuarios ADMIN pueden eliminar negocios"⟩, s)
    match s.findUser su.id with
    | none => forbidden
    | some user =>
      if user.role != "ADMIN" then forbidden
      else
        match body with
        | none => (internalError, s)
        | some businessId =>
          if !businessId.truthy then (⟨400, .error "ID del negocio es requerido"⟩, s)
          else
            match businessId with
            | .str bid =>
              match s.findBusiness bid with
              | none => (⟨404, .error "Negocio no encontrado"⟩, s)
              | some _ =>
                let s1 :=
                  if s.users.any (fun u => u.businessId == some bid) then s.detachUsers bid
                  else s
                match s1.deleteBusiness bid clients with
                | .ok s2 => (⟨200, .deleted "Negocio eliminado exitosamente" bid⟩, s2)
                | .error .notFound => (⟨404, .error "Negocio no encontrado"⟩, s1)
                | .error _ => (internalError, s1)
            | _ => (internalError, s)

/-! ## `user/update/route.js` -/

/-- The call `user.update` of PUT (lines 35-52) and the answer built from it:
`name` and `email` are passed unchanged to Prisma, which refuses values that
are neither strings nor null; P2025 when the user has no row, P2002 when
another user holds the new email; every failure is answered 500. -/
def UserUpdateRoute.update (su : SessionUser) (name email : JVal) (s : Store) :
    Response × Store :=
  match nullableColumn name, nullableColumn email with
  | .ok newName, .ok newEmail =>
    match s.findUser su.id with
    | none => (internalError, s)
    | some old =>
      let taken : Bool :=
        match newEmail with
        | some (some e) => s.users.any (fun u => u.id != su.id && u.email == some e)
        | _ => false
      if taken then (internalError, s)
      else
        let write (u : User) : User :=
          { u with name := newName.getD u.name, email := newEmail.getD u.email }
        (⟨200, .user "Usuario actualizado exitosamente" { write old with password := none }
            (old.businessId.bind s.findBusiness)⟩,
          { s with users := s.users.map (fun u => if u.id == su.id then write u else u) })
  | _, _ => (internalError, s)

/-- Handler `PUT /api/user/update` (lines 7-60). `body` is `none` when the
request body is not a JSON object, otherwise the values of its `name` and
`email` keys. The submitted email is compared with the email of the session,
not with the stored one. -/
def UserUpdateRoute.PUT (session : Session) (body : Option (JVal × JVal)) (s : Store) :
    Response × Store :=
  match verifyApiAuth session with
  | none => (⟨401, .error "No autorizado - Sesión inválida"⟩, s)
  | some su =>
    match body with
    | none => (internalError, s)
    | some (name, email) =>
      let sessionEmail : JVal :=
        match su.email with
        | some e => .str e
        | none => .undefined
      if email != sessionEmail then
        match email with
        | .str e =>
          match s.findUserByEmail e with
          | some _ => (⟨400, .error "El correo electrónico ya está en uso"⟩, s)
          | none => UserUpdateRoute.update su name email s
        | _ => (internalError, s)
      else UserUpdateRoute.update su name email s

/-! ## `clients/route.js` and `clients/[id]/route.js` -/

/-- The keys the client routes read from the request body. -/
structure ClientPayload where
  name : JVal
  email : JVal
  phone : JVal
  address : JVal
  document : JVal
  documentType : JVal
  notes : JVal
  businessId : JVal
  deriving DecidableEq, Repr

/-- The query parameters of `GET /api/clients`, each `none` when absent. -/
structure ClientQuery where
  page : Option String
  limit : Option String
  businessId : Option String
  search : Option String
  deriving DecidableEq, Repr

/-- The session check of the client routes, `!session?.user` (they call
`auth()` directly and do not look at the user id). -/
def clientAuth (session : Session) : Option SessionUser :=
  session

/-- The test `!session.user.businessId`: the business of the session, when it
has one. -/
def sessionBusiness (su : SessionUser) : Option String :=
  match su.businessId with
  | some b => if b != "" then some b else none
  | none => none

/-- The `business` object included in a client response: id and name of the
business the client belongs to. -/
def Store.businessRef (s : Store) (c : Client) : BusinessRef :=
  (s.findBusiness c.businessId).map (fun b => (b.id, b.name))

/-- The value of a digit in the given radix, as `parseInt` reads it. -/
def digitValue (radix : Nat) (c : Char) : Option Nat :=
  let v : Option Nat :=
    if c.isDigit then some (c.toNat - 48)
    else if 97 ≤ c.toNat && c.toNat ≤ 122 then some (c.toNat - 87)
    else if 65 ≤ c.toNat && c.toNat ≤ 90 then some (c.toNat - 55)
    else none
  v.filter (fun d => d < radix)

/-- The number written by the longest prefix of digits, and whether there is
one. -/
def parseDigits (radix : Nat) : List Char → Nat → Bool → Option Nat
  | [], acc, seen => if seen then some acc else none
  | c :: rest, acc, seen =>
    match digitValue radix c with
    | some d => parseDigits radix rest (acc * radix + d) true
    | none => if seen then some acc else none

/-- The number of binary digits of `n`, computed with `fuel` halvings. -/
def bitLengthAux : Nat → Nat → Nat
  | 0, _ => 0
  | fuel + 1, n => if n = 0 then 0 else bitLengthAux fuel (n / 2) + 1

/-- The number of binary digits of `n`. -/
def bitLength (n : Nat) : Nat :=
  bitLengthAux n n

/-- The JavaScript number (an IEEE 754 double) nearest to the non-negative
integer `n`: every integer below 2^53 is a double; a larger one is rounded to
53 significant bits, ties to even. The result for an `n` beyond the largest
double has more than 1024 binary digits and stands for `Infinity`. -/
def roundDouble (n : Nat) : Nat :=
  if n < 2 ^ 53 then n
  else
    let e := bitLength n - 53
    let q := n / 2 ^ e
    let r := n % 2 ^ e
    let half := 2 ^ (e - 1)
    if r < half then q * 2 ^ e
    else if half < r then (q + 1) * 2 ^ e
    else if q % 2 = 0 then q * 2 ^ e
    else (q + 1) * 2 ^ e

/-- The JavaScript number nearest to an integer: the result of an arithmetic
operation on integer-valued numbers whose exact result is `x`. -/
def toDouble (x : Int) : Int :=
  if x < 0 then -((roundDouble (-x).toNat : Nat) : Int) else ((roundDouble x.toNat : Nat) : Int)

/-- The function `parseInt` of JavaScript without a radix argument: leading
white space, an optional sign, an optional `0x` prefix, then digits. The
result is a JavaScript number: the integer read is rounded to the nearest
double. The answer is `none` when the result is `NaN` or infinite; in both
cases the `skip` or the `take` computed from it is refused by Prisma. -/
def jsParseInt (str : String) : Option Int :=
  let cs := str.data.dropWhile isJsSpace
  let (neg, cs) :=
    match cs with
    | '-' :: rest => (true, rest)
    | '+' :: rest => (false, rest)
    | _ => (false, cs)
  let n :=
    match cs with
    | '0' :: 'x' :: rest => parseDigits 16 rest 0 false
    | '0' :: 'X' :: rest => parseDigits 16 rest 0 false
    | _ => parseDigits 10 cs 0 false
  n.bind (fun v =>
    if bitLength (roundDouble v) ≤ 1024 then
      some (if neg then -((roundDouble v : Nat) : Int) else ((roundDouble v : Nat) : Int))
    else none)

/-- The expression `parseInt(searchParams.get(key) || dflt)`. -/
def parseParam (value : Option String) (dflt : String) : Option Int :=
  match value with
  | some v => if v != "" then jsParseInt v else jsParseInt dflt
  | none => jsParseInt dflt

/-- The `where` object of `GET /api/clients` (lines 35-61) as a predicate on
rows: not archived, of the tenant if one is given, and, if a search text is
given, matching it in name, email, phone or document. `contains` is the
case-insensitive containment test of the database. -/
def clientListWhere (contains : String → String → Bool) (tenant : Option String)
    (search : Option String) (c : Client) : Bool :=
  !c.archived &&
  (match tenant with
   | some b => c.businessId == b
   | none => true) &&
  (match search with
   | some q =>
     if q != "" then
       contains c.name q || (c.email.map (fun v => contains v q)).getD false ||
       (c.phone.map (fun v => contains v q)).getD false ||
       (c.document.map (fun v => contains v q)).getD false
     else true
   | none => true)

/-- The call `client.findMany` with `orderBy: createdAt desc`, `skip` and
`take`: a negative `skip` is a validation error, and so is a `skip` or a
`take` that does not fit a signed 64-bit integer; the number of rows taken is
the magnitude of `take` read as a 32-bit count (a `take` of 4294967296 returns
no row); a negative `take` counts from the end of the ordered rows. -/
def pageOf (rows : List Client) (skip take : Int) : Except Thrown (List Client) :=
  if skip < 0 then .error .validation
  else if 2 ^ 63 ≤ skip ∨ take < -(2 ^ 63) ∨ 2 ^ 63 ≤ take then .error .validation
  else if 0 ≤ take then .ok ((rows.drop skip.toNat).take (take.natAbs % 2 ^ 32))
  else .ok (((rows.reverse.drop skip.toNat).take (take.natAbs % 2 ^ 32)).reverse)

/-- The expression `Math.ceil(total / limit)`, `none` when the quotient is
infinite or not a number. `total` is the count of a table, below 2^53, so the
rounding of the quotient to a double never reaches the next integer. -/
def ceilDiv (total : Nat) (limit : Int) : Option Int :=
  if limit = 0 then none
  else if 0 < limit then some (((total + limit.toNat - 1) / limit.toNat : Nat) : Int)
  else some (-((total / (-limit).toNat : Nat) : Int))

/-- The queries of `GET /api/clients` (lines 63-94) once the `where` object
is built for `tenant`: the page of matching rows, newest first, with the
business of each, and the pagination computed from their count. The
subtraction and the products are operations on JavaScript numbers, rounded to
the nearest double. A `page` or `limit` that `parseInt` cannot read makes
`skip` or `take` a `NaN`, which Prisma refuses. -/
def listClients (q : ClientQuery) (contains : String → String → Bool)
    (tenant : Option String) (s : Store) : Response × Store :=
  match parseParam q.page "1", parseParam q.limit "20" with
  | some page, some limit =>
    let rows := newestFirst (fun c : Client => c.createdAt)
      (s.clients.filter (clientListWhere contains tenant q.search))
    match pageOf rows (toDouble (toDouble (page - 1) * limit)) limit with
    | .error _ => (internalError, s)
    | .ok clients =>
      let total := rows.length
      (⟨200, .clients (clients.map (fun c => (c, s.businessRef c)))
        { page := page, limit := limit, total := total, totalPages := ceilDiv total limit,
          hasNext := decide (toDouble (page * limit) < total), hasPrev := decide (1 < page) }⟩, s)
  | _, _ => (internalError, s)

/-- Handler `GET /api/clients` (lines 15-103): a session that is not ADMIN
sees the clients of its own business, whatever the query asks; an ADMIN sees
those of the business named by a non-empty `businessId` parameter, or all. -/
def ClientsRoute.GET (session : Session) (q : ClientQuery)
    (contains : String → String → Bool) (s : Store) : Response × Store :=
  match clientAuth session with
  | none => (⟨401, .error "No autorizado"⟩, s)
  | some su =>
    if su.role != "ADMIN" then
      match sessionBusiness su with
      | none => (⟨403, .error "Usuario sin negocio asignado"⟩, s)
      | some b => listClients q contains (some b) s
    else
      match q.businessId with
      | some b => if b != "" then listClients q contains (some b) s else listClients q contains none s
      | none => listClients q contains none s

/-- The `businessId` a new client gets (clients/route.js lines 131-138): for
ADMIN the one of the payload if it is truthy, else the one of the session;
otherwise the one of the session. -/
def targetBusinessId (su : SessionUser) (p : ClientPayload) : JVal :=
  let own : JVal :=
    match su.businessId with
    | some b => .str b
    | none => .undefined
  if su.role == "ADMIN" then (if p.businessId.truthy then p.businessId else own) else own

/-- The fields of the `data` object shared by the create and the update of a
client. -/
structure ClientData where
  name : String
  email : Option String
  phone : Option String
  address : Option String
  document : Option String
  documentType : Option String
  notes : Option String
  deriving DecidableEq, Repr

/-- The `data` object of a client (clients/route.js lines 179-186,
clients/[id]/route.js lines 145-152): the trimmed name and the other fields as
`x?.trim() || null`. -/
def buildClientData (p : ClientPayload) : Except Thrown ClientData := do
  let name ← trimString p.name
  let email ← trimOrNull p.email
  let phone ← trimOrNull p.phone
  let address ← trimOrNull p.address
  let document ← trimOrNull p.document
  let documentType ← trimOrNull p.documentType
  let notes ← trimOrNull p.notes
  pure { name := name, email := email, phone := phone, address := address,
         document := document, documentType := documentType, notes := notes }

/-- The row after `client.update` wrote `d` and the clock to it. -/
def ClientData.apply (d : ClientData) (now : Nat) (c : Client) : Client :=
  { c with name := d.name, email := d.email, phone := d.phone, address := d.address,
           document := d.document, documentType := d.documentType, notes := d.notes,
           updatedAt := now }

/-- The row `client.create` makes of `d` for the business `businessId`. -/
def ClientData.newRow (d : ClientData) (businessId : String) (g : Generated)
    (dflt : ColumnDefaults) : Client :=
  { id := g.clientId, name := d.name, email := d.email, phone := d.phone,
    address := d.address, document := d.document, documentType := d.documentType,
    notes := d.notes, businessId := businessId, archived := dflt.clientArchived,
    createdAt := g.now, updatedAt := g.now }

/-- The call `client.create`: P2002 when the id is already held by a row;
otherwise the row is appended. -/
def Store.createClient (s : Store) (c : Client) : Except Thrown Store :=
  if s.clients.any (fun x => x.id == c.id) then .error (.uniqueViolation "id")
  else .ok { s with clients := s.clients ++ [c] }

/-- The call `client.update` with `where: id`: P2025 when no row has the
id. -/
def Store.updateClient (s : Store) (id : String) (f : Client → Client) : Except Thrown Store :=
  match s.clients.find? (fun c => c.id == id) with
  | none => .error .notFound
  | some _ => .ok { s with clients := s.clients.map (fun c => if c.id == id then f c else c) }

/-- The last step of `POST /api/clients` (lines 177-199): build the row and
create it, answering 201 with the client and its business. -/
def ClientsRoute.create (p : ClientPayload) (businessId : String) (g : Generated)
    (dflt : ColumnDefaults) (s : Store) : Response × Store :=
  match buildClientData p with
  | .error _ => (internalError, s)
  | .ok data =>
    let client := data.newRow businessId g dflt
    match s.createClient client with
    | .error _ => (internalError, s)
    | .ok s1 => (⟨201, .client client (s1.businessRef client)⟩, s1)

/-- Handler `POST /api/clients` (lines 108-208). The test
`!name || !name.trim()` is `nameMissing`. -/
def ClientsRoute.POST (session : Session) (body : Option ClientPayload) (g : Generated)
    (dflt : ColumnDefaults) (s : Store) : Response × Store :=
  match clientAuth session with
  | none => (⟨401, .error "No autorizado"⟩, s)
  | some su =>
    match body with
    | none => (internalError, s)
    | some p =>
      match nameMissing p.name with
      | .error _ => (internalError, s)
      | .ok true => (⟨400, .error "El nombre es requerido"⟩, s)
      | .ok false =>
        let target := targetBusinessId su p
        if !target.truthy then (⟨400, .error "Negocio no especificado"⟩, s)
        else
          match target with
          | .str businessId =>
            match s.findBusiness businessId with
            | none => (⟨404, .error "Negocio no encontrado"⟩, s)
            | some _ =>
              if p.email.truthy then
                match p.email with
                | .str email =>
                  match s.clients.find? (fun c =>
                      c.email == some email && c.businessId == businessId && !c.archived) with
                  | some _ =>
                    (⟨409, .error "Ya existe un cliente con este email en el negocio"⟩, s)
                  | none => ClientsRoute.create p businessId g dflt s
                | _ => (internalError, s)
              else ClientsRoute.create p businessId g dflt s
          | _ => (internalError, s)

/-- The `where` object of the handlers of `clients/[id]/route.js` and what
they answer before they look the client up: 403 for a session that is not
ADMIN and has no business, otherwise the predicate on rows: the id, not
archived, and of the business of a session that is not ADMIN. -/
def clientAccess (su : SessionUser) (id : String) : Except Response (Client → Bool) :=
  if su.role != "ADMIN" then
    match sessionBusiness su with
    | none => .error ⟨403, .error "Usuario sin negocio asignado"⟩
    | some b => .ok (fun c => c.id == id && !c.archived && c.businessId == b)
  else .ok (fun c => c.id == id && !c.archived)

/-- Handler `GET /api/clients/[id]` (lines 10-68). -/
def ClientIdRoute.GET (session : Session) (id : String) (s : Store) : Response × Store :=
  match clientAuth session with
  | none => (⟨401, .error "No autorizado"⟩, s)
  | some su =>
    match clientAccess su id with
    | .error forbidden => (forbidden, s)
    | .ok wh =>
      match s.clients.find? wh with
      | none => (⟨404, .error "Cliente no encontrado"⟩, s)
      | some client => (⟨200, .client client (s.businessRef client)⟩, s)

/-- The last step of `PUT /api/clients/[id]` (lines 142-165): write the data
and the clock to the row and answer 200 with the updated client and its
business. -/
def ClientIdRoute.update (p : ClientPayload) (id : String) (existingClient : Client)
    (now : Nat) (s : Store) : Response × Store :=
  match buildClientData p with
  | .error _ => (internalError, s)
  | .ok data =>
    match s.updateClient id (data.apply now) with
    | .error _ => (internalError, s)
    | .ok s1 =>
      let updatedClient := data.apply now existingClient
      (⟨200, .client updatedClient (s1.businessRef updatedClient)⟩, s1)

/-- Handler `PUT /api/clients/[id]` (lines 73-174). The name is validated
before the access filter is built. -/
def ClientIdRoute.PUT (session : Session) (id : String) (body : Option ClientPayload)
    (now : Nat) (s : Store) : Response × Store :=
  match clientAuth session with
  | none => (⟨401, .error "No autorizado"⟩, s)
  | some su =>
    match body with
    | none => (internalError, s)
    | some p =>
      match nameMissing p.name with
      | .error _ => (internalError, s)
      | .ok true => (⟨400, .error "El nombre es requerido"⟩, s)
      | .ok false =>
        match clientAccess su id with
        | .error forbidden => (forbidden, s)
        | .ok wh =>
          match s.clients.find? wh with
          | none => (⟨404, .error "Cliente no encontrado"⟩, s)
          | some existingClient =>
            if p.email.truthy && p.email != (match existingClient.email with
                | some e => JVal.str e
                | none => JVal.null) then
              match p.email with
              | .str email =>
                match s.clients.find? (fun c =>
                    c.email == some email && c.businessId == existingClient.businessId &&
                    !c.archived && c.id != id) with
                | some _ =>
                  (⟨409, .error "Ya existe un cliente con este email en el negocio"⟩, s)
                | none => ClientIdRoute.update p id existingClient now s
              | _ => (internalError, s)
            else ClientIdRoute.update p id existingClient now s

/-- Handler `DELETE /api/clients/[id]` (lines 179-240): the client is archived,
not removed. -/
def ClientIdRoute.DELETE (session : Session) (id : String) (now : Nat) (s : Store) :
    Response × Store :=
  match clientAuth session with
  | none => (⟨401, .error "No autorizado"⟩, s)
  | some su =>
    match clientAccess su id with
    | .error forbidden => (forbidden, s)
    | .ok wh =>
      match s.clients.find? wh with
      | none => (⟨404, .error "Cliente no encontrado"⟩, s)
      | some _ =>
        match s.updateClient id (fun c => { c with archived := true, updatedAt := now }) with
        | .error _ => (internalError, s)
        | .ok s1 => (⟨200, .success "Cliente archivado correctamente"⟩, s1)

/-! ## Predicates on stores -/

/-- The number of Business rows whose `isSelected` flag is set. -/
def selectedCount (s : Store) : Nat :=
  s.businesses.countP (fun b => b.isSelected)

/-- The primary key of the Business table: no two rows share an id. -/
def UniqueIds (s : Store) : Prop :=
  (s.businesses.map (fun b => b.id)).Nodup

instance (s : Store) : Decidable (UniqueIds s) := by
  unfold UniqueIds; infer_instance

/-- The clients of a client-list answer, in the order of the answer; the empty
list for any other answer. -/
def returnedClients (r : Response × Store) : List Client :=
  match r.1.body with
  | .clients rows _ => rows.map (fun x => x.1)
  | _ => []

/-- The statuses of validation and authorization errors: 400, 401, 403, 404
and 409. -/
def isClientError (status : Nat) : Prop :=
  status = 400 ∨ status = 401 ∨ status = 403 ∨ status = 404 ∨ status = 409

/-- The invariant of the unique column `whatsapp`: two different rows of the
Business table never hold the same non-null whatsapp. -/
def UniqueWhatsapp (s : Store) : Prop :=
  s.businesses.Pairwise (fun a b => a.whatsapp = b.whatsapp → a.whatsapp = none)

instance (s : Store) : Decidable (UniqueWhatsapp s) := by
  unfold UniqueWhatsapp; infer_instance

/-- The store in which the client `id` is archived at the time `now`: the row
stays, with `archived` set and `updatedAt` rewritten, and nothing else
changes. -/
def Store.archiveClient (s : Store) (id : String) (now : Nat) : Store :=
  { s with clients := s.clients.map (fun c =>
      if c.id == id then { c with archived := true, updatedAt := now } else c) }

/-- The invariant of the Client table: no two non-archived clients with an
email share both the email and the business. -/
def UniqueEmails (s : Store) : Prop :=
  ((s.clients.filter (fun c => !c.archived && c.email.isSome)).map
    (fun c => (c.email, c.businessId))).Nodup

instance (s : Store) : Decidable (UniqueEmails s) := by
  unfold UniqueEmails; infer_instance

/-- The store in which `businessId` is the selected business and no other row
is: every flag is rewritten to say whether the row has that id. -/
def selectOnly (s : Store) (businessId : String) : Store :=
  { s with businesses := s.businesses.map (fun b => { b with isSelected := b.id == businessId }) }

/-- The selection is settled: exactly one row is selected, or none is and
every business is archived. -/
def SelectionSettled (s : Store) : Prop :=
  selectedCount s = 1 ∨ (selectedCount s = 0 ∧ ∀ b ∈ s.businesses, b.archived = true)

/-- A request to the select route: the session it carries and, for POST, its
body. -/
inductive SelectRequest where
  | post (session : Session) (body : Option JVal)
  | get (session : Session)
  deriving DecidableEq, Repr

/-- The store after one request to the select route. -/
def SelectRequest.run (r : SelectRequest) (s : Store) : Store :=
  match r with
  | .post session body => (SelectRoute.POST session body s).2
  | .get session => (SelectRoute.GET session s).2

/-- The store after a sequence of requests to the select route, executed one
after the other. -/
def runSelect (reqs : List SelectRequest) (s : Store) : Store :=
  reqs.foldl (fun st r => r.run st) s

/-! ## Example data -/

/-- A Business row with the given id, flags and creation time, and no contact
fields. -/
def sampleBusiness (id : String) (archived isSelected : Bool) (createdAt : Nat) : Business :=
  { id := id, name := "Shop " ++ id, description := none, address := none, phone := none,
    email := none, website := none, whatsapp := none, logo := none, archived := archived,
    isSelected := isSelected, createdAt := createdAt, updatedAt := createdAt }

/-- A User row with the given id, role and business. -/
def sampleUser (id role : String) (businessId : Option String) : User :=
  { id := id, name := some id, email := some (id ++ "@x.com"), password := some "hash",
    role := role, businessId := businessId }

/-- The session of the stored user `id`. -/
def sampleSession (id role : String) (businessId : Option String) : SessionUser :=
  { id := id, email := some (id ++ "@x.com"), role := role, businessId := businessId }

/-- Two non-archived businesses, none selected; an admin of `b1`, a user of
`b2` and a user without business. -/
def storeFresh : Store :=
  { businesses := [sampleBusiness "b1" false false 10, sampleBusiness "b2" false false 20],
    users := [sampleUser "ana" "ADMIN" (some "b1"), sampleUser "bob" "USER" (some "b2"),
      sampleUser "eve" "USER" none],
    clients := [] }

/-- As `storeFresh`, with `b2` archived and `b1` selected. -/
def storeArchived : Store :=
  { businesses := [sampleBusiness "b1" false true 10, sampleBusiness "b2" true false 20],
    users := [sampleUser "ana" "ADMIN" (some "b1"), sampleUser "bob" "USER" (some "b2"),
      sampleUser "eve" "USER" none],
    clients := [] }

/-- A store whose only business is archived and belongs to the user `bob`. -/
def storeOwnArchived : Store :=
  { businesses := [sampleBusiness "b2" true false 20],
    users := [sampleUser "bob" "USER" (some "b2")],
    clients := [] }

/-- A Client row with the given id, business, email, archived flag and
creation time, and no other contact fields. -/
def sampleClient (id businessId : String) (email : Option String) (archived : Bool)
    (createdAt : Nat) : Client :=
  { id := id, name := "Client " ++ id, email := email, phone := none, address := none,
    document := none, documentType := none, notes := none, businessId := businessId,
    archived := archived, createdAt := createdAt, updatedAt := createdAt }

/-- The fresh store with four clients: `c1` of `b1`, and `c2`, `c3`
(archived) and `c4` of `b2`; `c1` and `c2` share an email across tenants. -/
def storeClients : Store :=
  { storeFresh with
    clients := [sampleClient "c1" "b1" (some "a@x.com") false 1,
      sampleClient "c2" "b2" (some "a@x.com") false 2,
      sampleClient "c3" "b2" (some "z@x.com") true 3,
      sampleClient "c4" "b2" (some "q@x.com") false 4] }

/-- Generated values for the examples. -/
def sampleGenerated : Generated :=
  { businessId := "b9", userId := "u9", now := 99, placeholder := "temp_99_abc",
    clientId := "c9" }

/-- Column defaults for the examples: nothing archived, nothing selected. -/
def sampleDefaults : ColumnDefaults :=
  { logo := none, archived := false, isSelected := false, clientArchived := false }

/-- A client payload with the given name and email and no other key. -/
def samplePayload (name email : JVal) : ClientPayload :=
  { name := name, email := email, phone := .undefined, address := .undefined,
    document := .undefined, documentType := .undefined, notes := .undefined,
    businessId := .undefined }

/-- A business payload with the given name and no other key. -/
def sampleBusinessPayload (name : JVal) : BusinessPayload :=
  { name := name, description := .undefined, address := .undefined, phone := .undefined,
    email := .undefined, website := .undefined, whatsapp := .undefined,
    archived := .undefined }

/-- A registration payload for "Ana Shop" with the given user name. -/
def sampleRegisterPayload (name : JVal) : RegisterPayload :=
  { name := name, email := .str "ana2@x.com", password := .str "secret1",
    businessName := .str "Ana Shop", businessDescription := .undefined }

/-- The business that the registration of "Ana Shop" creates from
`sampleGenerated` and `sampleDefaults`. -/
def anaShop : Business :=
  { id := "b9", name := "Ana Shop", description := none, address := none, phone := none,
    email := none, website := none, whatsapp := some "temp_99_abc", logo := none,
    archived := false, isSelected := false, createdAt := 99, updatedAt := 99 }

/-- The user that the registration of "Ana Shop" creates, the password hashed
by the identity function. -/
def anaUser : User :=
  { id := "u9", name := some "Ana", email := some "ana2@x.com", password := some "secret1",
    role := "ADMIN", businessId := some "b9" }

/-- A business payload with the given name and whatsapp and no other key. -/
def whatsappPayload (name whatsapp : JVal) : BusinessPayload :=
  { sampleBusinessPayload name with whatsapp := whatsapp }

/-- The business `b1` holding the whatsapp "+111". -/
def whatsappBusiness : Business :=
  { sampleBusiness "b1" false false 10 with whatsapp := some "+111" }

/-- Two businesses, `b1` holding the whatsapp "+111" and `b2` holding none,
and an admin whose business is `b2`. -/
def storeWhatsapp : Store :=
  { businesses := [whatsappBusiness, sampleBusiness "b2" false false 20],
    users := [sampleUser "ana" "ADMIN" (some "b2")],
    clients := [] }

/-! ## Lemmas on the store operations and the select route -/

theorem findBusiness_updateMany (s : Store) (p : Business → Bool) (f : Business → Business)
    (hf : ∀ b, (f b).id = b.id) (id : String) :
    ((s.updateManyBusiness p f).findBusiness id).isSome = (s.findBusiness id).isSome := by
  unfold Store.findBusiness Store.updateManyBusiness
  simp only [List.find?_map]
  have : ((fun b : Business => b.id == id) ∘ fun b => if p b = true then f b else b)
      = fun b => b.id == id := by
    funext b
    simp only [Function.comp]
    split <;> simp [hf]
  rw [this]
  cases List.find? (fun b => b.id == id) s.businesses <;> rfl

theorem selectTransaction_ok (s : Store) (bid : String) (h : (s.findBusiness bid).isSome) :
    selectTransaction s bid = .ok (selectOnly s bid) := by
  unfold selectTransaction Store.updateBusiness
  have h1 := findBusiness_updateMany s (fun _ => true) (fun b => { b with isSelected := false })
    (fun _ => rfl) bid
  rw [h] at h1
  split
  · rename_i h2; rw [h2] at h1; cases h1
  · congr 1
    unfold selectOnly Store.updateManyBusiness
    simp only [List.map_map, Store.mk.injEq, and_true]
    apply List.map_congr_left
    intro b _
    by_cases hb : b.id = bid <;> simp [hb]

theorem autoSelectTransaction_ok (s : Store) (bid : String) (h : (s.findBusiness bid).isSome) :
    autoSelectTransaction s bid = .ok (selectOnly s bid) := by
  unfold autoSelectTransaction Store.updateBusiness
  have h1 := findBusiness_updateMany s (fun b => b.isSelected) (fun b => { b with isSelected := false })
    (fun _ => rfl) bid
  rw [h] at h1
  split
  · rename_i h2; rw [h2] at h1; cases h1
  · congr 1
    unfold selectOnly Store.updateManyBusiness
    simp only [List.map_map, Store.mk.injEq, and_true]
    apply List.map_congr_left
    intro b _
    by_cases hb : b.id = bid <;> by_cases hs : b.isSelected = true <;> simp [hb, hs]
    cases b; simp_all

theorem selectTransaction_error (s : Store) (bid : String) (h : s.findBusiness bid = none) :
    selectTransaction s bid = .error .notFound := by
  unfold selectTransaction Store.updateBusiness
  have h1 := findBusiness_updateMany s (fun _ => true) (fun b => { b with isSelected := false })
    (fun _ => rfl) bid
  rw [h] at h1
  split
  · rfl
  · rename_i h2; rw [h2] at h1; cases h1

theorem ids_selectOnly (s : Store) (bid : String) :
    (selectOnly s bid).businesses.map (fun b => b.id) = s.businesses.map (fun b => b.id) := by
  simp [selectOnly, List.map_map, Function.comp]

theorem selectedCount_selectOnly (s : Store) (bid : String) :
    selectedCount (selectOnly s bid) = (s.businesses.map (fun b => b.id)).count bid := by
  unfold selectedCount selectOnly
  simp only [List.countP_map, List.count_eq_countP]
  rfl


theorem selectPOST_result (session : Session) (body : Option JVal) (s : Store) :
    ((SelectRoute.POST session body s).2 = s ∧ (SelectRoute.POST session body s).1.status ≠ 200) ∨
    ∃ bid, body = some (.str bid) ∧ (s.findBusiness bid).isSome ∧
      SelectRoute.POST session body s
        = (⟨200, .success "Negocio seleccionado correctamente"⟩, selectOnly s bid) := by
  unfold SelectRoute.POST
  split
  · left; simp
  · split
    · left; simp
    · split
      · left; simp
      · split
        · rename_i bid _
          split
          · left; simp
          · rename_i b hb
            have hsome : (s.findBusiness bid).isSome := by rw [hb]; rfl
            simp only [selectTransaction_ok s bid hsome]
            split
            · split
              · left; simp
              · split
                · left; simp
                · right; exact ⟨bid, rfl, hsome, rfl⟩
            · right; exact ⟨bid, rfl, hsome, rfl⟩
        · left; simp


theorem firstByCreatedAt_eq_none (l : List Business) :
    firstByCreatedAt l = none ↔ l = [] := by
  cases l with
  | nil => simp [firstByCreatedAt]
  | cons b rest =>
    simp only [firstByCreatedAt]
    cases firstByCreatedAt rest with
    | none => simp
    | some c => simp only []; split <;> simp

theorem firstByCreatedAt_spec (l : List Business) (fb : Business)
    (h : firstByCreatedAt l = some fb) :
    fb ∈ l ∧ ∀ c ∈ l, fb.createdAt ≤ c.createdAt := by
  induction l generalizing fb with
  | nil => simp [firstByCreatedAt] at h
  | cons b rest ih =>
    simp only [firstByCreatedAt] at h
    cases hr : firstByCreatedAt rest with
    | none =>
      rw [hr] at h
      simp only [Option.some.injEq] at h
      subst h
      have : rest = [] := (firstByCreatedAt_eq_none rest).1 hr
      subst this
      simp
    | some c =>
      rw [hr] at h
      simp only [] at h
      have ⟨hc, hmin⟩ := ih c hr
      split at h
      · rename_i hlt
        simp only [Option.some.injEq] at h
        subst h
        refine ⟨List.mem_cons_of_mem _ hc, ?_⟩
        intro d hd
        rcases List.mem_cons.1 hd with rfl | hd
        · exact Nat.le_of_lt hlt
        · exact hmin d hd
      · rename_i hge
        simp only [Option.some.injEq] at h
        subst h
        refine ⟨List.mem_cons_self _ _, ?_⟩
        intro d hd
        rcases List.mem_cons.1 hd with rfl | hd
        · exact Nat.le_refl _
        · exact Nat.le_trans (Nat.le_of_not_lt hge) (hmin d hd)

theorem findBusiness_isSome_of_mem (s : Store) (b : Business) (hb : b ∈ s.businesses) :
    (s.findBusiness b.id).isSome := by
  unfold Store.findBusiness
  rw [List.find?_isSome]
  exact ⟨b, hb, by simp⟩

theorem findBusiness_some (s : Store) (bid : String) (b : Business)
    (h : s.findBusiness bid = some b) : b ∈ s.businesses ∧ b.id = bid := by
  unfold Store.findBusiness at h
  refine ⟨List.mem_of_find?_eq_some h, ?_⟩
  have := List.find?_some h
  simpa using this

theorem fallbackBusiness_mem (su : SessionUser) (s : Store) (fb : Business)
    (h : fallbackBusiness su s = some fb) : fb ∈ s.businesses := by
  unfold fallbackBusiness at h
  split at h
  · have := (firstByCreatedAt_spec _ fb h).1
    exact (List.mem_filter.1 this).1
  · split at h
    · cases h
    · split at h
      · cases h
      · exact (findBusiness_some s _ fb h).1

theorem selectGET_result (session : Session) (s : Store) :
    (SelectRoute.GET session s).2 = s ∨
    ∃ su fb, verifyApiAuth session = some su ∧ fallbackBusiness su s = some fb ∧
      s.businesses.find? (fun b => b.isSelected && !b.archived) = none ∧
      SelectRoute.GET session s
        = (⟨200, .selected (some { fb with isSelected := true }) (some true) none⟩,
            selectOnly s fb.id) := by
  unfold SelectRoute.GET
  split
  · left; rfl
  · rename_i su hsu
    split
    · left; rfl
    · rename_i hfind
      split
      · rename_i fb hfb
        have hsome := findBusiness_isSome_of_mem s fb (fallbackBusiness_mem su s fb hfb)
        simp only [autoSelectTransaction_ok s fb.id hsome]
        right
        exact ⟨su, fb, hsu, hfb, hfind, rfl⟩
      · left; rfl

theorem selectedCount_selectOnly_le (s : Store) (bid : String) (hu : UniqueIds s) :
    selectedCount (selectOnly s bid) ≤ 1 := by
  rw [selectedCount_selectOnly]
  exact List.nodup_iff_count_le_one.1 hu bid

theorem selectedCount_selectOnly_eq (s : Store) (bid : String) (hu : UniqueIds s)
    (h : (s.findBusiness bid).isSome) : selectedCount (selectOnly s bid) = 1 := by
  rw [selectedCount_selectOnly]
  apply List.count_eq_one_of_mem hu
  unfold Store.findBusiness at h
  rw [List.find?_isSome] at h
  obtain ⟨x, hx, hxid⟩ := h
  exact List.mem_map.2 ⟨x, hx, by simpa using hxid⟩

theorem uniqueIds_selectOnly (s : Store) (bid : String) (hu : UniqueIds s) :
    UniqueIds (selectOnly s bid) := by
  unfold UniqueIds
  rw [ids_selectOnly]
  exact hu

theorem run_cases (r : SelectRequest) (s : Store) :
    r.run s = s ∨ ∃ bid, (s.findBusiness bid).isSome ∧ r.run s = selectOnly s bid := by
  cases r with
  | post session body =>
    rcases selectPOST_result session body s with h | ⟨bid, _, hs, h⟩
    · left; exact h.1
    · right; exact ⟨bid, hs, by simp [SelectRequest.run, h]⟩
  | get session =>
    rcases selectGET_result session s with h | ⟨su, fb, _, hfb, _, h⟩
    · left; exact h
    · right
      exact ⟨fb.id, findBusiness_isSome_of_mem s fb (fallbackBusiness_mem su s fb hfb),
        by simp [SelectRequest.run, h]⟩


theorem run_preserves (r : SelectRequest) (s : Store) (hu : UniqueIds s) :
    UniqueIds (r.run s) ∧ (selectedCount s ≤ 1 → selectedCount (r.run s) ≤ 1) ∧
    (SelectionSettled s → SelectionSettled (r.run s)) := by
  rcases run_cases r s with h | ⟨bid, hs, h⟩
  · rw [h]; exact ⟨hu, id, id⟩
  · rw [h]
    exact ⟨uniqueIds_selectOnly s bid hu, fun _ => selectedCount_selectOnly_le s bid hu,
      fun _ => Or.inl (selectedCount_selectOnly_eq s bid hu hs)⟩

theorem runSelect_preserves (reqs : List SelectRequest) (s : Store) (hu : UniqueIds s) :
    UniqueIds (runSelect reqs s) ∧ (selectedCount s ≤ 1 → selectedCount (runSelect reqs s) ≤ 1) ∧
    (SelectionSettled s → SelectionSettled (runSelect reqs s)) := by
  induction reqs generalizing s with
  | nil => exact ⟨hu, id, id⟩
  | cons r rest ih =>
    have h1 := run_preserves r s hu
    have h2 := ih (r.run s) h1.1
    simp only [runSelect, List.foldl_cons] at h2 ⊢
    exact ⟨h2.1, fun h => h2.2.1 (h1.2.1 h), fun h => h2.2.2 (h1.2.2 h)⟩

/-- C1: a successful POST /business/select for an existing business b rewrites
every isSelected flag to say whether the row is b: the row of b is selected,
every other row is not, and exactly one row is selected. -/
theorem selectPOST_selects_exactly_one (session : Session) (s : Store) (b : Business)
    (hu : UniqueIds s) (hb : b ∈ s.businesses)
    (hok : (SelectRoute.POST session (some (.str b.id)) s).1.status = 200) :
    (SelectRoute.POST session (some (.str b.id)) s).2.businesses
        = s.businesses.map (fun x => { x with isSelected := x.id == b.id }) ∧
    (SelectRoute.POST session (some (.str b.id)) s).2.users = s.users ∧
    { b with isSelected := true } ∈ (SelectRoute.POST session (some (.str b.id)) s).2.businesses ∧
    (∀ x ∈ (SelectRoute.POST session (some (.str b.id)) s).2.businesses,
        x.id ≠ b.id → x.isSelected = false) ∧
    selectedCount (SelectRoute.POST session (some (.str b.id)) s).2 = 1 := by
  rcases selectPOST_result session (some (.str b.id)) s with h | ⟨bid, hbody, hs, h⟩
  · exact absurd hok h.2
  · simp only [Option.some.injEq, JVal.str.injEq] at hbody
    subst hbody
    rw [h]
    refine ⟨rfl, rfl, ?_, ?_, selectedCount_selectOnly_eq s b.id hu hs⟩
    · exact List.mem_map.2 ⟨b, hb, by simp⟩
    · intro x hx hne
      obtain ⟨y, _, rfl⟩ := List.mem_map.1 hx
      simpa using hne

/-- C2: starting from a store with at most one selected business, at most one
business is selected after every finite sequence of POST and GET requests to
the select route, whatever their sessions and bodies. -/
theorem runSelect_at_most_one (reqs : List SelectRequest) (s : Store)
    (hu : UniqueIds s) (h : selectedCount s ≤ 1) :
    selectedCount (runSelect reqs s) ≤ 1 :=
  (runSelect_preserves reqs s hu).2.1 h

/-- Witness of C1: on the fresh store the ADMIN `ana` selects `b2`. -/
theorem selectPOST_selects_exactly_one_witness :
    selectedCount (SelectRoute.POST (some (sampleSession "ana" "ADMIN" (some "b1")))
      (some (.str (sampleBusiness "b2" false false 20).id)) storeFresh).2 = 1 :=
  (selectPOST_selects_exactly_one (some (sampleSession "ana" "ADMIN" (some "b1"))) storeFresh
    (sampleBusiness "b2" false false 20) (by decide) (by decide) (by decide)).2.2.2.2

/-- Witness of C2: a mixed sequence of accepted and rejected requests on the
fresh store. -/
theorem runSelect_at_most_one_witness :
    selectedCount (runSelect
      [.get (some (sampleSession "bob" "USER" (some "b2"))),
       .post (some (sampleSession "bob" "USER" (some "b2"))) (some (.str "b1")),
       .post (some (sampleSession "ana" "ADMIN" (some "b1"))) (some (.str "b1")),
       .post none (some (.num 3)),
       .get (some (sampleSession "eve" "USER" none))] storeFresh) ≤ 1 :=
  runSelect_at_most_one _ storeFresh (by decide) (by decide)


theorem countP_le_one_unique {α : Type} (p : α → Bool) (l : List α) (h : l.countP p ≤ 1)
    (a b : α) (ha : a ∈ l) (hb : b ∈ l) (hpa : p a = true) (hpb : p b = true) : a = b := by
  induction l with
  | nil => cases ha
  | cons x rest ih =>
    by_cases hx : p x = true
    · rw [List.countP_cons_of_pos _ _ hx] at h
      have h0 : rest.countP p = 0 := by omega
      rw [List.countP_eq_zero] at h0
      rcases List.mem_cons.1 ha with rfl | ha
      · rcases List.mem_cons.1 hb with rfl | hb
        · rfl
        · exact absurd hpb (h0 b hb)
      · exact absurd hpa (h0 a ha)
    · rw [List.countP_cons_of_neg _ _ hx] at h
      rcases List.mem_cons.1 ha with rfl | ha
      · exact absurd hpa hx
      · rcases List.mem_cons.1 hb with rfl | hb
        · exact absurd hpb hx
        · exact ih h ha hb

theorem verifyApiAuth_some (su : SessionUser) (h : su.id ≠ "") :
    verifyApiAuth (some su) = some su := by
  simp [verifyApiAuth, h]

theorem selectedCount_pos_of_mem (s : Store) (b : Business) (hb : b ∈ s.businesses)
    (hsel : b.isSelected = true) : 0 < selectedCount s := by
  unfold selectedCount
  exact List.countP_pos_iff.2 ⟨b, hb, hsel⟩

theorem selectGET_admin_settles (su : SessionUser) (s : Store) (hu : UniqueIds s)
    (hauth : su.id ≠ "") (hadmin : su.role = "ADMIN") (h : selectedCount s ≤ 1) :
    SelectionSettled (SelectRoute.GET (some su) s).2 := by
  unfold SelectRoute.GET
  rw [verifyApiAuth_some su hauth]
  simp only []
  split
  · rename_i b hb
    have hmem := List.mem_of_find?_eq_some hb
    have hp := List.find?_some hb
    simp only [Bool.and_eq_true] at hp
    have := selectedCount_pos_of_mem s b hmem hp.1
    left
    show selectedCount s = 1
    omega
  · split
    · rename_i fb hfb
      have hsome := findBusiness_isSome_of_mem s fb (fallbackBusiness_mem su s fb hfb)
      simp only [autoSelectTransaction_ok s fb.id hsome]
      left
      exact selectedCount_selectOnly_eq s fb.id hu hsome
    · rename_i hnone
      unfold fallbackBusiness at hnone
      simp only [hadmin, beq_self_eq_true, if_true] at hnone
      rw [firstByCreatedAt_eq_none, List.filter_eq_nil_iff] at hnone
      have hall : ∀ b ∈ s.businesses, b.archived = true := by
        intro b hb
        simpa using hnone b hb
      show SelectionSettled s
      unfold SelectionSettled
      rcases Nat.lt_or_ge (selectedCount s) 1 with h0 | h1
      · right; exact ⟨by omega, hall⟩
      · left; omega

/-- C3 (counterexample): from a store with two non-archived businesses and none
selected, a rejected POST and a GET of a user without business leave zero
businesses selected although a non-archived business exists. -/
theorem settled_fails_without_fallback :
    UniqueIds storeFresh ∧ selectedCount storeFresh ≤ 1 ∧
    selectedCount (runSelect
      [.post (some (sampleSession "eve" "USER" none)) (some (.str "b1")),
       .get (some (sampleSession "eve" "USER" none))] storeFresh) = 0 ∧
    ∃ b ∈ (runSelect
      [.post (some (sampleSession "eve" "USER" none)) (some (.str "b1")),
       .get (some (sampleSession "eve" "USER" none))] storeFresh).businesses,
      b.archived = false := by
  decide

/-- C3 (amended): the property "exactly one business is selected, or none is and
every business is archived" is preserved by every sequence of POST and GET
requests to the select route, and from a store with at most one selected
business it holds after every sequence that begins with a successful POST or
with the GET of an authenticated ADMIN session. -/
theorem runSelect_settled (s : Store) (hu : UniqueIds s) :
    (∀ reqs, SelectionSettled s → SelectionSettled (runSelect reqs s)) ∧
    (∀ session body reqs, (SelectRoute.POST session body s).1.status = 200 →
      SelectionSettled (runSelect (.post session body :: reqs) s)) ∧
    (∀ su reqs, su.id ≠ "" → su.role = "ADMIN" → selectedCount s ≤ 1 →
      SelectionSettled (runSelect (.get (some su) :: reqs) s)) := by
  refine ⟨fun reqs h => (runSelect_preserves reqs s hu).2.2 h, ?_, ?_⟩
  · intro session body reqs hok
    have h1 : SelectionSettled (SelectRoute.POST session body s).2 := by
      rcases selectPOST_result session body s with h | ⟨bid, _, hs, h⟩
      · exact absurd hok h.2
      · rw [h]; exact Or.inl (selectedCount_selectOnly_eq s bid hu hs)
    have hu1 := (run_preserves (.post session body) s hu).1
    exact (runSelect_preserves reqs _ hu1).2.2 h1
  · intro su reqs hauth hadmin hle
    have h1 := selectGET_admin_settles su s hu hauth hadmin hle
    have hu1 := (run_preserves (.get (some su)) s hu).1
    exact (runSelect_preserves reqs _ hu1).2.2 h1

/-- Witness of C3 (amended) on the example stores: a settled store stays
settled, and a successful POST or an ADMIN GET settles a fresh one. -/
theorem runSelect_settled_witness :
    UniqueIds storeArchived ∧ UniqueIds storeFresh ∧
    SelectionSettled (runSelect [.get (some (sampleSession "eve" "USER" none)),
      .post (some (sampleSession "bob" "USER" (some "b2"))) (some (.str "b2"))] storeArchived) ∧
    SelectionSettled (runSelect [.post (some (sampleSession "ana" "ADMIN" (some "b1")))
      (some (.str "b2")), .get none] storeFresh) ∧
    SelectionSettled (runSelect [.get (some (sampleSession "ana" "ADMIN" (some "b1"))),
      .get none] storeFresh) :=
  ⟨by decide, by decide,
   (runSelect_settled storeArchived (by decide)).1 _ (Or.inl (by decide)),
   (runSelect_settled storeFresh (by decide)).2.1 _ _ _ (by decide),
   (runSelect_settled storeFresh (by decide)).2.2 _ _ (by decide) (by decide) (by decide)⟩

/-- C4 (failing input): for the user `bob`, whose own business `b2` is
archived, GET /business/select auto-selects `b2` and returns it as
selectedBusiness, archived. -/
theorem selectGET_returns_archived_own_business :
    SelectRoute.GET (some (sampleSession "bob" "USER" (some "b2"))) storeOwnArchived
      = (⟨200, .selected (some (sampleBusiness "b2" true true 20)) (some true) none⟩,
          { storeOwnArchived with businesses := [sampleBusiness "b2" true true 20] }) ∧
    (sampleBusiness "b2" true true 20).archived = true := by
  decide


theorem selectGET_not_found (su : SessionUser) (s : Store) (hauth : su.id ≠ "")
    (hnone : s.businesses.find? (fun b => b.isSelected && !b.archived) = none) :
    SelectRoute.GET (some su) s =
      match fallbackBusiness su s with
      | some fb => (⟨200, .selected (some { fb with isSelected := true }) (some true) none⟩,
          selectOnly s fb.id)
      | none => (⟨200, .selected none none (some "No hay negocios disponibles")⟩, s) := by
  unfold SelectRoute.GET
  rw [verifyApiAuth_some su hauth]
  simp only [hnone]
  split
  · rename_i fb hfb
    have hsome := findBusiness_isSome_of_mem s fb (fallbackBusiness_mem su s fb hfb)
    simp only [autoSelectTransaction_ok s fb.id hsome]
  · rfl

/-- C5: when no business is selected and non-archived, GET /business/select of
an authenticated session takes as fallback, for ADMIN, a non-archived business
of least createdAt and, otherwise, the business the stored user's businessId
points to; with a fallback it answers 200 with that business, isSelected set
and autoSelected = true, and the store has the flag set on the fallback and
cleared on every other row; without one it answers 200 with selectedBusiness =
null and the store is unchanged. -/
theorem selectGET_auto_selects (su : SessionUser) (s : Store) (hauth : su.id ≠ "")
    (hnone : ∀ b ∈ s.businesses, ¬(b.isSelected = true ∧ b.archived = false)) :
    (su.role = "ADMIN" →
      (∀ fb, fallbackBusiness su s = some fb →
        fb ∈ s.businesses ∧ fb.archived = false ∧
        ∀ c ∈ s.businesses, c.archived = false → fb.createdAt ≤ c.createdAt) ∧
      (fallbackBusiness su s = none ↔ ∀ b ∈ s.businesses, b.archived = true)) ∧
    (su.role ≠ "ADMIN" →
      fallbackBusiness su s
        = (s.findUser su.id).bind (fun user => user.businessId.bind s.findBusiness)) ∧
    (∀ fb, fallbackBusiness su s = some fb →
      SelectRoute.GET (some su) s
        = (⟨200, .selected (some { fb with isSelected := true }) (some true) none⟩,
            { s with businesses :=
                s.businesses.map (fun x => { x with isSelected := x.id == fb.id }) })) ∧
    (fallbackBusiness su s = none →
      SelectRoute.GET (some su) s
        = (⟨200, .selected none none (some "No hay negocios disponibles")⟩, s)) := by
  have hfind : s.businesses.find? (fun b => b.isSelected && !b.archived) = none := by
    rw [List.find?_eq_none]
    intro b hb hp
    simp only [Bool.and_eq_true, Bool.not_eq_true', Bool.not_eq_eq_eq_not, Bool.not_true] at hp
    exact hnone b hb hp
  have hget := selectGET_not_found su s hauth hfind
  refine ⟨?_, ?_, ?_, ?_⟩
  · intro hadmin
    have hfb : fallbackBusiness su s
        = firstByCreatedAt (s.businesses.filter (fun b => !b.archived)) := by
      simp [fallbackBusiness, hadmin]
    rw [hfb]
    constructor
    · intro fb h
      have ⟨hmem, hmin⟩ := firstByCreatedAt_spec _ fb h
      rw [List.mem_filter] at hmem
      refine ⟨hmem.1, by simpa using hmem.2, ?_⟩
      intro c hc hca
      exact hmin c (List.mem_filter.2 ⟨hc, by simp [hca]⟩)
    · rw [firstByCreatedAt_eq_none, List.filter_eq_nil_iff]
      constructor
      · intro h b hb; simpa using h b hb
      · intro h b hb; simpa using h b hb
  · intro hrole
    unfold fallbackBusiness
    have : (su.role == "ADMIN") = false := by simpa using hrole
    simp only [this, Bool.false_eq_true, if_false]
    cases s.findUser su.id with
    | none => rfl
    | some user =>
      cases hb : user.businessId with
      | none => simp [hb]
      | some bid => simp [hb]
  · intro fb hfb
    rw [hget, hfb]
    rfl
  · intro hfb
    rw [hget, hfb]

/-- Witness of C5: on the fresh store the ADMIN `ana` gets the oldest business
`b1` auto-selected. -/
theorem selectGET_auto_selects_witness :
    SelectRoute.GET (some (sampleSession "ana" "ADMIN" (some "b1"))) storeFresh
      = (⟨200, .selected (some (sampleBusiness "b1" false true 10)) (some true) none⟩,
          { storeFresh with businesses :=
              [sampleBusiness "b1" false true 10, sampleBusiness "b2" false false 20] }) :=
  (selectGET_auto_selects (sampleSession "ana" "ADMIN" (some "b1")) storeFresh
    (by decide) (by decide)).2.2.1 (sampleBusiness "b1" false false 10) (by decide)

theorem selectGET_of_selected (su : SessionUser) (s : Store) (b : Business) (hauth : su.id ≠ "")
    (hb : b ∈ s.businesses) (hsel : b.isSelected = true) (harch : b.archived = false) :
    ∃ c, c ∈ s.businesses ∧ c.isSelected = true ∧ c.archived = false ∧
      (selectedCount s ≤ 1 → c = b) ∧
      SelectRoute.GET (some su) s = (⟨200, .selected (some c) (some false) none⟩, s) := by
  have hsome : (s.businesses.find? (fun b => b.isSelected && !b.archived)).isSome := by
    rw [List.find?_isSome]
    exact ⟨b, hb, by simp [hsel, harch]⟩
  obtain ⟨c, hc⟩ := Option.isSome_iff_exists.1 hsome
  have hmem := List.mem_of_find?_eq_some hc
  have hp := List.find?_some hc
  simp only [Bool.and_eq_true, Bool.not_eq_true', Bool.not_eq_eq_eq_not, Bool.not_true] at hp
  refine ⟨c, hmem, hp.1, hp.2, ?_, ?_⟩
  · intro hle
    exact countP_le_one_unique (fun x : Business => x.isSelected) s.businesses hle c b hmem hb hp.1 hsel
  · unfold SelectRoute.GET
    rw [verifyApiAuth_some su hauth]
    simp only [hc]

/-- C6: when a business is selected and non-archived, GET /business/select of
an authenticated session answers 200 with a selected, non-archived business of
the store (that very business when at most one is selected) and
autoSelected = false, and the store is unchanged. -/
theorem selectGET_found (su : SessionUser) (s : Store) (b : Business) (hauth : su.id ≠ "")
    (hb : b ∈ s.businesses) (hsel : b.isSelected = true) (harch : b.archived = false) :
    ∃ c, c ∈ s.businesses ∧ c.isSelected = true ∧ c.archived = false ∧
      (selectedCount s ≤ 1 → c = b) ∧
      SelectRoute.GET (some su) s = (⟨200, .selected (some c) (some false) none⟩, s) :=
  selectGET_of_selected su s b hauth hb hsel harch

/-- Witness of C6: with `b1` selected, the GET of the user `bob` returns `b1`
and changes nothing. -/
theorem selectGET_found_witness :
    ∃ c, c ∈ storeArchived.businesses ∧ c.isSelected = true ∧ c.archived = false ∧
      (selectedCount storeArchived ≤ 1 → c = sampleBusiness "b1" false true 10) ∧
      SelectRoute.GET (some (sampleSession "bob" "USER" (some "b2"))) storeArchived
        = (⟨200, .selected (some c) (some false) none⟩, storeArchived) :=
  selectGET_found (sampleSession "bob" "USER" (some "b2")) storeArchived
    (sampleBusiness "b1" false true 10) (by decide) (by decide) (by decide) (by decide)


theorem selectOnly_selectOnly (s : Store) (a b : String) :
    selectOnly (selectOnly s a) b = selectOnly s b := by
  simp [selectOnly, List.map_map, Function.comp]

theorem mem_selectOnly (s : Store) (bid : String) (x : Business) (hx : x ∈ s.businesses) :
    { x with isSelected := x.id == bid } ∈ (selectOnly s bid).businesses :=
  List.mem_map.2 ⟨x, hx, rfl⟩

theorem findBusiness_of_unique (s : Store) (hu : UniqueIds s) (x : Business)
    (hx : x ∈ s.businesses) : s.findBusiness x.id = some x := by
  have hsome := findBusiness_isSome_of_mem s x hx
  obtain ⟨y, hy⟩ := Option.isSome_iff_exists.1 hsome
  have ⟨hym, hyid⟩ := findBusiness_some s x.id y hy
  have : y = x := by
    unfold UniqueIds at hu
    exact List.inj_on_of_nodup_map hu hym hx hyid
  rw [hy, this]

theorem selectPOST_admin (su : SessionUser) (s : Store) (b : Business) (hauth : su.id ≠ "")
    (hadmin : su.role = "ADMIN") (hb : b ∈ s.businesses) (hid : b.id ≠ "") :
    SelectRoute.POST (some su) (some (.str b.id)) s
      = (⟨200, .success "Negocio seleccionado correctamente"⟩, selectOnly s b.id) := by
  have hsome := findBusiness_isSome_of_mem s b hb
  obtain ⟨y, hy⟩ := Option.isSome_iff_exists.1 hsome
  unfold SelectRoute.POST
  rw [verifyApiAuth_some su hauth]
  simp [JVal.truthy, hid, hy, hadmin, selectTransaction_ok s b.id hsome]

/-- C7: for an ADMIN session and two businesses A and B of the store with
distinct ids, B non-archived: after POST /business/select for A and then for B
(both answered 200), GET /business/select returns B with isSelected = true and
autoSelected = false and changes nothing, and the row of A has
isSelected = false. -/
theorem select_A_then_B (su : SessionUser) (s : Store) (A B : Business)
    (hu : UniqueIds s) (hauth : su.id ≠ "") (hadmin : su.role = "ADMIN")
    (hA : A ∈ s.businesses) (hB : B ∈ s.businesses) (hAB : A.id ≠ B.id)
    (hAid : A.id ≠ "") (hBid : B.id ≠ "") (hBarch : B.archived = false) :
    (SelectRoute.POST (some su) (some (.str A.id)) s).1.status = 200 ∧
    (SelectRoute.POST (some su) (some (.str B.id))
      (SelectRoute.POST (some su) (some (.str A.id)) s).2).1.status = 200 ∧
    SelectRoute.GET (some su) (SelectRoute.POST (some su) (some (.str B.id))
        (SelectRoute.POST (some su) (some (.str A.id)) s).2).2
      = (⟨200, .selected (some { B with isSelected := true }) (some false) none⟩,
          (SelectRoute.POST (some su) (some (.str B.id))
            (SelectRoute.POST (some su) (some (.str A.id)) s).2).2) ∧
    (SelectRoute.POST (some su) (some (.str B.id))
        (SelectRoute.POST (some su) (some (.str A.id)) s).2).2.findBusiness A.id
      = some { A with isSelected := false } := by
  have h1 := selectPOST_admin su s A hauth hadmin hA hAid
  have hB1 : { B with isSelected := B.id == A.id } ∈ (selectOnly s A.id).businesses :=
    mem_selectOnly s A.id B hB
  have h2 := selectPOST_admin su (selectOnly s A.id) _ hauth hadmin hB1 hBid
  simp only [] at h2
  rw [selectOnly_selectOnly] at h2
  rw [h1]
  simp only [h2]
  have hu2 := uniqueIds_selectOnly s B.id hu
  have hB2 : ({ B with isSelected := true } : Business) ∈ (selectOnly s B.id).businesses := by
    have := mem_selectOnly s B.id B hB
    simpa using this
  have hA2 : ({ A with isSelected := false } : Business) ∈ (selectOnly s B.id).businesses := by
    have := mem_selectOnly s B.id A hA
    have hf : (A.id == B.id) = false := by simpa using hAB
    rw [hf] at this
    exact this
  refine ⟨trivial, trivial, ?_, ?_⟩
  · obtain ⟨c, _, _, _, hcb, hget⟩ :=
      selectGET_of_selected su (selectOnly s B.id) { B with isSelected := true } hauth hB2 rfl
        hBarch
    have := hcb (selectedCount_selectOnly_le s B.id hu)
    rw [hget, this]
  · exact findBusiness_of_unique _ hu2 _ hA2

/-- Witness of C7: on the fresh store, the ADMIN `ana` selects `b1`, then
`b2`. -/
theorem select_A_then_B_witness :
    SelectRoute.GET (some (sampleSession "ana" "ADMIN" (some "b1")))
        (SelectRoute.POST (some (sampleSession "ana" "ADMIN" (some "b1"))) (some (.str "b2"))
          (SelectRoute.POST (some (sampleSession "ana" "ADMIN" (some "b1")))
            (some (.str "b1")) storeFresh).2).2
      = (⟨200, .selected (some (sampleBusiness "b2" false true 20)) (some false) none⟩,
          (SelectRoute.POST (some (sampleSession "ana" "ADMIN" (some "b1"))) (some (.str "b2"))
            (SelectRoute.POST (some (sampleSession "ana" "ADMIN" (some "b1")))
              (some (.str "b1")) storeFresh).2).2) :=
  (select_A_then_B (sampleSession "ana" "ADMIN" (some "b1")) storeFresh
    (sampleBusiness "b1" false false 10) (sampleBusiness "b2" false false 20)
    (by decide) (by decide) (by decide) (by decide) (by decide) (by decide) (by decide)
    (by decide) (by decide)).2.2.1

/-- C8: for an authenticated session and an existing business, POST
/business/select is answered 403 with the store unchanged when the session
role is not ADMIN and the stored user's businessId differs from the requested
id, and is answered 200, selecting that business, when the role is ADMIN. -/
theorem selectPOST_authorization (su : SessionUser) (s : Store) (b : Business)
    (hauth : su.id ≠ "") (hb : b ∈ s.businesses) (hid : b.id ≠ "") :
    (su.role ≠ "ADMIN" → ∀ user, s.findUser su.id = some user →
      user.businessId ≠ some b.id →
      SelectRoute.POST (some su) (some (.str b.id)) s
        = (⟨403, .error "No tienes permisos para seleccionar este negocio"⟩, s)) ∧
    (su.role = "ADMIN" →
      SelectRoute.POST (some su) (some (.str b.id)) s
        = (⟨200, .success "Negocio seleccionado correctamente"⟩, selectOnly s b.id)) := by
  refine ⟨?_, fun hadmin => selectPOST_admin su s b hauth hadmin hb hid⟩
  intro hrole user huser hne
  have hsome := findBusiness_isSome_of_mem s b hb
  obtain ⟨y, hy⟩ := Option.isSome_iff_exists.1 hsome
  unfold SelectRoute.POST
  rw [verifyApiAuth_some su hauth]
  simp [JVal.truthy, hid, hy, hrole, huser, hne]

/-- Witness of C8: the user `bob` of `b2` is refused `b1`; the ADMIN `ana` may
select `b2`. -/
theorem selectPOST_authorization_witness :
    SelectRoute.POST (some (sampleSession "bob" "USER" (some "b2"))) (some (.str "b1")) storeFresh
      = (⟨403, .error "No tienes permisos para seleccionar este negocio"⟩, storeFresh) ∧
    SelectRoute.POST (some (sampleSession "ana" "ADMIN" (some "b1"))) (some (.str "b2")) storeFresh
      = (⟨200, .success "Negocio seleccionado correctamente"⟩, selectOnly storeFresh "b2") :=
  ⟨(selectPOST_authorization (sampleSession "bob" "USER" (some "b2")) storeFresh
      (sampleBusiness "b1" false false 10) (by decide) (by decide) (by decide)).1
      (by decide) (sampleUser "bob" "USER" (some "b2")) (by decide) (by decide),
   (selectPOST_authorization (sampleSession "ana" "ADMIN" (some "b1")) storeFresh
      (sampleBusiness "b2" false false 20) (by decide) (by decide) (by decide)).2
      (by decide)⟩

/-! ## The business write paths and the isSelected flag -/

theorem flags_updateBusinessData (s s1 : Store) (id : String) (d : BusinessUpdate)
    (b : Business) (h : s.updateBusinessData id d = .ok (b, s1)) :
    selectionFlags s1 = selectionFlags s ∧ s1.users = s.users := by
  have hs1 : s1 = s.updateManyBusiness (fun b => b.id == id) d.apply := by
    unfold Store.updateBusinessData at h
    split at h
    · cases h
    · rename_i old _
      have key : ∀ c : Bool,
          (if c = true then
              (Except.error (Thrown.uniqueViolation "whatsapp") : Except Thrown (Business × Store))
            else .ok (d.apply old, s.updateManyBusiness (fun b => b.id == id) d.apply))
            = .ok (b, s1) →
          s1 = s.updateManyBusiness (fun b => b.id == id) d.apply := by
        intro c hc
        cases c
        · simp only [Bool.false_eq_true, if_false, Except.ok.injEq, Prod.mk.injEq] at hc
          exact hc.2.symm
        · simp at hc
      exact key _ h
  rw [hs1]
  refine ⟨?_, rfl⟩
  unfold selectionFlags Store.updateManyBusiness
  simp only [List.map_map]
  apply List.map_congr_left
  intro x _
  simp only [Function.comp]
  split <;> rfl

theorem flags_createBusiness (s s1 : Store) (b : Business) (h : s.createBusiness b = .ok s1) :
    selectionFlags s1 = selectionFlags s ++ [(b.id, b.isSelected)] ∧ s1.users = s.users := by
  unfold Store.createBusiness at h
  split at h
  · cases h
  · split at h
    · cases h
    · simp only [Except.ok.injEq] at h
      rw [← h]
      simp [selectionFlags]

theorem flags_createUser (s s1 : Store) (u : User) (h : s.createUser u = .ok s1) :
    selectionFlags s1 = selectionFlags s := by
  unfold Store.createUser at h
  split at h
  · cases h
  · split at h
    · cases h
    · simp only [Except.ok.injEq] at h
      rw [← h]
      rfl

theorem flags_updateUser (s s1 : Store) (id : String) (f : User → User)
    (h : s.updateUser id f = .ok s1) : selectionFlags s1 = selectionFlags s := by
  unfold Store.updateUser at h
  split at h
  · cases h
  · simp only [Except.ok.injEq] at h
    rw [← h]
    rfl

theorem businessPUT_flags (session : Session) (id : String) (body : Option BusinessPayload)
    (now : Nat) (s : Store) :
    selectionFlags (BusinessIdRoute.PUT session id body now s).2 = selectionFlags s := by
  unfold BusinessIdRoute.PUT
  simp only []
  repeat' split
  all_goals first
    | rfl
    | exact (flags_updateBusinessData _ _ _ _ _ (by assumption)).1

theorem businessUpdatePUT_flags (session : Session) (body : Option BusinessPayload) (s : Store) :
    selectionFlags (BusinessUpdateRoute.PUT session body s).2 = selectionFlags s := by
  unfold BusinessUpdateRoute.PUT
  simp only []
  repeat' split
  all_goals first
    | rfl
    | exact (flags_updateBusinessData _ _ _ _ _ (by assumption)).1

theorem businessCreatePOST_flags (session : Session) (body : Option BusinessPayload)
    (g : Generated) (dflt : ColumnDefaults) (s : Store) :
    selectionFlags s <+: selectionFlags (BusinessCreateRoute.POST session body g dflt s).2 := by
  unfold BusinessCreateRoute.POST
  simp only []
  repeat' split
  all_goals first
    | exact List.prefix_refl _
    | (have hc := flags_createBusiness _ _ _ (by assumption)
       have hu := flags_updateUser _ _ _ _ (by assumption)
       simp only []
       rw [hu, hc.1]
       exact List.prefix_append _ _)
    | (have hc := flags_createBusiness _ _ _ (by assumption)
       simp only []
       rw [hc.1]
       exact List.prefix_append _ _)

theorem registerPOST_flags (body : Option RegisterPayload) (hash : String → String)
    (g : Generated) (dflt : ColumnDefaults) (s : Store) :
    selectionFlags s <+: selectionFlags (RegisterRoute.POST body hash g dflt s).2 := by
  unfold RegisterRoute.POST
  simp only []
  repeat' split
  all_goals first
    | exact List.prefix_refl _
    | (have hc := flags_createBusiness _ _ _ (by assumption)
       have hu := flags_createUser _ _ _ (by assumption)
       simp only []
       rw [hu, hc.1]
       exact List.prefix_append _ _)
    | (have hc := flags_createBusiness _ _ _ (by assumption)
       simp only []
       rw [hc.1]
       exact List.prefix_append _ _)

/-- C10: PUT /business/{id}, the self-service PUT /business, POST /business
(create) and POST /register never write isSelected: for every session, payload
and store, the (id, isSelected) pairs of the rows that existed before are the
same after the request, in the same order; create and register can only
append a new row after them. -/
theorem business_writes_keep_isSelected (session : Session) (id : String)
    (body : Option BusinessPayload) (regBody : Option RegisterPayload)
    (hash : String → String) (now : Nat) (g : Generated) (dflt : ColumnDefaults) (s : Store) :
    selectionFlags (BusinessIdRoute.PUT session id body now s).2 = selectionFlags s ∧
    selectionFlags (BusinessUpdateRoute.PUT session body s).2 = selectionFlags s ∧
    selectionFlags s <+: selectionFlags (BusinessCreateRoute.POST session body g dflt s).2 ∧
    selectionFlags s <+: selectionFlags (RegisterRoute.POST regBody hash g dflt s).2 :=
  ⟨businessPUT_flags session id body now s, businessUpdatePUT_flags session body s,
   businessCreatePOST_flags session body g dflt s, registerPOST_flags regBody hash g dflt s⟩

/-! ## Authorization of the business routes -/

theorem businessId_GET_forbidden (su : SessionUser) (s : Store) (user : User) (C : String)
    (hauth : su.id ≠ "") (huser : s.findUser su.id = some user) (hrole : user.role ≠ "ADMIN")
    (hbiz : user.businessId ≠ some C) (hC : C ≠ "") :
    BusinessIdRoute.GET (some su) C s
      = (⟨403, .error "No autorizado - No tienes acceso a este negocio"⟩, s) := by
  unfold BusinessIdRoute.GET
  rw [verifyApiAuth_some su hauth]
  simp [hC, huser, hrole, hbiz]

theorem businessId_PUT_forbidden (su : SessionUser) (s : Store) (user : User) (C : String)
    (body : Option BusinessPayload) (now : Nat)
    (hauth : su.id ≠ "") (huser : s.findUser su.id = some user) (hrole : user.role ≠ "ADMIN")
    (hbiz : user.businessId ≠ some C) (hC : C ≠ "") :
    BusinessIdRoute.PUT (some su) C body now s
      = (⟨403, .error "No autorizado - No tienes acceso para actualizar este negocio"⟩, s) := by
  unfold BusinessIdRoute.PUT
  rw [verifyApiAuth_some su hauth]
  simp [hC, huser, hrole, hbiz]

theorem business_DELETE_forbidden (su : SessionUser) (s : Store) (user : User)
    (body : Option JVal) (clients : OnDelete)
    (hauth : su.id ≠ "") (huser : s.findUser su.id = some user) (hrole : user.role ≠ "ADMIN") :
    BusinessDeleteRoute.DELETE (some su) body clients s
      = (⟨403, .error "No autorizado - Solo usuarios ADMIN pueden eliminar negocios"⟩, s) := by
  unfold BusinessDeleteRoute.DELETE
  rw [verifyApiAuth_some su hauth]
  simp [huser, hrole]

theorem select_POST_forbidden (su : SessionUser) (s : Store) (user : User) (C : String)
    (hauth : su.id ≠ "") (huser : s.findUser su.id = some user) (hrole : su.role ≠ "ADMIN")
    (hbiz : user.businessId ≠ some C) (hC : C ≠ "") :
    SelectRoute.POST (some su) (some (.str C)) s
      = if (s.findBusiness C).isSome then
          (⟨403, .error "No tienes permisos para seleccionar este negocio"⟩, s)
        else (⟨404, .error "Negocio no encontrado"⟩, s) := by
  unfold SelectRoute.POST
  rw [verifyApiAuth_some su hauth]
  cases hf : s.findBusiness C with
  | none => simp [JVal.truthy, hC, hf]
  | some b => simp [JVal.truthy, hC, hrole, huser, hbiz, hf]

/-- C11 (counterexample): the user `bob` of `b2` asks POST /business/select for
the id `zz`, which no business has, and is answered 404, not 403. -/
theorem select_POST_missing_business_is_404 :
    storeFresh.findUser "bob" = some (sampleUser "bob" "USER" (some "b2")) ∧
    storeFresh.findBusiness "zz" = none ∧
    SelectRoute.POST (some (sampleSession "bob" "USER" (some "b2"))) (some (.str "zz")) storeFresh
      = (⟨404, .error "Negocio no encontrado"⟩, storeFresh) := by
  decide

/-- C11 (amended): for a USER (non-ADMIN session and stored role) whose stored
businessId is not C, GET /business/{C}, PUT /business/{C} with any body and
DELETE /business with any body are answered 403 whether or not C exists, and
POST /business/select for C is answered 403 when C exists and 404 when it does
not; the store is unchanged in every case. -/
theorem business_actions_on_other_business (su : SessionUser) (s : Store) (user : User)
    (C : String) (hauth : su.id ≠ "") (huser : s.findUser su.id = some user)
    (hsession : su.role ≠ "ADMIN") (hrole : user.role ≠ "ADMIN")
    (hbiz : user.businessId ≠ some C) (hC : C ≠ "") :
    BusinessIdRoute.GET (some su) C s
      = (⟨403, .error "No autorizado - No tienes acceso a este negocio"⟩, s) ∧
    (∀ body now, BusinessIdRoute.PUT (some su) C body now s
      = (⟨403, .error "No autorizado - No tienes acceso para actualizar este negocio"⟩, s)) ∧
    (∀ body clients, BusinessDeleteRoute.DELETE (some su) body clients s
      = (⟨403, .error "No autorizado - Solo usuarios ADMIN pueden eliminar negocios"⟩, s)) ∧
    ((s.findBusiness C).isSome → SelectRoute.POST (some su) (some (.str C)) s
      = (⟨403, .error "No tienes permisos para seleccionar este negocio"⟩, s)) ∧
    (s.findBusiness C = none → SelectRoute.POST (some su) (some (.str C)) s
      = (⟨404, .error "Negocio no encontrado"⟩, s)) := by
  refine ⟨businessId_GET_forbidden su s user C hauth huser hrole hbiz hC,
    fun body now => businessId_PUT_forbidden su s user C body now hauth huser hrole hbiz hC,
    fun body clients => business_DELETE_forbidden su s user body clients hauth huser hrole,
    ?_, ?_⟩
  · intro h
    rw [select_POST_forbidden su s user C hauth huser hsession hbiz hC, if_pos h]
  · intro h
    rw [select_POST_forbidden su s user C hauth huser hsession hbiz hC, h]
    rfl

/-- Witness of C11 (amended): the user `bob` of `b2` acts on `b1`, which
exists, and on `zz`, which does not. -/
theorem business_actions_on_other_business_witness :
    BusinessIdRoute.GET (some (sampleSession "bob" "USER" (some "b2"))) "b1" storeFresh
      = (⟨403, .error "No autorizado - No tienes acceso a este negocio"⟩, storeFresh) ∧
    SelectRoute.POST (some (sampleSession "bob" "USER" (some "b2"))) (some (.str "b1")) storeFresh
      = (⟨403, .error "No tienes permisos para seleccionar este negocio"⟩, storeFresh) ∧
    BusinessIdRoute.GET (some (sampleSession "bob" "USER" (some "b2"))) "zz" storeFresh
      = (⟨403, .error "No autorizado - No tienes acceso a este negocio"⟩, storeFresh) :=
  ⟨(business_actions_on_other_business (sampleSession "bob" "USER" (some "b2")) storeFresh
      (sampleUser "bob" "USER" (some "b2")) "b1" (by decide) (by decide) (by decide)
      (by decide) (by decide) (by decide)).1,
   (business_actions_on_other_business (sampleSession "bob" "USER" (some "b2")) storeFresh
      (sampleUser "bob" "USER" (some "b2")) "b1" (by decide) (by decide) (by decide)
      (by decide) (by decide) (by decide)).2.2.2.1 (by decide),
   (business_actions_on_other_business (sampleSession "bob" "USER" (some "b2")) storeFresh
      (sampleUser "bob" "USER" (some "b2")) "zz" (by decide) (by decide) (by decide)
      (by decide) (by decide) (by decide)).1⟩

theorem create_denied (su : SessionUser) (s : Store) (user : User)
    (body : Option BusinessPayload) (g : Generated) (dflt : ColumnDefaults)
    (hauth : su.id ≠ "") (huser : s.findUser su.id = some user)
    (hrole : user.role ≠ "ADMIN") (b : String) (hb : user.businessId = some b) (hne : b ≠ "") :
    BusinessCreateRoute.POST (some su) body g dflt s
      = (⟨400, .error "Los usuarios no ADMIN solo pueden tener un negocio asociado"⟩, s) := by
  unfold BusinessCreateRoute.POST
  rw [verifyApiAuth_some su hauth]
  simp [huser, hrole, hb, hne]

theorem create_allowed (su : SessionUser) (s : Store) (user : User)
    (body : Option BusinessPayload) (g : Generated) (dflt : ColumnDefaults)
    (hauth : su.id ≠ "") (huser : s.findUser su.id = some user)
    (hallow : user.role = "ADMIN" ∨ user.businessId = none ∨ user.businessId = some "") :
    (BusinessCreateRoute.POST (some su) body g dflt s).1
      ≠ ⟨400, .error "Los usuarios no ADMIN solo pueden tener un negocio asociado"⟩ ∧
    (∀ p, body = some p → nameMissing p.name = .ok true →
      BusinessCreateRoute.POST (some su) body g dflt s
        = (⟨400, .error "El nombre del negocio es requerido"⟩, s)) := by
  have hcond : (user.role != "ADMIN" &&
      (user.businessId != none && user.businessId != some "")) = false := by
    rcases hallow with h | h | h <;> simp [h]
  constructor
  · unfold BusinessCreateRoute.POST
    rw [verifyApiAuth_some su hauth]
    simp only [huser, hcond]
    repeat' split
    all_goals first
      | (rename_i h; exact absurd h (by decide))
      | simp [internalError]
  · intro p hp hname
    unfold BusinessCreateRoute.POST
    rw [verifyApiAuth_some su hauth]
    simp [huser, hcond, hp, hname]

/-- C12 (counterexample): the user `bob`, who has the business `b2`, asks POST
/business (create) and is answered 400, not 403; nothing is created. -/
theorem create_second_business_is_400 :
    storeFresh.findUser "bob" = some (sampleUser "bob" "USER" (some "b2")) ∧
    BusinessCreateRoute.POST (some (sampleSession "bob" "USER" (some "b2")))
        (some (sampleBusinessPayload (.str "Second shop"))) sampleGenerated sampleDefaults
        storeFresh
      = (⟨400, .error "Los usuarios no ADMIN solo pueden tener un negocio asociado"⟩,
          storeFresh) := by
  decide

/-- C12 (amended): POST /business (create) of an authenticated stored user is
denied exactly when the stored role is not ADMIN and the user has a business;
the denial is answered 400 and creates nothing; a request that is not denied
and whose name is missing or blank is answered 400 and creates nothing. -/
theorem create_business_permission (su : SessionUser) (s : Store) (user : User)
    (body : Option BusinessPayload) (g : Generated) (dflt : ColumnDefaults)
    (hauth : su.id ≠ "") (huser : s.findUser su.id = some user) :
    ((user.role ≠ "ADMIN" ∧ ∃ b, user.businessId = some b ∧ b ≠ "") →
      BusinessCreateRoute.POST (some su) body g dflt s
        = (⟨400, .error "Los usuarios no ADMIN solo pueden tener un negocio asociado"⟩, s)) ∧
    ((user.role = "ADMIN" ∨ user.businessId = none ∨ user.businessId = some "") →
      (BusinessCreateRoute.POST (some su) body g dflt s).1
        ≠ ⟨400, .error "Los usuarios no ADMIN solo pueden tener un negocio asociado"⟩ ∧
      (∀ p, body = some p → nameMissing p.name = .ok true →
        BusinessCreateRoute.POST (some su) body g dflt s
          = (⟨400, .error "El nombre del negocio es requerido"⟩, s))) := by
  constructor
  · rintro ⟨hrole, b, hb, hne⟩
    exact create_denied su s user body g dflt hauth huser hrole b hb hne
  · intro hallow
    exact create_allowed su s user body g dflt hauth huser hallow

/-- Witness of C12 (amended): `bob` is denied; the ADMIN `ana` and the user
`eve`, who has no business, are not denied and get 400 for a blank name. -/
theorem create_business_permission_witness :
    BusinessCreateRoute.POST (some (sampleSession "bob" "USER" (some "b2")))
        (some (sampleBusinessPayload (.str "Second shop"))) sampleGenerated sampleDefaults
        storeFresh
      = (⟨400, .error "Los usuarios no ADMIN solo pueden tener un negocio asociado"⟩,
          storeFresh) ∧
    BusinessCreateRoute.POST (some (sampleSession "eve" "USER" none))
        (some (sampleBusinessPayload (.str "  "))) sampleGenerated sampleDefaults storeFresh
      = (⟨400, .error "El nombre del negocio es requerido"⟩, storeFresh) ∧
    BusinessCreateRoute.POST (some (sampleSession "ana" "ADMIN" (some "b1")))
        (some (sampleBusinessPayload .undefined)) sampleGenerated sampleDefaults storeFresh
      = (⟨400, .error "El nombre del negocio es requerido"⟩, storeFresh) :=
  ⟨(create_business_permission (sampleSession "bob" "USER" (some "b2")) storeFresh
      (sampleUser "bob" "USER" (some "b2")) _ sampleGenerated sampleDefaults
      (by decide) (by decide)).1 ⟨by decide, "b2", rfl, by decide⟩,
   ((create_business_permission (sampleSession "eve" "USER" none) storeFresh
      (sampleUser "eve" "USER" none) _ sampleGenerated sampleDefaults
      (by decide) (by decide)).2 (Or.inr (Or.inl rfl))).2 _ rfl rfl,
   ((create_business_permission (sampleSession "ana" "ADMIN" (some "b1")) storeFresh
      (sampleUser "ana" "ADMIN" (some "b1")) _ sampleGenerated sampleDefaults
      (by decide) (by decide)).2 (Or.inl rfl)).2 _ rfl rfl⟩

/-! ## Sessions without business and requests without session -/

theorem sessionBusiness_none (su : SessionUser) (h : su.businessId = none) :
    sessionBusiness su = none := by
  simp [sessionBusiness, h]

theorem clientAccess_without_business (su : SessionUser) (id : String)
    (hrole : su.role ≠ "ADMIN") (h : su.businessId = none) :
    clientAccess su id = .error ⟨403, .error "Usuario sin negocio asignado"⟩ := by
  simp [clientAccess, hrole, sessionBusiness_none su h]

/-- C13 (counterexample): for the user `eve`, whose session has no business,
PUT /clients/c1 with a blank name is answered 400 "El nombre es requerido" and
POST /clients with a valid name is answered 400 "Negocio no especificado";
neither is answered 403. -/
theorem client_write_without_business_is_400 :
    (sampleSession "eve" "USER" none).businessId = none ∧
    ClientIdRoute.PUT (some (sampleSession "eve" "USER" none)) "c1"
        (some (samplePayload (.str "  ") .undefined)) 50 storeClients
      = (⟨400, .error "El nombre es requerido"⟩, storeClients) ∧
    ClientsRoute.POST (some (sampleSession "eve" "USER" none))
        (some (samplePayload (.str "Carla") .undefined)) sampleGenerated sampleDefaults
        storeClients
      = (⟨400, .error "Negocio no especificado"⟩, storeClients) := by
  decide

/-- C13 (amended): for a USER session whose businessId is null, GET /clients,
GET /clients/{id} and DELETE /clients/{id} are answered 403 for every query
and id, and PUT /clients/{id} is answered 403 for every id and every payload
whose name is a non-blank string; a PUT whose name is missing or blank is
answered 400, because the name is validated first. The store is unchanged in
every case. -/
theorem client_actions_without_business (su : SessionUser) (s : Store)
    (hrole : su.role ≠ "ADMIN") (hnone : su.businessId = none) :
    (∀ q contains, ClientsRoute.GET (some su) q contains s
      = (⟨403, .error "Usuario sin negocio asignado"⟩, s)) ∧
    (∀ id, ClientIdRoute.GET (some su) id s
      = (⟨403, .error "Usuario sin negocio asignado"⟩, s)) ∧
    (∀ id now, ClientIdRoute.DELETE (some su) id now s
      = (⟨403, .error "Usuario sin negocio asignado"⟩, s)) ∧
    (∀ id p now, nameMissing p.name = .ok false →
      ClientIdRoute.PUT (some su) id (some p) now s
        = (⟨403, .error "Usuario sin negocio asignado"⟩, s)) ∧
    (∀ id p now, nameMissing p.name = .ok true →
      ClientIdRoute.PUT (some su) id (some p) now s
        = (⟨400, .error "El nombre es requerido"⟩, s)) := by
  have hb := sessionBusiness_none su hnone
  refine ⟨?_, ?_, ?_, ?_, ?_⟩
  · intro q contains
    simp [ClientsRoute.GET, clientAuth, hrole, hb]
  · intro id
    simp [ClientIdRoute.GET, clientAuth, clientAccess_without_business su id hrole hnone]
  · intro id now
    simp [ClientIdRoute.DELETE, clientAuth, clientAccess_without_business su id hrole hnone]
  · intro id p now hname
    simp [ClientIdRoute.PUT, clientAuth, hname,
      clientAccess_without_business su id hrole hnone]
  · intro id p now hname
    simp [ClientIdRoute.PUT, clientAuth, hname]

/-- Witness of C13 (amended): the user `eve` reads the list and updates `c1`
with a valid name. -/
theorem client_actions_without_business_witness :
    ClientsRoute.GET (some (sampleSession "eve" "USER" none))
        ⟨none, none, some "b1", none⟩ (fun a b => a == b) storeClients
      = (⟨403, .error "Usuario sin negocio asignado"⟩, storeClients) ∧
    ClientIdRoute.PUT (some (sampleSession "eve" "USER" none)) "c1"
        (some (samplePayload (.str "Carla") .undefined)) 50 storeClients
      = (⟨403, .error "Usuario sin negocio asignado"⟩, storeClients) :=
  ⟨(client_actions_without_business (sampleSession "eve" "USER" none) storeClients
      (by decide) rfl).1 _ _,
   (client_actions_without_business (sampleSession "eve" "USER" none) storeClients
      (by decide) rfl).2.2.2.1 _ _ _ rfl⟩

/-- C14: without a session, every handler of the business, client and
user-update routes answers 401 and returns the store unchanged, for every
path id, query, body (readable or not), clock, generated value and store. -/
theorem no_session_is_401 (s : Store) (id : String) (jbody : Option JVal)
    (bbody : Option BusinessPayload) (cbody : Option ClientPayload)
    (ubody : Option (JVal × JVal)) (q : ClientQuery) (includeArchived : Option String)
    (contains : String → String → Bool) (now : Nat) (g : Generated) (dflt : ColumnDefaults)
    (clients : OnDelete) :
    ((BusinessIdRoute.GET none id s).1.status = 401 ∧ (BusinessIdRoute.GET none id s).2 = s) ∧
    ((BusinessIdRoute.PUT none id bbody now s).1.status = 401 ∧
      (BusinessIdRoute.PUT none id bbody now s).2 = s) ∧
    ((BusinessGetRoute.GET none s).1.status = 401 ∧ (BusinessGetRoute.GET none s).2 = s) ∧
    ((BusinessUpdateRoute.PUT none bbody s).1.status = 401 ∧
      (BusinessUpdateRoute.PUT none bbody s).2 = s) ∧
    ((SelectRoute.POST none jbody s).1.status = 401 ∧ (SelectRoute.POST none jbody s).2 = s) ∧
    ((SelectRoute.GET none s).1.status = 401 ∧ (SelectRoute.GET none s).2 = s) ∧
    ((BusinessListRoute.GET none includeArchived s).1.status = 401 ∧
      (BusinessListRoute.GET none includeArchived s).2 = s) ∧
    ((BusinessCreateRoute.POST none bbody g dflt s).1.status = 401 ∧
      (BusinessCreateRoute.POST none bbody g dflt s).2 = s) ∧
    ((BusinessDeleteRoute.DELETE none jbody clients s).1.status = 401 ∧
      (BusinessDeleteRoute.DELETE none jbody clients s).2 = s) ∧
    ((ClientsRoute.GET none q contains s).1.status = 401 ∧
      (ClientsRoute.GET none q contains s).2 = s) ∧
    ((ClientsRoute.POST none cbody g dflt s).1.status = 401 ∧
      (ClientsRoute.POST none cbody g dflt s).2 = s) ∧
    ((ClientIdRoute.GET none id s).1.status = 401 ∧ (ClientIdRoute.GET none id s).2 = s) ∧
    ((ClientIdRoute.PUT none id cbody now s).1.status = 401 ∧
      (ClientIdRoute.PUT none id cbody now s).2 = s) ∧
    ((ClientIdRoute.DELETE none id now s).1.status = 401 ∧
      (ClientIdRoute.DELETE none id now s).2 = s) ∧
    ((UserUpdateRoute.PUT none ubody s).1.status = 401 ∧
      (UserUpdateRoute.PUT none ubody s).2 = s) := by
  refine ⟨⟨rfl, rfl⟩, ⟨rfl, rfl⟩, ⟨rfl, rfl⟩, ⟨rfl, rfl⟩, ⟨rfl, rfl⟩, ⟨rfl, rfl⟩, ⟨rfl, rfl⟩,
    ⟨rfl, rfl⟩, ⟨rfl, rfl⟩, ⟨rfl, rfl⟩, ⟨rfl, rfl⟩, ⟨rfl, rfl⟩, ⟨rfl, rfl⟩, ⟨rfl, rfl⟩,
    ⟨rfl, rfl⟩⟩

/-! ## The client list -/

theorem mem_newestFirst {α : Type} (f : α → Nat) (l : List α) (a : α) :
    a ∈ newestFirst f l ↔ a ∈ l :=
  (List.perm_insertionSort _ l).mem_iff

theorem length_newestFirst {α : Type} (f : α → Nat) (l : List α) :
    (newestFirst f l).length = l.length :=
  (List.perm_insertionSort _ l).length_eq

theorem mem_of_pageOf (rows clients : List Client) (skip take : Int)
    (h : pageOf rows skip take = .ok clients) (c : Client) (hc : c ∈ clients) : c ∈ rows := by
  unfold pageOf at h
  split at h
  · cases h
  · split at h
    · cases h
    · split at h
      · simp only [Except.ok.injEq] at h
        subst h
        exact List.mem_of_mem_drop (List.mem_of_mem_take hc)
      · simp only [Except.ok.injEq] at h
        subst h
        have := List.mem_of_mem_drop (List.mem_of_mem_take (List.mem_reverse.1 hc))
        exact List.mem_reverse.1 this

theorem listClients_ok (q : ClientQuery) (contains : String → String → Bool)
    (tenant : Option String) (s s1 : Store) (rows : List (Client × BusinessRef))
    (pg : Pagination) (h : listClients q contains tenant s = (⟨200, .clients rows pg⟩, s1)) :
    s1 = s ∧
    pg.total = (s.clients.filter (clientListWhere contains tenant q.search)).length ∧
    ∀ r ∈ rows, r.1 ∈ s.clients ∧ clientListWhere contains tenant q.search r.1 = true := by
  unfold listClients at h
  split at h
  · simp only [] at h
    split at h
    · simp [internalError] at h
    · rename_i clients hpage
      simp only [Prod.mk.injEq, Response.mk.injEq, Body.clients.injEq, true_and] at h
      obtain ⟨⟨hrows, hpg⟩, hs⟩ := h
      refine ⟨hs.symm, ?_, ?_⟩
      · rw [← hpg]
        exact length_newestFirst _ _
      · intro r hr
        rw [← hrows] at hr
        obtain ⟨c, hc, rfl⟩ := List.mem_map.1 hr
        have hmem := mem_of_pageOf _ _ _ _ hpage c hc
        rw [mem_newestFirst, List.mem_filter] at hmem
        exact hmem
  · simp [internalError] at h


theorem clientListWhere_true (contains : String → String → Bool) (tenant : Option String)
    (search : Option String) (c : Client) (h : clientListWhere contains tenant search c = true) :
    c.archived = false ∧ ∀ b, tenant = some b → c.businessId = b := by
  unfold clientListWhere at h
  simp only [Bool.and_eq_true, Bool.not_eq_true', Bool.not_eq_eq_eq_not, Bool.not_true] at h
  refine ⟨h.1.1, ?_⟩
  intro b hb
  have h2 := h.1.2
  rw [hb] at h2
  simpa using h2

theorem clientListWhere_none (contains : String → String → Bool) (search : Option String)
    (c : Client) :
    clientListWhere contains none search c
      = clientListWhere contains (some c.businessId) search c := by
  simp [clientListWhere]

theorem sessionBusiness_some (su : SessionUser) (b : String) (h : sessionBusiness su = some b) :
    su.businessId = some b ∧ b ≠ "" := by
  unfold sessionBusiness at h
  split at h
  · rename_i b1 hb1
    split at h
    · rename_i hne
      simp only [Option.some.injEq] at h
      subst h
      exact ⟨hb1, by simpa using hne⟩
    · cases h
  · cases h

/-- C15: when GET /clients answers 200, the store is unchanged and every
returned client is a non-archived row of the store; for a session that is not
ADMIN it belongs to the business of the session whatever the businessId
parameter says; for an ADMIN session with a non-empty businessId parameter X it
belongs to X; for an ADMIN session without that parameter the filter ignores
the business of a row, and the total counts every non-archived client that
matches the search. -/
theorem clients_GET_scope (su : SessionUser) (q : ClientQuery)
    (contains : String → String → Bool) (s s1 : Store) (rows : List (Client × BusinessRef))
    (pg : Pagination)
    (h : ClientsRoute.GET (some su) q contains s = (⟨200, .clients rows pg⟩, s1)) :
    s1 = s ∧
    (∀ r ∈ rows, r.1 ∈ s.clients ∧ r.1.archived = false) ∧
    (su.role ≠ "ADMIN" → ∀ r ∈ rows, su.businessId = some r.1.businessId) ∧
    (su.role = "ADMIN" → ∀ X, q.businessId = some X → X ≠ "" →
      ∀ r ∈ rows, r.1.businessId = X) ∧
    (su.role = "ADMIN" → (q.businessId = none ∨ q.businessId = some "") →
      pg.total = (s.clients.filter (clientListWhere contains none q.search)).length ∧
      (∀ r ∈ rows, clientListWhere contains none q.search r.1 = true) ∧
      ∀ c, clientListWhere contains none q.search c
        = clientListWhere contains (some c.businessId) q.search c) := by
  have key : ∃ tenant, listClients q contains tenant s = (⟨200, .clients rows pg⟩, s1) ∧
      (su.role ≠ "ADMIN" → ∃ b, sessionBusiness su = some b ∧ tenant = some b) ∧
      (su.role = "ADMIN" → ∀ X, q.businessId = some X → X ≠ "" → tenant = some X) ∧
      (su.role = "ADMIN" → (q.businessId = none ∨ q.businessId = some "") → tenant = none) := by
    unfold ClientsRoute.GET at h
    simp only [clientAuth] at h
    by_cases hrole : su.role = "ADMIN"
    · simp only [hrole, bne_self_eq_false, Bool.false_eq_true, if_false] at h
      have huser : su.role ≠ "ADMIN" → ∃ b, sessionBusiness su = some b ∧
          (none : Option String) = some b := fun hn => absurd hrole hn
      cases hq : q.businessId with
      | none =>
        rw [hq] at h
        refine ⟨none, h, huser, ?_, fun _ _ => rfl⟩
        intro _ X hX
        cases hX
      | some b =>
        rw [hq] at h
        by_cases hb : b = ""
        · simp only [hb, bne_self_eq_false, Bool.false_eq_true, if_false] at h
          refine ⟨none, h, huser, ?_, fun _ _ => rfl⟩
          intro _ X hX hne
          rw [← Option.some.inj hX, hb] at hne
          exact absurd rfl hne
        · have hne : (b != "") = true := by simpa using hb
          simp only [hne, if_true] at h
          refine ⟨some b, h, fun hn => absurd hrole hn, ?_, ?_⟩
          · intro _ X hX _
            rw [Option.some.inj hX]
          · intro _ hcase
            rcases hcase with hcase | hcase
            · cases hcase
            · exact absurd (Option.some.inj hcase) hb
    · have hne : (su.role != "ADMIN") = true := by simpa using hrole
      simp only [hne, if_true] at h
      cases hsb : sessionBusiness su with
      | none => rw [hsb] at h; simp at h
      | some b =>
        rw [hsb] at h
        exact ⟨some b, h, fun _ => ⟨b, rfl, rfl⟩, fun ha => absurd ha hrole,
          fun ha => absurd ha hrole⟩
  obtain ⟨tenant, hlist, huser, hadminX, hadminNone⟩ := key
  obtain ⟨hs, htotal, hrows⟩ := listClients_ok q contains tenant s s1 rows pg hlist
  refine ⟨hs, ?_, ?_, ?_, ?_⟩
  · intro r hr
    exact ⟨(hrows r hr).1, (clientListWhere_true _ _ _ _ (hrows r hr).2).1⟩
  · intro hrole r hr
    obtain ⟨b, hb, ht⟩ := huser hrole
    rw [(sessionBusiness_some su b hb).1,
      (clientListWhere_true _ _ _ _ (hrows r hr).2).2 b ht]
  · intro hrole X hX hne r hr
    exact (clientListWhere_true _ _ _ _ (hrows r hr).2).2 X (hadminX hrole X hX hne)
  · intro hrole hcase
    have ht := hadminNone hrole hcase
    subst ht
    exact ⟨htotal, fun r hr => (hrows r hr).2, clientListWhere_none contains q.search⟩


/-- Witness of C15: the ADMIN `ana` lists the clients of `b2`; the answer holds
`c4` and `c2`, newest first, and not the archived `c3`. -/
theorem clients_GET_scope_witness :
    ClientsRoute.GET (some (sampleSession "ana" "ADMIN" (some "b1")))
        ⟨none, none, some "b2", none⟩ (fun a b => a == b) storeClients
      = (⟨200, .clients
            [(sampleClient "c4" "b2" (some "q@x.com") false 4, some ("b2", "Shop b2")),
             (sampleClient "c2" "b2" (some "a@x.com") false 2, some ("b2", "Shop b2"))]
            ⟨1, 20, 2, some 1, false, false⟩⟩, storeClients) ∧
    ∀ r ∈ [(sampleClient "c4" "b2" (some "q@x.com") false 4, some ("b2", "Shop b2")),
           (sampleClient "c2" "b2" (some "a@x.com") false 2, some ("b2", "Shop b2"))],
      r.1.businessId = "b2" :=
  ⟨by decide,
   (clients_GET_scope (sampleSession "ana" "ADMIN" (some "b1")) ⟨none, none, some "b2", none⟩
      (fun a b => a == b) storeClients storeClients
      [(sampleClient "c4" "b2" (some "q@x.com") false 4, some ("b2", "Shop b2")),
       (sampleClient "c2" "b2" (some "a@x.com") false 2, some ("b2", "Shop b2"))]
      ⟨1, 20, 2, some 1, false, false⟩ (by decide)).2.2.2.1 rfl "b2" rfl
      (by decide)⟩

/-! ## Creating a client -/

theorem createClient_ok (s s1 : Store) (c : Client) (h : s.createClient c = .ok s1) :
    s1 = { s with clients := s.clients ++ [c] } ∧ ∀ x ∈ s.clients, x.id ≠ c.id := by
  unfold Store.createClient at h
  split at h
  · cases h
  · rename_i hany
    simp only [Except.ok.injEq] at h
    refine ⟨h.symm, ?_⟩
    intro x hx hxc
    apply hany
    rw [List.any_eq_true]
    exact ⟨x, hx, by simpa using hxc⟩

theorem createClient_fresh (s : Store) (c : Client) (h : ∀ x ∈ s.clients, x.id ≠ c.id) :
    s.createClient c = .ok { s with clients := s.clients ++ [c] } := by
  unfold Store.createClient
  have : s.clients.any (fun x => x.id == c.id) = false := by
    rw [List.any_eq_false]
    intro x hx
    simpa using h x hx
  simp [this]

theorem create_result (p : ClientPayload) (b : String) (g : Generated) (dflt : ColumnDefaults)
    (s : Store) :
    ((ClientsRoute.create p b g dflt s).2 = s ∧
      (ClientsRoute.create p b g dflt s).1.status ≠ 201) ∨
    ∃ data, buildClientData p = .ok data ∧ (∀ x ∈ s.clients, x.id ≠ g.clientId) ∧
      ClientsRoute.create p b g dflt s
        = (⟨201, .client (data.newRow b g dflt)
              (({ s with clients := s.clients ++ [data.newRow b g dflt] } : Store).businessRef
                (data.newRow b g dflt))⟩,
            { s with clients := s.clients ++ [data.newRow b g dflt] }) := by
  unfold ClientsRoute.create
  cases hd : buildClientData p with
  | error e => left; simp [internalError]
  | ok data =>
    simp only []
    cases hc : s.createClient (data.newRow b g dflt) with
    | error e => left; simp [internalError]
    | ok s1 =>
      right
      have ⟨hs1, hfresh⟩ := createClient_ok s s1 _ hc
      subst hs1
      exact ⟨data, rfl, hfresh, rfl⟩

theorem clients_POST_result (su : SessionUser) (body : Option ClientPayload) (g : Generated)
    (dflt : ColumnDefaults) (s : Store) :
    ((ClientsRoute.POST (some su) body g dflt s).2 = s ∧
      (ClientsRoute.POST (some su) body g dflt s).1.status ≠ 201) ∨
    ∃ p b, body = some p ∧ nameMissing p.name = .ok false ∧
      targetBusinessId su p = .str b ∧ (s.findBusiness b).isSome ∧
      ClientsRoute.POST (some su) body g dflt s = ClientsRoute.create p b g dflt s := by
  by_cases hc : ∃ p b, body = some p ∧ nameMissing p.name = .ok false ∧
      targetBusinessId su p = .str b ∧ (s.findBusiness b).isSome ∧
      ClientsRoute.POST (some su) body g dflt s = ClientsRoute.create p b g dflt s
  · right; exact hc
  · left
    revert hc
    unfold ClientsRoute.POST
    simp only [clientAuth]
    split
    · intro _; simp [internalError]
    · rename_i p
      split
      · intro _; simp [internalError]
      · intro _; simp
      · rename_i hname
        split
        · intro _; simp
        · split
          · rename_i b htarget
            split
            · intro _; simp
            · rename_i biz hbiz
              have hsome : (s.findBusiness b).isSome := by rw [hbiz]; rfl
              split
              · split
                · split
                  · intro _; simp
                  · intro hc
                    exact absurd ⟨p, b, rfl, hname, htarget, hsome, rfl⟩ hc
                · intro _; simp [internalError]
              · intro hc
                exact absurd ⟨p, b, rfl, hname, htarget, hsome, rfl⟩ hc
          · intro _; simp [internalError]


theorem targetBusinessId_str (su : SessionUser) (p : ClientPayload) (b : String)
    (h : targetBusinessId su p = .str b) :
    (su.role ≠ "ADMIN" → su.businessId = some b) ∧
    (su.role = "ADMIN" → p.businessId.truthy = true → p.businessId = .str b) ∧
    (su.role = "ADMIN" → p.businessId.truthy = false → su.businessId = some b) := by
  have hown : ∀ x : Option String,
      (match x with
        | some v => JVal.str v
        | none => JVal.undefined) = JVal.str b → x = some b := by
    intro x hx
    cases x with
    | none => cases hx
    | some v => simp only [JVal.str.injEq] at hx; rw [hx]
  unfold targetBusinessId at h
  simp only [] at h
  refine ⟨?_, ?_, ?_⟩
  · intro hrole
    have : (su.role == "ADMIN") = false := by simpa using hrole
    simp only [this, Bool.false_eq_true, if_false] at h
    exact hown _ h
  · intro hrole ht
    simp only [hrole, beq_self_eq_true, if_true, ht] at h
    exact h
  · intro hrole ht
    simp only [hrole, beq_self_eq_true, if_true, ht, Bool.false_eq_true, if_false] at h
    exact hown _ h

/-- C16: a client created by POST /clients (answer 201) is appended to the
store and belongs to an existing business: the businessId of the session when
the session is not ADMIN, whatever the payload says; for ADMIN the businessId
of the payload when it is given (truthy), else the businessId of the session.
When the resolved business does not exist the request is not answered 201 and
the store is unchanged; with a valid name the answer is 404. -/
theorem clients_POST_tenant (su : SessionUser) (p : ClientPayload) (g : Generated)
    (dflt : ColumnDefaults) (s : Store) :
    (∀ c ref s1,
      ClientsRoute.POST (some su) (some p) g dflt s = (⟨201, .client c ref⟩, s1) →
      s1 = { s with clients := s.clients ++ [c] } ∧ (s.findBusiness c.businessId).isSome ∧
      (su.role ≠ "ADMIN" → su.businessId = some c.businessId) ∧
      (su.role = "ADMIN" → p.businessId.truthy = true → p.businessId = .str c.businessId) ∧
      (su.role = "ADMIN" → p.businessId.truthy = false →
        su.businessId = some c.businessId)) ∧
    (∀ b, targetBusinessId su p = .str b → s.findBusiness b = none →
      (ClientsRoute.POST (some su) (some p) g dflt s).1.status ≠ 201 ∧
      (ClientsRoute.POST (some su) (some p) g dflt s).2 = s ∧
      (nameMissing p.name = .ok false → b ≠ "" →
        ClientsRoute.POST (some su) (some p) g dflt s
          = (⟨404, .error "Negocio no encontrado"⟩, s))) := by
  constructor
  · intro c ref s1 h
    rcases clients_POST_result su (some p) g dflt s with hl | ⟨p1, b, hp, _, htarget, hsome, heq⟩
    · rw [h] at hl
      exact absurd rfl hl.2
    · simp only [Option.some.injEq] at hp
      subst hp
      rw [heq] at h
      rcases create_result p b g dflt s with hl | ⟨data, _, _, hc⟩
      · rw [h] at hl
        exact absurd rfl hl.2
      · rw [hc] at h
        simp only [Prod.mk.injEq, Response.mk.injEq, Body.client.injEq, true_and] at h
        obtain ⟨⟨hcl, _⟩, hs1⟩ := h
        subst hcl
        have ht := targetBusinessId_str su p b htarget
        exact ⟨hs1.symm, hsome, ht.1, ht.2.1, ht.2.2⟩
  · intro b htarget hnone
    refine ⟨?_, ?_, ?_⟩
    · rcases clients_POST_result su (some p) g dflt s with hl | ⟨p1, b1, hp, _, ht1, hsome, _⟩
      · exact hl.2
      · simp only [Option.some.injEq] at hp
        subst hp
        rw [htarget] at ht1
        simp only [JVal.str.injEq] at ht1
        subst ht1
        rw [hnone] at hsome
        cases hsome
    · rcases clients_POST_result su (some p) g dflt s with hl | ⟨p1, b1, hp, _, ht1, hsome, _⟩
      · exact hl.1
      · simp only [Option.some.injEq] at hp
        subst hp
        rw [htarget] at ht1
        simp only [JVal.str.injEq] at ht1
        subst ht1
        rw [hnone] at hsome
        cases hsome
    · intro hname hb
      unfold ClientsRoute.POST
      simp [clientAuth, hname, htarget, JVal.truthy, hb, hnone]

/-- Witness of C16: the user `bob` of `b2` names `b1` in the payload and the
client is created in `b2`; the ADMIN `ana` names the missing business `zz` and
is answered 404. -/
theorem clients_POST_tenant_witness :
    (some "b2" : Option String)
      = some (sampleClient "c9" "b2" none false 99).businessId ∧
    ClientsRoute.POST (some (sampleSession "ana" "ADMIN" (some "b1")))
        (some { samplePayload (.str "Client c9") .undefined with businessId := .str "zz" })
        sampleGenerated sampleDefaults storeClients
      = (⟨404, .error "Negocio no encontrado"⟩, storeClients) :=
  ⟨((clients_POST_tenant (sampleSession "bob" "USER" (some "b2"))
      { samplePayload (.str "Client c9") .undefined with businessId := .str "b1" }
      sampleGenerated sampleDefaults storeClients).1
      (sampleClient "c9" "b2" none false 99) (some ("b2", "Shop b2"))
      { storeClients with
        clients := storeClients.clients ++ [sampleClient "c9" "b2" none false 99] }
      (by decide)).2.2.1 (by decide),
   ((clients_POST_tenant (sampleSession "ana" "ADMIN" (some "b1"))
      { samplePayload (.str "Client c9") .undefined with businessId := .str "zz" }
      sampleGenerated sampleDefaults storeClients).2 "zz" rfl (by decide)).2.2 rfl
      (by decide)⟩


theorem create_ok (p : ClientPayload) (b : String) (g : Generated) (dflt : ColumnDefaults)
    (s : Store) (data : ClientData) (hd : buildClientData p = .ok data)
    (hfresh : ∀ x ∈ s.clients, x.id ≠ g.clientId) :
    ClientsRoute.create p b g dflt s
      = (⟨201, .client (data.newRow b g dflt) (s.businessRef (data.newRow b g dflt))⟩,
          { s with clients := s.clients ++ [data.newRow b g dflt] }) := by
  unfold ClientsRoute.create
  rw [hd]
  simp only []
  rw [createClient_fresh s (data.newRow b g dflt) hfresh]
  rfl

/-- C17: for a POST /clients with a valid name whose resolved business b
exists and whose email is a non-empty string e: when a non-archived client of
b has the email e, the answer is 409 and nothing is created; when every client
with the email e is of another business or archived, the request goes on to
the creation and, with well-formed fields and a fresh id, is answered 201 and
the client is appended. -/
theorem clients_POST_email_conflict (su : SessionUser) (p : ClientPayload) (g : Generated)
    (dflt : ColumnDefaults) (s : Store) (b e : String)
    (hname : nameMissing p.name = .ok false) (htarget : targetBusinessId su p = .str b)
    (hb : b ≠ "") (hbiz : (s.findBusiness b).isSome) (hemail : p.email = .str e)
    (he : e ≠ "") :
    ((∃ c ∈ s.clients, c.email = some e ∧ c.businessId = b ∧ c.archived = false) →
      ClientsRoute.POST (some su) (some p) g dflt s
        = (⟨409, .error "Ya existe un cliente con este email en el negocio"⟩, s)) ∧
    ((∀ c ∈ s.clients, c.email = some e → c.businessId ≠ b ∨ c.archived = true) →
      ∀ data, buildClientData p = .ok data → (∀ x ∈ s.clients, x.id ≠ g.clientId) →
      ClientsRoute.POST (some su) (some p) g dflt s
        = (⟨201, .client (data.newRow b g dflt) (s.businessRef (data.newRow b g dflt))⟩,
            { s with clients := s.clients ++ [data.newRow b g dflt] })) := by
  obtain ⟨biz, hbiz1⟩ := Option.isSome_iff_exists.1 hbiz
  constructor
  · rintro ⟨c, hc, hce, hcb, hca⟩
    have hfind : (s.clients.find? (fun c =>
        c.email == some e && c.businessId == b && !c.archived)).isSome := by
      rw [List.find?_isSome]
      exact ⟨c, hc, by simp [hce, hcb, hca]⟩
    obtain ⟨x, hx⟩ := Option.isSome_iff_exists.1 hfind
    unfold ClientsRoute.POST
    simp [clientAuth, hname, htarget, JVal.truthy, hb, hbiz1, hemail, he, hx]
  · intro hall data hd hfresh
    have hfind : s.clients.find? (fun c =>
        c.email == some e && c.businessId == b && !c.archived) = none := by
      rw [List.find?_eq_none]
      intro c hc hp
      simp only [Bool.and_eq_true, beq_iff_eq, Bool.not_eq_true', Bool.not_eq_eq_eq_not,
        Bool.not_true] at hp
      rcases hall c hc hp.1.1 with h | h
      · exact h hp.1.2
      · rw [hp.2] at h; cases h
    rw [← create_ok p b g dflt s data hd hfresh]
    unfold ClientsRoute.POST
    simp [clientAuth, hname, htarget, JVal.truthy, hb, hbiz1, hemail, he, hfind]

/-- Witness of C17: in the business `b2`, the email of `c2` is refused and the
email of the archived `c3` is accepted; the email of `c4`, a client of `b2`,
is accepted in `b1`. -/
theorem clients_POST_email_conflict_witness :
    ClientsRoute.POST (some (sampleSession "bob" "USER" (some "b2")))
        (some (samplePayload (.str "Client c9") (.str "a@x.com"))) sampleGenerated
        sampleDefaults storeClients
      = (⟨409, .error "Ya existe un cliente con este email en el negocio"⟩, storeClients) ∧
    ClientsRoute.POST (some (sampleSession "bob" "USER" (some "b2")))
        (some (samplePayload (.str "Client c9") (.str "z@x.com"))) sampleGenerated
        sampleDefaults storeClients
      = (⟨201, .client (sampleClient "c9" "b2" (some "z@x.com") false 99)
            (some ("b2", "Shop b2"))⟩,
          { storeClients with clients :=
              storeClients.clients ++ [sampleClient "c9" "b2" (some "z@x.com") false 99] }) ∧
    ClientsRoute.POST (some (sampleSession "ana" "ADMIN" (some "b1")))
        (some (samplePayload (.str "Client c9") (.str "q@x.com"))) sampleGenerated
        sampleDefaults storeClients
      = (⟨201, .client (sampleClient "c9" "b1" (some "q@x.com") false 99)
            (some ("b1", "Shop b1"))⟩,
          { storeClients with clients :=
              storeClients.clients ++ [sampleClient "c9" "b1" (some "q@x.com") false 99] }) :=
  ⟨(clients_POST_email_conflict (sampleSession "bob" "USER" (some "b2"))
      (samplePayload (.str "Client c9") (.str "a@x.com")) sampleGenerated sampleDefaults
      storeClients "b2" "a@x.com" rfl rfl (by decide) (by decide) rfl (by decide)).1
      ⟨sampleClient "c2" "b2" (some "a@x.com") false 2, by decide, rfl, rfl, rfl⟩,
   (clients_POST_email_conflict (sampleSession "bob" "USER" (some "b2"))
      (samplePayload (.str "Client c9") (.str "z@x.com")) sampleGenerated sampleDefaults
      storeClients "b2" "z@x.com" rfl rfl (by decide) (by decide) rfl (by decide)).2
      (by decide) ⟨"Client c9", some "z@x.com", none, none, none, none, none⟩ rfl (by decide),
   (clients_POST_email_conflict (sampleSession "ana" "ADMIN" (some "b1"))
      (samplePayload (.str "Client c9") (.str "q@x.com")) sampleGenerated sampleDefaults
      storeClients "b1" "q@x.com" rfl rfl (by decide) (by decide) rfl (by decide)).2
      (by decide) ⟨"Client c9", some "q@x.com", none, none, none, none, none⟩ rfl (by decide)⟩

/-! ## The email invariant of the Client table -/

/-- C18 (failing input): in the business `b2` the client `c2` has the email
`a@x.com`. A POST /clients and a PUT /clients/c4 of the user `bob` with the
email ` a@x.com ` (blanks around it) pass the duplicate check, which looks for
the email as sent, and store the trimmed email: afterwards two non-archived
clients of `b2` have the email `a@x.com`. -/
theorem untrimmed_email_breaks_uniqueness :
    UniqueEmails storeClients ∧
    (ClientsRoute.POST (some (sampleSession "bob" "USER" (some "b2")))
      (some (samplePayload (.str "Client c9") (.str " a@x.com "))) sampleGenerated
      sampleDefaults storeClients).1.status = 201 ∧
    ¬ UniqueEmails (ClientsRoute.POST (some (sampleSession "bob" "USER" (some "b2")))
      (some (samplePayload (.str "Client c9") (.str " a@x.com "))) sampleGenerated
      sampleDefaults storeClients).2 ∧
    (ClientIdRoute.PUT (some (sampleSession "bob" "USER" (some "b2"))) "c4"
      (some (samplePayload (.str "Client c4") (.str " a@x.com "))) 50 storeClients).1.status
      = 200 ∧
    ¬ UniqueEmails (ClientIdRoute.PUT (some (sampleSession "bob" "USER" (some "b2"))) "c4"
      (some (samplePayload (.str "Client c4") (.str " a@x.com "))) 50 storeClients).2 := by
  decide

/-! ## Archiving a client and reading across tenants -/

theorem clientAccess_ok (su : SessionUser) (id : String) (wh : Client → Bool)
    (h : clientAccess su id = .ok wh) (x : Client) (hx : wh x = true) :
    x.id = id ∧ x.archived = false ∧ (su.role ≠ "ADMIN" → sessionBusiness su = some x.businessId) := by
  unfold clientAccess at h
  split at h
  · rename_i hrole
    split at h
    · cases h
    · rename_i b hb
      simp only [Except.ok.injEq] at h
      subst h
      simp only [Bool.and_eq_true, beq_iff_eq, Bool.not_eq_true', Bool.not_eq_eq_eq_not,
        Bool.not_true] at hx
      refine ⟨hx.1.1, hx.1.2, fun _ => ?_⟩
      rw [hb, hx.2]
  · rename_i hrole
    simp only [Except.ok.injEq] at h
    subst h
    simp only [Bool.and_eq_true, beq_iff_eq, Bool.not_eq_true', Bool.not_eq_eq_eq_not,
      Bool.not_true] at hx
    refine ⟨hx.1, hx.2, fun hne => ?_⟩
    simp only [bne_iff_ne, ne_eq, Decidable.not_not] at hrole
    exact absurd hrole hne

theorem client_not_found (su : SessionUser) (id : String) (wh : Client → Bool) (s : Store)
    (hacc : clientAccess su id = .ok wh) (hnone : s.clients.find? wh = none) :
    ClientIdRoute.GET (some su) id s = (⟨404, .error "Cliente no encontrado"⟩, s) ∧
    (∀ now, ClientIdRoute.DELETE (some su) id now s
      = (⟨404, .error "Cliente no encontrado"⟩, s)) ∧
    (∀ p now, nameMissing p.name = .ok false →
      ClientIdRoute.PUT (some su) id (some p) now s
        = (⟨404, .error "Cliente no encontrado"⟩, s)) := by
  refine ⟨?_, ?_, ?_⟩
  · simp [ClientIdRoute.GET, clientAuth, hacc, hnone]
  · intro now
    simp [ClientIdRoute.DELETE, clientAuth, hacc, hnone]
  · intro p now hname
    simp [ClientIdRoute.PUT, clientAuth, hname, hacc, hnone]

theorem updateClient_ok (s : Store) (id : String) (f : Client → Client) (c : Client)
    (hc : c ∈ s.clients) (hid : c.id = id) :
    s.updateClient id f
      = .ok { s with clients := s.clients.map (fun c => if c.id == id then f c else c) } := by
  unfold Store.updateClient
  have hsome : (s.clients.find? (fun c => c.id == id)).isSome := by
    rw [List.find?_isSome]
    exact ⟨c, hc, by simp [hid]⟩
  obtain ⟨x, hx⟩ := Option.isSome_iff_exists.1 hsome
  rw [hx]

theorem find_after_archive (s : Store) (id : String) (now : Nat) (su : SessionUser)
    (wh : Client → Bool) (hacc : clientAccess su id = .ok wh) :
    (s.archiveClient id now).clients.find? wh = none := by
  rw [List.find?_eq_none]
  intro x hx hwh
  have ⟨hid, harch, _⟩ := clientAccess_ok su id wh hacc x hwh
  unfold Store.archiveClient at hx
  obtain ⟨y, _, hy⟩ := List.mem_map.1 hx
  by_cases hyid : y.id = id
  · simp only [hyid, beq_self_eq_true, if_true] at hy
    rw [← hy] at harch
    cases harch
  · have : (y.id == id) = false := by simpa using hyid
    simp only [this, Bool.false_eq_true, if_false] at hy
    rw [hy] at hyid
    exact hyid hid

/-- C19: DELETE /clients/{id} on a client c that the session can see answers
200 and leaves the store with every row in place, the row of c having
archived = true and updatedAt rewritten and no other change. Afterwards, for
every session that is not refused with 403, GET and DELETE /clients/{id} and
PUT /clients/{id} with a valid name answer 404 and change nothing, so a
repeated DELETE leaves the store as the first one left it. -/
theorem client_DELETE_archives (su : SessionUser) (id : String) (now : Nat) (s : Store)
    (c : Client) (wh : Client → Bool) (hacc : clientAccess su id = .ok wh)
    (hvis : s.clients.find? wh = some c) :
    ClientIdRoute.DELETE (some su) id now s
      = (⟨200, .success "Cliente archivado correctamente"⟩, s.archiveClient id now) ∧
    ({ c with archived := true, updatedAt := now } : Client) ∈ (s.archiveClient id now).clients ∧
    (s.archiveClient id now).clients.length = s.clients.length ∧
    (∀ x ∈ s.clients, x.id ≠ id → x ∈ (s.archiveClient id now).clients) ∧
    ∀ su2 wh2, clientAccess su2 id = .ok wh2 →
      ClientIdRoute.GET (some su2) id (s.archiveClient id now)
        = (⟨404, .error "Cliente no encontrado"⟩, s.archiveClient id now) ∧
      (∀ now2, ClientIdRoute.DELETE (some su2) id now2 (s.archiveClient id now)
        = (⟨404, .error "Cliente no encontrado"⟩, s.archiveClient id now)) ∧
      (∀ p now2, nameMissing p.name = .ok false →
        ClientIdRoute.PUT (some su2) id (some p) now2 (s.archiveClient id now)
          = (⟨404, .error "Cliente no encontrado"⟩, s.archiveClient id now)) := by
  have hmem := List.mem_of_find?_eq_some hvis
  have ⟨hid, _, _⟩ := clientAccess_ok su id wh hacc c (List.find?_some hvis)
  refine ⟨?_, ?_, ?_, ?_, ?_⟩
  · unfold ClientIdRoute.DELETE
    simp only [clientAuth, hacc, hvis]
    rw [updateClient_ok s id _ c hmem hid]
    rfl
  · unfold Store.archiveClient
    exact List.mem_map.2 ⟨c, hmem, by simp [hid]⟩
  · simp [Store.archiveClient]
  · intro x hx hne
    unfold Store.archiveClient
    exact List.mem_map.2 ⟨x, hx, by simp [hne]⟩
  · intro su2 wh2 hacc2
    exact client_not_found su2 id wh2 _ hacc2 (find_after_archive s id now su2 wh2 hacc2)

/-- Witness of C19: the user `bob` archives `c2`; the ADMIN `ana` then reads
it and gets 404. -/
theorem client_DELETE_archives_witness :
    ClientIdRoute.DELETE (some (sampleSession "bob" "USER" (some "b2"))) "c2" 50 storeClients
      = (⟨200, .success "Cliente archivado correctamente"⟩,
          storeClients.archiveClient "c2" 50) ∧
    ClientIdRoute.GET (some (sampleSession "ana" "ADMIN" (some "b1"))) "c2"
        (storeClients.archiveClient "c2" 50)
      = (⟨404, .error "Cliente no encontrado"⟩, storeClients.archiveClient "c2" 50) :=
  ⟨(client_DELETE_archives (sampleSession "bob" "USER" (some "b2")) "c2" 50 storeClients
      (sampleClient "c2" "b2" (some "a@x.com") false 2)
      (fun c => c.id == "c2" && !c.archived && c.businessId == "b2") rfl (by decide)).1,
   ((client_DELETE_archives (sampleSession "bob" "USER" (some "b2")) "c2" 50 storeClients
      (sampleClient "c2" "b2" (some "a@x.com") false 2)
      (fun c => c.id == "c2" && !c.archived && c.businessId == "b2") rfl (by decide)).2.2.2.2
      (sampleSession "ana" "ADMIN" (some "b1")) (fun c => c.id == "c2" && !c.archived) rfl).1⟩

/-- C20: for a session that is not ADMIN and has the business B, and an id
that no client of B has (a client of another business may have it or not):
GET and DELETE /clients/{id}, and PUT /clients/{id} with a valid name, answer
404 with the same body and return the store unchanged; the answer is the same
on any two such stores. -/
theorem client_other_tenant_is_404 (su : SessionUser) (id B : String) (s : Store)
    (hrole : su.role ≠ "ADMIN") (hB : sessionBusiness su = some B)
    (hnone : ∀ c ∈ s.clients, c.id = id → c.businessId ≠ B) :
    ClientIdRoute.GET (some su) id s = (⟨404, .error "Cliente no encontrado"⟩, s) ∧
    (∀ now, ClientIdRoute.DELETE (some su) id now s
      = (⟨404, .error "Cliente no encontrado"⟩, s)) ∧
    (∀ p now, nameMissing p.name = .ok false →
      ClientIdRoute.PUT (some su) id (some p) now s
        = (⟨404, .error "Cliente no encontrado"⟩, s)) ∧
    (∀ s2 : Store, (∀ c ∈ s2.clients, c.id = id → c.businessId ≠ B) →
      (ClientIdRoute.GET (some su) id s2).1 = (ClientIdRoute.GET (some su) id s).1) := by
  have hacc : clientAccess su id
      = .ok (fun c => c.id == id && !c.archived && c.businessId == B) := by
    simp [clientAccess, hrole, hB]
  have hfind : ∀ t : Store, (∀ c ∈ t.clients, c.id = id → c.businessId ≠ B) →
      t.clients.find? (fun c => c.id == id && !c.archived && c.businessId == B) = none := by
    intro t ht
    rw [List.find?_eq_none]
    intro c hc hp
    simp only [Bool.and_eq_true, beq_iff_eq, Bool.not_eq_true', Bool.not_eq_eq_eq_not,
      Bool.not_true] at hp
    exact ht c hc hp.1.1 hp.2
  have h1 := client_not_found su id _ s hacc (hfind s hnone)
  refine ⟨h1.1, h1.2.1, h1.2.2, ?_⟩
  intro s2 h2
  rw [(client_not_found su id _ s2 hacc (hfind s2 h2)).1, h1.1]

/-- Witness of C20: the user `bob` of `b2` asks for `c1`, a client of `b1`, and
for `zz`, which no client has, and gets the same answer. -/
theorem client_other_tenant_is_404_witness :
    ClientIdRoute.GET (some (sampleSession "bob" "USER" (some "b2"))) "c1" storeClients
      = (⟨404, .error "Cliente no encontrado"⟩, storeClients) ∧
    ClientIdRoute.GET (some (sampleSession "bob" "USER" (some "b2"))) "zz" storeClients
      = (⟨404, .error "Cliente no encontrado"⟩, storeClients) :=
  ⟨(client_other_tenant_is_404 (sampleSession "bob" "USER" (some "b2")) "c1" "b2"
      storeClients (by decide) rfl (by decide)).1,
   (client_other_tenant_is_404 (sampleSession "bob" "USER" (some "b2")) "zz" "b2"
      storeClients (by decide) rfl (by decide)).1⟩

/-! ## Deleting a business -/

theorem detachUsers_of_none (s : Store) (bid : String)
    (h : s.users.any (fun u => u.businessId == some bid) = false) : s.detachUsers bid = s := by
  unfold Store.detachUsers
  have : s.users.map (fun u =>
      if u.businessId == some bid then { u with businessId := none } else u) = s.users := by
    rw [List.any_eq_false] at h
    conv => rhs; rw [← List.map_id s.users]
    apply List.map_congr_left
    intro u hu
    have := h u hu
    simp only [Bool.not_eq_true] at this
    simp [this]
  rw [this]

theorem findUser_detachUsers (s : Store) (bid uid : String) (user : User)
    (h : s.findUser uid = some user) :
    ∃ user2, (s.detachUsers bid).findUser uid = some user2 ∧ user2.role = user.role := by
  unfold Store.findUser Store.detachUsers at *
  simp only [List.find?_map]
  have hcomp : ((fun u : User => u.id == uid) ∘ fun u =>
      if u.businessId == some bid then { u with businessId := none } else u)
      = fun u => u.id == uid := by
    funext u
    simp only [Function.comp]
    split <;> rfl
  rw [hcomp, h]
  simp only [Option.map_some']
  split
  · exact ⟨_, rfl, rfl⟩
  · exact ⟨_, rfl, rfl⟩

theorem findBusiness_filter_ne (l : List Business) (bid : String) :
    (l.filter (fun b => b.id != bid)).find? (fun b => b.id == bid) = none := by
  rw [List.find?_eq_none]
  intro x hx
  have := (List.mem_filter.1 hx).2
  simpa using this

theorem deleteBusiness_ok (s1 : Store) (bid : String) (clients : OnDelete)
    (hfind : (s1.findBusiness bid).isSome)
    (hclients : clients = .cascade ∨ ∀ c ∈ s1.clients, c.businessId ≠ bid) :
    ∃ s2, s1.deleteBusiness bid clients = .ok s2 ∧ s2.users = s1.users ∧
      s2.businesses = s1.businesses.filter (fun x => x.id != bid) ∧
      (clients = .restrict → s2.clients = s1.clients) ∧
      (clients = .cascade → s2.clients = s1.clients.filter (fun c => c.businessId != bid)) := by
  obtain ⟨y, hy⟩ := Option.isSome_iff_exists.1 hfind
  unfold Store.deleteBusiness
  rw [hy]
  cases clients with
  | cascade =>
    refine ⟨_, rfl, rfl, rfl, ?_, fun _ => rfl⟩
    intro h
    cases h
  | restrict =>
    have hno : s1.clients.any (fun c => c.businessId == bid) = false := by
      rw [List.any_eq_false]
      intro c hc
      rcases hclients with h | h
      · cases h
      · simpa using h c hc
    simp only [hno, Bool.false_eq_true, if_false]
    refine ⟨_, rfl, rfl, rfl, fun _ => rfl, ?_⟩
    intro h
    cases h

theorem business_DELETE_admin (su : SessionUser) (s : Store) (user : User) (b : Business)
    (clients : OnDelete) (hauth : su.id ≠ "") (huser : s.findUser su.id = some user)
    (hrole : user.role = "ADMIN") (hb : b ∈ s.businesses) (hid : b.id ≠ "")
    (hclients : clients = .cascade ∨ ∀ c ∈ s.clients, c.businessId ≠ b.id) :
    ∃ s2, BusinessDeleteRoute.DELETE (some su) (some (.str b.id)) clients s
        = (⟨200, .deleted "Negocio eliminado exitosamente" b.id⟩, s2) ∧
      s2.users = (s.detachUsers b.id).users ∧
      s2.businesses = s.businesses.filter (fun x => x.id != b.id) ∧
      (clients = .restrict → s2.clients = s.clients) ∧
      (clients = .cascade → s2.clients = s.clients.filter (fun c => c.businessId != b.id)) := by
  have hsome := findBusiness_isSome_of_mem s b hb
  obtain ⟨y, hy⟩ := Option.isSome_iff_exists.1 hsome
  have hs1 : (if s.users.any (fun u => u.businessId == some b.id) then s.detachUsers b.id
      else s) = s.detachUsers b.id := by
    split
    · rfl
    · rename_i h
      simp only [Bool.not_eq_true] at h
      exact (detachUsers_of_none s b.id h).symm
  obtain ⟨s2, hdel, h1, h2, h3, h4⟩ :=
    deleteBusiness_ok (s.detachUsers b.id) b.id clients hsome hclients
  refine ⟨s2, ?_, h1, h2, h3, h4⟩
  unfold BusinessDeleteRoute.DELETE
  rw [verifyApiAuth_some su hauth]
  simp only [huser, hrole, hy, hs1, hdel]
  simp [JVal.truthy, hid]


/-- C21: DELETE /business of an authenticated stored user. A user whose stored
role is not ADMIN gets 403 for every body and nothing changes. For an ADMIN
and an existing business b (no client of b blocking the delete: the clients
cascade, or b has none) the answer is 200, every user that referenced b has
businessId = null and every other user is unchanged, the row of b is removed
and every other business is kept unchanged; afterwards GET /business/{b}
answers 404. -/
theorem business_DELETE_effect (su : SessionUser) (s : Store) (user : User) (b : Business)
    (clients : OnDelete) (hauth : su.id ≠ "") (huser : s.findUser su.id = some user) :
    (user.role ≠ "ADMIN" → ∀ body, BusinessDeleteRoute.DELETE (some su) body clients s
      = (⟨403, .error "No autorizado - Solo usuarios ADMIN pueden eliminar negocios"⟩, s)) ∧
    (user.role = "ADMIN" → UniqueIds s → b ∈ s.businesses → b.id ≠ "" →
      (clients = .cascade ∨ ∀ c ∈ s.clients, c.businessId ≠ b.id) →
      ∃ s2, BusinessDeleteRoute.DELETE (some su) (some (.str b.id)) clients s
          = (⟨200, .deleted "Negocio eliminado exitosamente" b.id⟩, s2) ∧
        s2.users = s.users.map (fun u =>
          if u.businessId == some b.id then { u with businessId := none } else u) ∧
        s2.businesses = s.businesses.filter (fun x => x.id != b.id) ∧
        b ∉ s2.businesses ∧ (∀ x ∈ s.businesses, x ≠ b → x ∈ s2.businesses) ∧
        BusinessIdRoute.GET (some su) b.id s2
          = (⟨404, .error "Negocio no encontrado"⟩, s2)) := by
  constructor
  · intro hrole body
    exact business_DELETE_forbidden su s user body clients hauth huser hrole
  · intro hrole hu hb hid hclients
    obtain ⟨s2, hdel, husers, hbiz, _, _⟩ :=
      business_DELETE_admin su s user b clients hauth huser hrole hb hid hclients
    refine ⟨s2, hdel, husers, hbiz, ?_, ?_, ?_⟩
    · rw [hbiz]
      intro hmem
      have := (List.mem_filter.1 hmem).2
      simp at this
    · intro x hx hne
      rw [hbiz]
      refine List.mem_filter.2 ⟨hx, ?_⟩
      have hidne : x.id ≠ b.id := by
        intro heq
        unfold UniqueIds at hu
        exact hne (List.inj_on_of_nodup_map hu hx hb heq)
      simpa using hidne
    · obtain ⟨user2, hu2, hr2⟩ := findUser_detachUsers s b.id su.id user huser
      have hfu : s2.findUser su.id = some user2 := by
        unfold Store.findUser at hu2 ⊢
        rw [husers]
        exact hu2
      have hfb : s2.findBusiness b.id = none := by
        unfold Store.findBusiness
        rw [hbiz]
        exact findBusiness_filter_ne s.businesses b.id
      unfold BusinessIdRoute.GET
      rw [verifyApiAuth_some su hauth]
      simp [hid, hfu, hr2, hrole, hfb]

/-- Witness of C21: the ADMIN `ana` deletes `b2`, the business of `bob`; the
user `bob` of `b2` is refused. -/
theorem business_DELETE_effect_witness :
    (∃ s2, BusinessDeleteRoute.DELETE (some (sampleSession "ana" "ADMIN" (some "b1")))
          (some (.str (sampleBusiness "b2" false false 20).id)) .restrict storeFresh
          = (⟨200, .deleted "Negocio eliminado exitosamente"
              (sampleBusiness "b2" false false 20).id⟩, s2) ∧
        s2.users = storeFresh.users.map (fun u =>
          if u.businessId == some (sampleBusiness "b2" false false 20).id then
            { u with businessId := none } else u) ∧
        s2.businesses = storeFresh.businesses.filter
          (fun x => x.id != (sampleBusiness "b2" false false 20).id) ∧
        sampleBusiness "b2" false false 20 ∉ s2.businesses ∧
        (∀ x ∈ storeFresh.businesses, x ≠ sampleBusiness "b2" false false 20 →
          x ∈ s2.businesses) ∧
        BusinessIdRoute.GET (some (sampleSession "ana" "ADMIN" (some "b1")))
            (sampleBusiness "b2" false false 20).id s2
          = (⟨404, .error "Negocio no encontrado"⟩, s2)) ∧
    BusinessDeleteRoute.DELETE (some (sampleSession "bob" "USER" (some "b2")))
        (some (.str "b1")) .restrict storeFresh
      = (⟨403, .error "No autorizado - Solo usuarios ADMIN pueden eliminar negocios"⟩,
          storeFresh) :=
  ⟨(business_DELETE_effect (sampleSession "ana" "ADMIN" (some "b1")) storeFresh
      (sampleUser "ana" "ADMIN" (some "b1")) (sampleBusiness "b2" false false 20) .restrict
      (by decide) (by decide)).2 rfl (by decide) (by decide) (by decide)
      (Or.inr (by decide)),
   (business_DELETE_effect (sampleSession "bob" "USER" (some "b2")) storeFresh
      (sampleUser "bob" "USER" (some "b2")) (sampleBusiness "b1" false false 10) .restrict
      (by decide) (by decide)).1 (by decide) _⟩

/-! ## The name and the whatsapp of a business -/

/-- C22 (failing input): the ADMIN `ana` sends PUT /business/b2 with a blank
name and `archived: false`. The name check is skipped because `archived` is
present, the request is answered 200 and the business `b2` is stored with the
empty name. -/
theorem blank_name_with_archived_is_stored :
    (BusinessIdRoute.PUT (some (sampleSession "ana" "ADMIN" (some "b1"))) "b2"
      (some { sampleBusinessPayload (.str "   ") with archived := .bool false }) 50
      storeFresh).1.status = 200 ∧
    ((BusinessIdRoute.PUT (some (sampleSession "ana" "ADMIN" (some "b1"))) "b2"
      (some { sampleBusinessPayload (.str "   ") with archived := .bool false }) 50
      storeFresh).2.findBusiness "b2").map (fun b => b.name) = some "" ∧
    nameMissing (.str "   ") = .ok true := by
  refine ⟨by decide, by decide, rfl⟩

/-! ## Registration -/

theorem createBusiness_ok (s s1 : Store) (b : Business) (h : s.createBusiness b = .ok s1) :
    s1 = { s with businesses := s.businesses ++ [b] } := by
  unfold Store.createBusiness at h
  split at h
  · cases h
  · split at h
    · cases h
    · simp only [Except.ok.injEq] at h
      exact h.symm

theorem createUser_ok (s s1 : Store) (u : User) (h : s.createUser u = .ok s1) :
    s1 = { s with users := s.users ++ [u] } := by
  unfold Store.createUser at h
  split at h
  · cases h
  · split at h
    · cases h
    · simp only [Except.ok.injEq] at h
      exact h.symm

theorem register_cases (body : Option RegisterPayload) (hash : String → String)
    (g : Generated) (dflt : ColumnDefaults) (s : Store) :
    ((RegisterRoute.POST body hash g dflt s).2 = s ∧
      (RegisterRoute.POST body hash g dflt s).1.status ≠ 200) ∨
    (∃ b, RegisterRoute.POST body hash g dflt s
        = (internalError, { s with businesses := s.businesses ++ [b] })) ∨
    (∃ p email password businessName description name,
      body = some p ∧ p.email = .str email ∧ s.findUserByEmail email = none ∧
      p.password = .str password ∧ p.businessName = .str businessName ∧
      nullableColumn p.businessDescription = .ok description ∧
      nullableColumn p.name = .ok name ∧
      RegisterRoute.POST body hash g dflt s
        = (⟨200, .registered "Usuario y negocio creados exitosamente"
              { id := g.userId, name := name.getD none, email := some email, password := none,
                role := "ADMIN", businessId := some g.businessId }
              (some { id := g.businessId, name := businessName,
                      description := description.getD none, address := none, phone := none,
                      email := none, website := none, whatsapp := some g.placeholder,
                      logo := dflt.logo, archived := dflt.archived,
                      isSelected := dflt.isSelected, createdAt := g.now,
                      updatedAt := g.now })⟩,
            { businesses := s.businesses ++
                [{ id := g.businessId, name := businessName,
                   description := description.getD none, address := none, phone := none,
                   email := none, website := none, whatsapp := some g.placeholder,
                   logo := dflt.logo, archived := dflt.archived,
                   isSelected := dflt.isSelected, createdAt := g.now, updatedAt := g.now }],
              users := s.users ++
                [{ id := g.userId, name := name.getD none, email := some email,
                   password := some (hash password), role := "ADMIN",
                   businessId := some g.businessId }],
              clients := s.clients })) := by
  unfold RegisterRoute.POST
  split
  · left; simp [internalError]
  · rename_i p
    split
    · rename_i email hemail
      split
      · left; simp
      · rename_i hfind
        split
        · rename_i password hpw
          simp only []
          split
          · rename_i businessName description hbn hdesc
            have hname : p.businessName = .str businessName := by
              cases hb : p.businessName <;> rw [hb] at hbn <;>
                simp [requiredColumn] at hbn
              rw [hbn]
            split
            · left; simp
            · left; simp [internalError]
            · rename_i s1 hc
              have hs1 := createBusiness_ok s s1 _ hc
              subst hs1
              split
              · right; left; exact ⟨_, rfl⟩
              · rename_i name hn
                split
                · right; left; exact ⟨_, rfl⟩
                · rename_i s2 hcu
                  have hs2 := createUser_ok _ s2 _ hcu
                  subst hs2
                  right; right
                  exact ⟨p, email, password, businessName, description, name, rfl, hemail,
                    hfind, hpw, hname, hdesc, hn, rfl⟩
          · left; simp [internalError]
        · left; simp [internalError]
    · left; simp [internalError]


/-- C24: a POST /register answered 200 adds exactly one Business, appended to
the table, whose name is the businessName of the request and whose whatsapp is
the generated placeholder, and exactly one User, appended to the table, with
role ADMIN and the id of that business as businessId; the email of the request
is held by no user before. A request whose email is held by a user is answered
400 and the store is unchanged. -/
theorem register_adds_business_and_admin (p : RegisterPayload) (hash : String → String)
    (g : Generated) (dflt : ColumnDefaults) (s : Store) :
    (∀ msg u bz s2,
      RegisterRoute.POST (some p) hash g dflt s = (⟨200, .registered msg u bz⟩, s2) →
      ∃ b usr email, p.email = .str email ∧ s.findUserByEmail email = none ∧
        s2.businesses = s.businesses ++ [b] ∧ s2.users = s.users ++ [usr] ∧
        s2.clients = s.clients ∧ bz = some b ∧
        p.businessName = .str b.name ∧ b.whatsapp = some g.placeholder ∧
        usr.role = "ADMIN" ∧ usr.businessId = some b.id ∧ usr.email = some email) ∧
    (∀ email, p.email = .str email → (s.findUserByEmail email).isSome →
      RegisterRoute.POST (some p) hash g dflt s = (⟨400, .error "El usuario ya existe"⟩, s)) := by
  constructor
  · intro msg u bz s2 h
    rcases register_cases (some p) hash g dflt s with hl | ⟨b, hb⟩ |
      ⟨p1, email, password, businessName, description, name, hp, hemail, hfind, _, hbn, _, _,
        heq⟩
    · rw [h] at hl
      exact absurd rfl hl.2
    · rw [h] at hb
      simp [internalError] at hb
    · simp only [Option.some.injEq] at hp
      subst hp
      rw [heq] at h
      simp only [Prod.mk.injEq, Response.mk.injEq, Body.registered.injEq, true_and] at h
      obtain ⟨⟨_, _, hbz⟩, hs2⟩ := h
      subst hs2
      exact ⟨_, _, email, hemail, hfind, rfl, rfl, rfl, hbz.symm, hbn, rfl, rfl, rfl, rfl⟩
  · intro email hemail hsome
    obtain ⟨x, hx⟩ := Option.isSome_iff_exists.1 hsome
    unfold RegisterRoute.POST
    simp [hemail, hx]

/-- Witness of C24: Ana registers with "Ana Shop" on the fresh store; a
registration with the email of `bob` is refused. -/
theorem register_adds_business_and_admin_witness :
    (∃ b usr email, (sampleRegisterPayload (.str "Ana")).email = .str email ∧
        storeFresh.findUserByEmail email = none ∧
        storeFresh.businesses ++ [anaShop] = storeFresh.businesses ++ [b] ∧
        storeFresh.users ++ [anaUser] = storeFresh.users ++ [usr] ∧
        storeFresh.clients = storeFresh.clients ∧ some anaShop = some b ∧
        (sampleRegisterPayload (.str "Ana")).businessName = .str b.name ∧
        b.whatsapp = some sampleGenerated.placeholder ∧
        usr.role = "ADMIN" ∧ usr.businessId = some b.id ∧ usr.email = some email) ∧
    RegisterRoute.POST (some { sampleRegisterPayload (.str "Bob") with email := .str "bob@x.com" })
        (fun x => x) sampleGenerated sampleDefaults storeFresh
      = (⟨400, .error "El usuario ya existe"⟩, storeFresh) :=
  ⟨(register_adds_business_and_admin (sampleRegisterPayload (.str "Ana")) (fun x => x)
      sampleGenerated sampleDefaults storeFresh).1
      "Usuario y negocio creados exitosamente" { anaUser with password := none }
      (some anaShop)
      { storeFresh with businesses := storeFresh.businesses ++ [anaShop],
                        users := storeFresh.users ++ [anaUser] } (by decide),
   (register_adds_business_and_admin
      { sampleRegisterPayload (.str "Bob") with email := .str "bob@x.com" } (fun x => x)
      sampleGenerated sampleDefaults storeFresh).2 "bob@x.com" rfl (by decide)⟩

/-- C25 (counterexample): a registration whose `name` is the number 3 creates
the business "Ana Shop"; the creation of the user is then refused by Prisma,
the request is answered 500, and the store keeps the new business without any
user for it. -/
theorem register_failure_keeps_business :
    RegisterRoute.POST (some (sampleRegisterPayload (.num 3))) (fun x => x) sampleGenerated
        sampleDefaults storeFresh
      = (internalError, { storeFresh with businesses := storeFresh.businesses ++ [anaShop] }) ∧
    anaShop ∉ storeFresh.businesses := by
  decide

/-- C25 (amended): POST /register is not transactional. Whenever it is not
answered 200 no User is added and the clients are unchanged, and either the
store is unchanged or the answer is 500 and exactly one Business was appended
(the user creation failed after the business was created); a request answered
400 leaves the store unchanged. -/
theorem register_failure_effect (body : Option RegisterPayload) (hash : String → String)
    (g : Generated) (dflt : ColumnDefaults) (s : Store)
    (h : (RegisterRoute.POST body hash g dflt s).1.status ≠ 200) :
    (RegisterRoute.POST body hash g dflt s).2.users = s.users ∧
    (RegisterRoute.POST body hash g dflt s).2.clients = s.clients ∧
    ((RegisterRoute.POST body hash g dflt s).2 = s ∨
      ∃ b, RegisterRoute.POST body hash g dflt s
        = (internalError, { s with businesses := s.businesses ++ [b] })) ∧
    ((RegisterRoute.POST body hash g dflt s).1.status = 400 →
      (RegisterRoute.POST body hash g dflt s).2 = s) := by
  rcases register_cases body hash g dflt s with hl | ⟨b, hb⟩ | ⟨_, _, _, _, _, _, _, _, _, _, _, _, _, heq⟩
  · rw [hl.1]
    exact ⟨rfl, rfl, Or.inl rfl, fun _ => rfl⟩
  · rw [hb]
    refine ⟨rfl, rfl, Or.inr ⟨b, rfl⟩, ?_⟩
    intro h4
    simp [internalError] at h4
  · rw [heq] at h
    exact absurd rfl h

/-- Witness of C25 (amended): the registration with the numeric name. -/
theorem register_failure_effect_witness :
    (RegisterRoute.POST (some (sampleRegisterPayload (.num 3))) (fun x => x) sampleGenerated
      sampleDefaults storeFresh).2.users = storeFresh.users :=
  (register_failure_effect (some (sampleRegisterPayload (.num 3))) (fun x => x)
    sampleGenerated sampleDefaults storeFresh (by decide)).1

/-! ## The unique column whatsapp -/

theorem updateBusinessData_ok (s s1 : Store) (id : String) (d : BusinessUpdate)
    (b : Business) (h : s.updateBusinessData id d = .ok (b, s1)) :
    ∃ old, s.findBusiness id = some old ∧ b = d.apply old ∧
      s1 = s.updateManyBusiness (fun b => b.id == id) d.apply ∧
      ∀ w, d.whatsapp = some (some w) → ∀ x ∈ s.businesses, x.id ≠ id → x.whatsapp ≠ some w := by
  unfold Store.updateBusinessData at h
  split at h
  · cases h
  · rename_i old hfind
    simp only [] at h
    split at h
    · cases h
    · rename_i htaken
      simp only [Except.ok.injEq, Prod.mk.injEq] at h
      refine ⟨old, hfind, h.1.symm, h.2.symm, ?_⟩
      intro w hd x hx hid hxw
      apply htaken
      rw [hd]
      simp only [List.any_eq_true]
      exact ⟨x, hx, by simp [hid, hxw]⟩

theorem uniqueWhatsapp_symm :
    Symmetric (fun a b : Business => a.whatsapp = b.whatsapp → a.whatsapp = none) := by
  intro a b h hba
  rw [hba]
  exact h hba.symm

theorem uniqueWhatsapp_updateBusinessData (s s1 : Store) (id : String) (d : BusinessUpdate)
    (b : Business) (hu : UniqueIds s) (hw : UniqueWhatsapp s)
    (h : s.updateBusinessData id d = .ok (b, s1)) : UniqueWhatsapp s1 := by
  obtain ⟨old, _, _, hs1, hfree⟩ := updateBusinessData_ok s s1 id d b h
  subst hs1
  unfold UniqueWhatsapp Store.updateManyBusiness
  simp only [List.pairwise_map]
  unfold UniqueIds at hu
  unfold UniqueWhatsapp at hw
  rw [List.Nodup, List.pairwise_map] at hu
  refine List.Pairwise.imp_of_mem ?_ (hw.and hu)
  intro x y hx hy hxy
  obtain ⟨hR, hne⟩ := hxy
  by_cases hxi : x.id = id <;> by_cases hyi : y.id = id
  · exact absurd (hxi.trans hyi.symm) hne
  · simp only [hxi, hyi, beq_self_eq_true, if_true, beq_iff_eq, if_false]
    cases hd : d.whatsapp with
    | none =>
      simp only [BusinessUpdate.apply, hd, Option.getD_none]
      exact hR
    | some v =>
      cases v with
      | none =>
        intro _
        simp [BusinessUpdate.apply, hd]
      | some w =>
        intro heq
        simp only [BusinessUpdate.apply, hd, Option.getD_some] at heq
        exact absurd heq.symm (hfree w hd y hy hyi)
  · simp only [hxi, hyi, beq_self_eq_true, if_true, beq_iff_eq, if_false]
    cases hd : d.whatsapp with
    | none =>
      simp only [BusinessUpdate.apply, hd, Option.getD_none]
      exact hR
    | some v =>
      cases v with
      | none =>
        intro heq
        simp only [BusinessUpdate.apply, hd, Option.getD_some] at heq
        exact heq
      | some w =>
        intro heq
        simp only [BusinessUpdate.apply, hd, Option.getD_some] at heq
        exact absurd heq (hfree w hd x hx hxi)
  · simp only [hxi, hyi, beq_iff_eq, if_false]
    exact hR

theorem uniqueWhatsapp_createBusiness (s s1 : Store) (b : Business) (hw : UniqueWhatsapp s)
    (h : s.createBusiness b = .ok s1) : UniqueWhatsapp s1 := by
  unfold Store.createBusiness at h
  split at h
  · cases h
  · split at h
    · cases h
    · rename_i _ htaken
      simp only [Except.ok.injEq] at h
      subst h
      unfold UniqueWhatsapp
      simp only [List.pairwise_append, List.pairwise_singleton, List.mem_singleton, true_and]
      refine ⟨hw, ?_⟩
      intro a ha y hy heq
      subst hy
      cases hbw : y.whatsapp with
      | none => rw [heq, hbw]
      | some w =>
        exfalso
        apply htaken
        simp only [hbw, Option.isSome_some, Bool.true_and, List.any_eq_true]
        exact ⟨a, ha, by simp [heq, hbw]⟩

theorem uniqueWhatsapp_updateUser (s s1 : Store) (id : String) (f : User → User)
    (hw : UniqueWhatsapp s) (h : s.updateUser id f = .ok s1) : UniqueWhatsapp s1 := by
  unfold Store.updateUser at h
  split at h
  · cases h
  · simp only [Except.ok.injEq] at h
    rw [← h]
    exact hw

theorem findBusinessByWhatsapp_of_unique (s : Store) (hw : UniqueWhatsapp s) (other : Business)
    (w : String) (hmem : other ∈ s.businesses) (how : other.whatsapp = some w) :
    s.findBusinessByWhatsapp w = some other := by
  unfold Store.findBusinessByWhatsapp
  cases hf : s.businesses.find? (fun b => b.whatsapp == some w) with
  | none =>
    rw [List.find?_eq_none] at hf
    exact absurd (by simp [how]) (hf other hmem)
  | some x =>
    have hxw : x.whatsapp = some w := by simpa using List.find?_some hf
    have hxm : x ∈ s.businesses := List.mem_of_find?_eq_some hf
    by_cases hxo : x = other
    · rw [hxo]
    · have := List.Pairwise.forall uniqueWhatsapp_symm hw hxm hmem hxo (hxw.trans how.symm)
      rw [hxw] at this
      cases this

theorem businessCreate_uniqueWhatsapp (session : Session) (body : Option BusinessPayload)
    (g : Generated) (dflt : ColumnDefaults) (s : Store) (hw : UniqueWhatsapp s) :
    UniqueWhatsapp (BusinessCreateRoute.POST session body g dflt s).2 := by
  unfold BusinessCreateRoute.POST
  simp only []
  repeat' split
  all_goals first
    | exact hw
    | exact uniqueWhatsapp_createBusiness _ _ _ hw (by assumption)
    | exact uniqueWhatsapp_updateUser _ _ _ _
        (uniqueWhatsapp_createBusiness _ _ _ hw (by assumption)) (by assumption)

theorem businessId_PUT_uniqueWhatsapp (session : Session) (id : String)
    (body : Option BusinessPayload) (now : Nat) (s : Store) (hu : UniqueIds s)
    (hw : UniqueWhatsapp s) : UniqueWhatsapp (BusinessIdRoute.PUT session id body now s).2 := by
  unfold BusinessIdRoute.PUT
  simp only []
  repeat' split
  all_goals first
    | exact hw
    | exact uniqueWhatsapp_updateBusinessData _ _ _ _ _ hu hw (by assumption)

theorem businessUpdate_PUT_uniqueWhatsapp (session : Session) (body : Option BusinessPayload)
    (s : Store) (hu : UniqueIds s) (hw : UniqueWhatsapp s) :
    UniqueWhatsapp (BusinessUpdateRoute.PUT session body s).2 := by
  unfold BusinessUpdateRoute.PUT
  simp only []
  repeat' split
  all_goals first
    | exact hw
    | exact uniqueWhatsapp_updateBusinessData _ _ _ _ _ hu hw (by assumption)

theorem businessCreate_taken (su : SessionUser) (user : User) (p : BusinessPayload)
    (g : Generated) (dflt : ColumnDefaults) (s : Store) (w : String) (other : Business)
    (hauth : su.id ≠ "") (huser : s.findUser su.id = some user)
    (hperm : user.role = "ADMIN" ∨ user.businessId = none ∨ user.businessId = some "")
    (hname : nameMissing p.name = .ok false) (htrim : trimOrNull p.whatsapp = .ok (some w))
    (hmem : other ∈ s.businesses) (how : other.whatsapp = some w) :
    BusinessCreateRoute.POST (some su) (some p) g dflt s
      = (⟨400, .error "Este número de WhatsApp ya está registrado en otro negocio"⟩, s) := by
  have hfind : (s.findBusinessByWhatsapp w).isSome = true := by
    unfold Store.findBusinessByWhatsapp
    rw [List.find?_isSome]
    exact ⟨other, hmem, by simp [how]⟩
  have hp : (user.role != "ADMIN" && (user.businessId != none && user.businessId != some ""))
      = false := by
    rcases hperm with h | h | h <;> simp [h]
  unfold BusinessCreateRoute.POST
  rw [verifyApiAuth_some su hauth]
  simp only [huser, hp, hname, htrim, hfind]
  rfl

theorem businessId_PUT_taken (su : SessionUser) (user : User) (id : String)
    (p : BusinessPayload) (now : Nat) (s : Store) (w : String) (target other : Business)
    (hw : UniqueWhatsapp s) (hauth : su.id ≠ "") (hid : id ≠ "")
    (huser : s.findUser su.id = some user)
    (hperm : user.role = "ADMIN" ∨ user.businessId = some id)
    (hname : p.archived ≠ .undefined ∨ nameMissing p.name = .ok false)
    (htarget : s.findBusiness id = some target)
    (htrim : trimOrNull p.whatsapp = .ok (some w))
    (hmem : other ∈ s.businesses) (hne : other.id ≠ id) (how : other.whatsapp = some w) :
    BusinessIdRoute.PUT (some su) id (some p) now s
      = (⟨400, .error "Este número de WhatsApp ya está registrado en otro negocio"⟩, s) := by
  have hfind := findBusinessByWhatsapp_of_unique s hw other w hmem how
  have hp : (user.role != "ADMIN" && user.businessId != some id) = false := by
    rcases hperm with h | h <;> simp [h]
  have hidb : (id == "") = false := by simp [hid]
  have hn : (if p.archived == .undefined then nameMissing p.name else .ok false)
      = .ok false := by
    rcases hname with h | h
    · simp [h]
    · split
      · exact h
      · rfl
  have hund : p.whatsapp ≠ .undefined := by
    intro h
    rw [h] at htrim
    cases htrim
  have htm : target ∈ s.businesses := List.mem_of_find?_eq_some htarget
  have hti : target.id = id := by
    have := List.find?_some htarget
    simpa using this
  have htw : target.whatsapp ≠ some w := by
    intro h
    have hto : target ≠ other := by
      intro h2
      rw [h2] at hti
      exact hne hti
    have := List.Pairwise.forall uniqueWhatsapp_symm hw htm hmem hto (h.trans how.symm)
    rw [h] at this
    cases this
  have hc : (p.whatsapp != .undefined && some w != target.whatsapp && other.id != id) = true := by
    simp [hund, hne, Ne.symm htw]
  unfold BusinessIdRoute.PUT
  rw [verifyApiAuth_some su hauth]
  simp only [hidb, huser, hp, hn, htarget, htrim, hfind, hc]
  rfl

theorem businessUpdate_PUT_taken (su : SessionUser) (bid : String) (p : BusinessPayload)
    (s : Store) (w : String) (other : Business) (hw : UniqueWhatsapp s) (hauth : su.id ≠ "")
    (hbiz : su.businessId = some bid) (hbid : bid ≠ "")
    (htrim : trimOrNull p.whatsapp = .ok (some w))
    (hmem : other ∈ s.businesses) (hne : other.id ≠ bid) (how : other.whatsapp = some w) :
    BusinessUpdateRoute.PUT (some su) (some p) s
      = (⟨400, .error "Este número de WhatsApp ya está registrado en otro negocio"⟩, s) := by
  have hfind := findBusinessByWhatsapp_of_unique s hw other w hmem how
  have hb : (bid == "") = false := by simp [hbid]
  have hc : (other.id != bid) = true := by simp [hne]
  unfold BusinessUpdateRoute.PUT
  rw [verifyApiAuth_some su hauth]
  simp only [hbiz, hb, htrim, hfind, hc]
  rfl

theorem buildBusinessData_whatsapp (p : BusinessPayload) (wv : Option String) (g : Generated)
    (dflt : ColumnDefaults) (nb : Business) (h : buildBusinessData p wv g dflt = .ok nb) :
    nb.whatsapp = wv := by
  unfold buildBusinessData at h
  simp only [bind, Except.bind, pure, Except.pure] at h
  repeat' split at h
  all_goals first
    | (cases h; done)
    | (cases h; rfl)

theorem buildUpdateData_whatsapp (p : BusinessPayload) (wv : Option String) (now : Nat)
    (d : BusinessUpdate) (h : buildUpdateData p wv now = .ok d) (hund : p.whatsapp ≠ .undefined) :
    d.whatsapp = some wv := by
  unfold buildUpdateData at h
  simp only [bind, Except.bind, pure, Except.pure] at h
  repeat' split at h
  all_goals first
    | (cases h; done)
    | (cases h; rfl)

theorem buildSelfUpdateData_whatsapp (p : BusinessPayload) (wv : Option String)
    (d : BusinessUpdate) (h : buildSelfUpdateData p wv = .ok d) : d.whatsapp = some wv := by
  unfold buildSelfUpdateData at h
  simp only [bind, Except.bind, pure, Except.pure] at h
  repeat' split at h
  all_goals first
    | (cases h; done)
    | (cases h; rfl)

theorem trimOrNull_blank (x : String) (hblank : jsTrim x = "") :
    trimOrNull (.str x) = .ok none := by
  simp [trimOrNull, hblank]

theorem findBusiness_updateMany_apply (s : Store) (id : String) (d : BusinessUpdate)
    (old : Business) (h : s.findBusiness id = some old) :
    (s.updateManyBusiness (fun b => b.id == id) d.apply).findBusiness id = some (d.apply old) := by
  unfold Store.findBusiness Store.updateManyBusiness at *
  simp only [List.find?_map]
  have hcomp : ((fun b : Business => b.id == id) ∘
      fun b => if (b.id == id) = true then d.apply b else b) = fun b => b.id == id := by
    funext b
    simp only [Function.comp]
    split <;> simp [BusinessUpdate.apply]
  rw [hcomp, h]
  have hid : (old.id == id) = true := by
    have := List.find?_some h
    simpa using this
  simp only [Option.map_some', hid, if_true]

theorem updateUser_businesses (s s1 : Store) (id : String) (f : User → User)
    (h : s.updateUser id f = .ok s1) : s1.businesses = s.businesses := by
  unfold Store.updateUser at h
  split at h
  · cases h
  · simp only [Except.ok.injEq] at h
    rw [← h]

theorem businessCreate_blank (session : Session) (p : BusinessPayload) (g : Generated)
    (dflt : ColumnDefaults) (s : Store) (x : String) (hx : p.whatsapp = .str x)
    (hblank : jsTrim x = "")
    (h200 : (BusinessCreateRoute.POST session (some p) g dflt s).1.status = 200) :
    ∃ nb, (BusinessCreateRoute.POST session (some p) g dflt s).1.body
        = .business "Negocio creado exitosamente" nb ∧ nb.whatsapp = none ∧
      (BusinessCreateRoute.POST session (some p) g dflt s).2.businesses = s.businesses ++ [nb] := by
  have ht := trimOrNull_blank x hblank
  rw [← hx] at ht
  revert h200
  unfold BusinessCreateRoute.POST
  simp only [ht]
  repeat' split
  all_goals first
    | (intro h200; simp [internalError] at h200; done)
    | (intro _
       have h1 := createBusiness_ok _ _ _ (by assumption)
       have h2 := updateUser_businesses _ _ _ _ (by assumption)
       refine ⟨_, rfl, buildBusinessData_whatsapp _ _ _ _ _ (by assumption), ?_⟩
       simp only []
       rw [h2, h1])

theorem apply_whatsapp_none (d : BusinessUpdate) (old : Business)
    (hd : d.whatsapp = some none) : (d.apply old).whatsapp = none := by
  simp [BusinessUpdate.apply, hd]

theorem businessId_PUT_blank (session : Session) (id : String) (p : BusinessPayload)
    (now : Nat) (s : Store) (x : String) (hx : p.whatsapp = .str x) (hblank : jsTrim x = "")
    (h200 : (BusinessIdRoute.PUT session id (some p) now s).1.status = 200) :
    ∃ b, (BusinessIdRoute.PUT session id (some p) now s).1.body
        = .business "Negocio actualizado exitosamente" b ∧ b.whatsapp = none ∧
      (BusinessIdRoute.PUT session id (some p) now s).2.findBusiness id = some b := by
  have ht := trimOrNull_blank x hblank
  rw [← hx] at ht
  have hund : p.whatsapp ≠ .undefined := by rw [hx]; simp
  revert h200
  unfold BusinessIdRoute.PUT
  simp only [ht]
  repeat' split
  all_goals first
    | (intro h200; simp [internalError] at h200; done)
    | (intro _
       obtain ⟨old, hfind, hb, hs1, _⟩ := updateBusinessData_ok _ _ _ _ _ (by assumption)
       have hd := buildUpdateData_whatsapp _ _ _ _ (by assumption) hund
       subst hb hs1
       exact ⟨_, rfl, apply_whatsapp_none _ _ hd, findBusiness_updateMany_apply _ _ _ _ hfind⟩)

theorem verifyApiAuth_eq (session : Session) (su : SessionUser)
    (h : verifyApiAuth session = some su) : session = some su := by
  unfold verifyApiAuth at h
  split at h
  · cases h
  · split at h
    · cases h
      rfl
    · cases h

theorem businessUpdate_PUT_blank (su : SessionUser) (bid : String) (p : BusinessPayload)
    (s : Store) (x : String) (hbiz : su.businessId = some bid) (hx : p.whatsapp = .str x)
    (hblank : jsTrim x = "")
    (h200 : (BusinessUpdateRoute.PUT (some su) (some p) s).1.status = 200) :
    ∃ b, (BusinessUpdateRoute.PUT (some su) (some p) s).1.body
        = .business "Negocio actualizado exitosamente" b ∧ b.whatsapp = none ∧
      (BusinessUpdateRoute.PUT (some su) (some p) s).2.findBusiness bid = some b := by
  have ht := trimOrNull_blank x hblank
  rw [← hx] at ht
  revert h200
  unfold BusinessUpdateRoute.PUT
  simp only [ht]
  repeat' split
  all_goals first
    | (intro h200; simp [internalError] at h200; done)
    | (intro _
       obtain ⟨old, hfind, hb, hs1, _⟩ := updateBusinessData_ok _ _ _ _ _ (by assumption)
       have hd := buildSelfUpdateData_whatsapp _ _ _ (by assumption)
       have hsu := verifyApiAuth_eq _ _ (by assumption)
       cases hsu
       have hb2 : some bid = some _ := hbiz.symm.trans (by assumption)
       cases hb2
       subst hb hs1
       exact ⟨_, rfl, apply_whatsapp_none _ _ hd, findBusiness_updateMany_apply _ _ _ _ hfind⟩)

/-- C23: in a store with unique business ids and unique non-null whatsapp
values, POST /business (create), PUT /business/{id} and the self-service PUT
/business leave the whatsapp values unique, for every session and body. A
request that reaches the whatsapp check with a trimmed whatsapp held by a
business other than the target (for create: by any business) is answered 400
and the store is unchanged. A request with an empty or blank whatsapp that is
answered 200 writes null: the created row is appended without whatsapp, and the
updated row is stored and returned with whatsapp null. -/
theorem whatsapp_uniqueness_preserved (su : SessionUser) (id : String) (p : BusinessPayload)
    (now : Nat) (g : Generated) (dflt : ColumnDefaults) (s : Store)
    (hu : UniqueIds s) (hw : UniqueWhatsapp s) :
    (∀ (session : Session) (body : Option BusinessPayload),
      UniqueWhatsapp (BusinessCreateRoute.POST session body g dflt s).2 ∧
      UniqueWhatsapp (BusinessIdRoute.PUT session id body now s).2 ∧
      UniqueWhatsapp (BusinessUpdateRoute.PUT session body s).2) ∧
    (∀ (user : User) (w : String) (other : Business),
      su.id ≠ "" → s.findUser su.id = some user →
      trimOrNull p.whatsapp = .ok (some w) → other ∈ s.businesses → other.whatsapp = some w →
      ((user.role = "ADMIN" ∨ user.businessId = none ∨ user.businessId = some "") →
        nameMissing p.name = .ok false →
        BusinessCreateRoute.POST (some su) (some p) g dflt s
          = (⟨400, .error "Este número de WhatsApp ya está registrado en otro negocio"⟩, s)) ∧
      (id ≠ "" → (user.role = "ADMIN" ∨ user.businessId = some id) →
        (p.archived ≠ .undefined ∨ nameMissing p.name = .ok false) →
        (s.findBusiness id).isSome → other.id ≠ id →
        BusinessIdRoute.PUT (some su) id (some p) now s
          = (⟨400, .error "Este número de WhatsApp ya está registrado en otro negocio"⟩, s)) ∧
      (su.businessId = some id → id ≠ "" → other.id ≠ id →
        BusinessUpdateRoute.PUT (some su) (some p) s
          = (⟨400, .error "Este número de WhatsApp ya está registrado en otro negocio"⟩, s))) ∧
    (∀ x : String, p.whatsapp = .str x → jsTrim x = "" →
      ((BusinessCreateRoute.POST (some su) (some p) g dflt s).1.status = 200 →
        ∃ nb, (BusinessCreateRoute.POST (some su) (some p) g dflt s).1.body
            = .business "Negocio creado exitosamente" nb ∧ nb.whatsapp = none ∧
          (BusinessCreateRoute.POST (some su) (some p) g dflt s).2.businesses
            = s.businesses ++ [nb]) ∧
      ((BusinessIdRoute.PUT (some su) id (some p) now s).1.status = 200 →
        ∃ b, (BusinessIdRoute.PUT (some su) id (some p) now s).1.body
            = .business "Negocio actualizado exitosamente" b ∧ b.whatsapp = none ∧
          (BusinessIdRoute.PUT (some su) id (some p) now s).2.findBusiness id = some b) ∧
      (su.businessId = some id →
        (BusinessUpdateRoute.PUT (some su) (some p) s).1.status = 200 →
        ∃ b, (BusinessUpdateRoute.PUT (some su) (some p) s).1.body
            = .business "Negocio actualizado exitosamente" b ∧ b.whatsapp = none ∧
          (BusinessUpdateRoute.PUT (some su) (some p) s).2.findBusiness id = some b)) := by
  refine ⟨?_, ?_, ?_⟩
  · intro session body
    exact ⟨businessCreate_uniqueWhatsapp session body g dflt s hw,
      businessId_PUT_uniqueWhatsapp session id body now s hu hw,
      businessUpdate_PUT_uniqueWhatsapp session body s hu hw⟩
  · intro user w other hauth huser htrim hmem how
    refine ⟨?_, ?_, ?_⟩
    · intro hperm hname
      exact businessCreate_taken su user p g dflt s w other hauth huser hperm hname htrim hmem how
    · intro hid hperm hname htarget hne
      obtain ⟨target, ht⟩ := Option.isSome_iff_exists.mp htarget
      exact businessId_PUT_taken su user id p now s w target other hw hauth hid huser hperm
        hname ht htrim hmem hne how
    · intro hbiz hid hne
      exact businessUpdate_PUT_taken su id p s w other hw hauth hbiz hid htrim hmem hne how
  · intro x hx hblank
    exact ⟨businessCreate_blank (some su) p g dflt s x hx hblank,
      businessId_PUT_blank (some su) id p now s x hx hblank,
      fun hbiz => businessUpdate_PUT_blank su id p s x hbiz hx hblank⟩

/-- Witness of C23 on `storeWhatsapp`: the admin of `b2` asks for the whatsapp
" +111 " of `b1` through the three routes and is answered 400 each time, then
sends a blank whatsapp to PUT /business/b2 and the stored row has none. -/
theorem whatsapp_uniqueness_preserved_witness :
    UniqueIds storeWhatsapp ∧ UniqueWhatsapp storeWhatsapp ∧
    UniqueWhatsapp (BusinessIdRoute.PUT (some (sampleSession "ana" "ADMIN" (some "b2"))) "b2"
      (some (whatsappPayload (.str "Shop") (.str "+222"))) 50 storeWhatsapp).2 ∧
    (BusinessCreateRoute.POST (some (sampleSession "ana" "ADMIN" (some "b2")))
        (some (whatsappPayload (.str "Shop") (.str " +111 "))) sampleGenerated sampleDefaults
        storeWhatsapp
      = (⟨400, .error "Este número de WhatsApp ya está registrado en otro negocio"⟩,
          storeWhatsapp)) ∧
    (BusinessIdRoute.PUT (some (sampleSession "ana" "ADMIN" (some "b2"))) "b2"
        (some (whatsappPayload (.str "Shop") (.str " +111 "))) 50 storeWhatsapp
      = (⟨400, .error "Este número de WhatsApp ya está registrado en otro negocio"⟩,
          storeWhatsapp)) ∧
    (BusinessUpdateRoute.PUT (some (sampleSession "ana" "ADMIN" (some "b2")))
        (some (whatsappPayload (.str "Shop") (.str " +111 "))) storeWhatsapp
      = (⟨400, .error "Este número de WhatsApp ya está registrado en otro negocio"⟩,
          storeWhatsapp)) ∧
    (∃ b, (BusinessIdRoute.PUT (some (sampleSession "ana" "ADMIN" (some "b2"))) "b2"
        (some (whatsappPayload (.str "Shop") (.str "  "))) 50 storeWhatsapp).1.body
          = .business "Negocio actualizado exitosamente" b ∧ b.whatsapp = none ∧
      (BusinessIdRoute.PUT (some (sampleSession "ana" "ADMIN" (some "b2"))) "b2"
        (some (whatsappPayload (.str "Shop") (.str "  "))) 50 storeWhatsapp).2.findBusiness "b2"
          = some b) :=
  have rej := (whatsapp_uniqueness_preserved (sampleSession "ana" "ADMIN" (some "b2")) "b2"
    (whatsappPayload (.str "Shop") (.str " +111 ")) 50 sampleGenerated sampleDefaults
    storeWhatsapp (by decide) (by decide)).2.1 (sampleUser "ana" "ADMIN" (some "b2")) "+111"
    whatsappBusiness (by decide) rfl rfl (by decide) rfl
  ⟨by decide, by decide,
   ((whatsapp_uniqueness_preserved (sampleSession "ana" "ADMIN" (some "b2")) "b2"
      (whatsappPayload (.str "Shop") (.str "+222")) 50 sampleGenerated sampleDefaults
      storeWhatsapp (by decide) (by decide)).1 _ _).2.1,
   rej.1 (Or.inl rfl) rfl,
   rej.2.1 (by decide) (Or.inl rfl) (Or.inr rfl) rfl (by decide),
   rej.2.2 rfl (by decide) (by decide),
   ((whatsapp_uniqueness_preserved (sampleSession "ana" "ADMIN" (some "b2")) "b2"
      (whatsappPayload (.str "Shop") (.str "  ")) 50 sampleGenerated sampleDefaults
      storeWhatsapp (by decide) (by decide)).2.2 "  " rfl (by decide)).2.1 (by decide)⟩

/-! ## Updating the own user -/

/-- C26 (failing input): the user `bob` changes his email to `bob2@x.com` (200)
and, with the same session, which still carries `bob@x.com`, submits
`bob2@x.com` again. The email is now his own stored email and no other user
has it, but the handler compares it with the email of the session, finds his
own row and answers 400. -/
theorem own_stored_email_is_rejected :
    (UserUpdateRoute.PUT (some (sampleSession "bob" "USER" (some "b2")))
      (some (.str "Bob", .str "bob2@x.com")) storeFresh).1.status = 200 ∧
    ((UserUpdateRoute.PUT (some (sampleSession "bob" "USER" (some "b2")))
      (some (.str "Bob", .str "bob2@x.com")) storeFresh).2.findUser "bob").map
        (fun u => u.email) = some (some "bob2@x.com") ∧
    (∀ u ∈ (UserUpdateRoute.PUT (some (sampleSession "bob" "USER" (some "b2")))
      (some (.str "Bob", .str "bob2@x.com")) storeFresh).2.users,
        u.email = some "bob2@x.com" → u.id = "bob") ∧
    UserUpdateRoute.PUT (some (sampleSession "bob" "USER" (some "b2")))
        (some (.str "Bob", .str "bob2@x.com"))
        (UserUpdateRoute.PUT (some (sampleSession "bob" "USER" (some "b2")))
          (some (.str "Bob", .str "bob2@x.com")) storeFresh).2
      = (⟨400, .error "El correo electrónico ya está en uso"⟩,
          (UserUpdateRoute.PUT (some (sampleSession "bob" "USER" (some "b2")))
            (some (.str "Bob", .str "bob2@x.com")) storeFresh).2) := by
  decide

/-! ## Pagination of the client list -/

theorem ceilDiv_pos (total : Nat) (limit : Int) (hl : 1 ≤ limit) :
    ceilDiv total limit = some (((total + limit.toNat - 1) / limit.toNat : Nat) : Int) := by
  unfold ceilDiv
  have h0 : ¬ limit = 0 := by omega
  have h1 : 0 < limit := by omega
  simp [h0, h1]

theorem ceil_bounds (t L : Nat) (hL : 1 ≤ L) :
    t ≤ (t + L - 1) / L * L ∧ (t + L - 1) / L * L < t + L := by
  have h1 := Nat.div_add_mod (t + L - 1) L
  have h2 := Nat.mod_lt (t + L - 1) (show L > 0 by omega)
  have h3 : L * ((t + L - 1) / L) = (t + L - 1) / L * L := Nat.mul_comm _ _
  rw [h3] at h1
  constructor <;> omega

theorem ceil_is_ceil (t L : Nat) (hL : 1 ≤ L) :
    Int.ceil ((t : ℚ) / (L : ℚ)) = (((t + L - 1) / L : Nat) : Int) := by
  have hb := ceil_bounds t L hL
  have hLq : (0 : ℚ) < (L : ℚ) := by exact_mod_cast hL
  generalize (t + L - 1) / L = k at hb ⊢
  have hb1 : (t : ℚ) ≤ (k : ℚ) * (L : ℚ) := by exact_mod_cast hb.1
  have hb2 : (k : ℚ) * (L : ℚ) < (t : ℚ) + (L : ℚ) := by exact_mod_cast hb.2
  rw [Int.ceil_eq_iff]
  constructor
  · rw [lt_div_iff₀ hLq]
    have : ((((k : Nat) : Int) : ℚ)) = (k : ℚ) := by norm_cast
    rw [this]
    linarith
  · rw [div_le_iff₀ hLq]
    have : ((((k : Nat) : Int) : ℚ)) = (k : ℚ) := by norm_cast
    rw [this]
    exact hb1

theorem hasNext_iff (t L P : Nat) (hL : 1 ≤ L) :
    P * L < t ↔ P < (t + L - 1) / L := by
  have hb := ceil_bounds t L hL
  constructor
  · intro h
    by_contra hn
    have hle : (t + L - 1) / L ≤ P := by omega
    have := Nat.mul_le_mul_right L hle
    omega
  · intro h
    have hle : P + 1 ≤ (t + L - 1) / L := h
    have := Nat.mul_le_mul_right L hle
    rw [Nat.add_mul] at this
    omega

theorem roundDouble_small (n : Nat) (h : n < 2 ^ 53) : roundDouble n = n := by
  unfold roundDouble
  rw [if_pos h]

theorem toDouble_small (x : Int) (h0 : 0 ≤ x) (h : x < 2 ^ 53) : toDouble x = x := by
  unfold toDouble
  have hneg : ¬ x < 0 := by omega
  have hnat : x.toNat < 2 ^ 53 := by omega
  rw [if_neg hneg, roundDouble_small _ hnat]
  omega

theorem listClients_page (q : ClientQuery) (contains : String → String → Bool)
    (tenant : Option String) (s : Store) (page limit : Int)
    (hp : parseParam q.page "1" = some page) (hl : parseParam q.limit "20" = some limit)
    (h1 : 1 ≤ page) (h2 : 1 ≤ limit) (hb : page * limit < 2 ^ 31) :
    listClients q contains tenant s
      = (⟨200, .clients
            ((((newestFirst (fun c : Client => c.createdAt)
                (s.clients.filter (clientListWhere contains tenant q.search))).drop
                  ((page.toNat - 1) * limit.toNat)).take limit.toNat).map
              (fun c => (c, s.businessRef c)))
            { page := page, limit := limit,
              total := (s.clients.filter (clientListWhere contains tenant q.search)).length,
              totalPages := ceilDiv
                (s.clients.filter (clientListWhere contains tenant q.search)).length limit,
              hasNext := decide (page * limit
                < ((s.clients.filter (clientListWhere contains tenant q.search)).length : Int)),
              hasPrev := decide (1 < page) }⟩, s) := by
  unfold listClients
  rw [hp, hl]
  simp only []
  have hskip : ¬ ((page - 1) * limit < 0) := by
    have : 0 ≤ (page - 1) * limit := Int.mul_nonneg (by omega) (by omega)
    omega
  have htake : 0 ≤ limit := by omega
  have hnat : ((page - 1) * limit).toNat = (page.toNat - 1) * limit.toNat := by
    have e1 : page = (page.toNat : Int) := by omega
    have e2 : limit = (limit.toNat : Int) := by omega
    have e3 : page - 1 = ((page.toNat - 1 : Nat) : Int) := by omega
    rw [e3]
    conv => lhs; rw [e2]
    rw [← Int.natCast_mul, Int.toNat_ofNat]
  have hpl : page ≤ page * limit := by nlinarith
  have hsl : (page - 1) * limit ≤ page * limit := by nlinarith
  have hll : limit ≤ page * limit := by nlinarith
  have hd1 : toDouble (page - 1) = page - 1 := toDouble_small _ (by omega) (by omega)
  have hd2 : toDouble ((page - 1) * limit) = (page - 1) * limit :=
    toDouble_small _ (by omega) (by omega)
  have hd3 : toDouble (page * limit) = page * limit := toDouble_small _ (by omega) (by omega)
  have hrange : ¬ (2 ^ 63 ≤ (page - 1) * limit ∨ limit < -(2 ^ 63) ∨ 2 ^ 63 ≤ limit) := by
    omega
  have hcount : limit.natAbs % 2 ^ 32 = limit.toNat := by omega
  unfold pageOf
  rw [hd1, hd2, hd3]
  simp only [hskip, hrange, htake, if_false, if_true, hnat, hcount, length_newestFirst]


theorem clients_GET_list (su : SessionUser) (bid : Option String)
    (contains : String → String → Bool) (s : Store)
    (hallow : su.role = "ADMIN" ∨ (sessionBusiness su).isSome) :
    ∃ T, ∀ q : ClientQuery, q.businessId = bid →
      ClientsRoute.GET (some su) q contains s = listClients q contains T s := by
  by_cases hrole : su.role = "ADMIN"
  · cases bid with
    | none =>
      refine ⟨none, ?_⟩
      intro q hq
      simp [ClientsRoute.GET, clientAuth, hrole, hq]
    | some b =>
      by_cases hb : b = ""
      · refine ⟨none, ?_⟩
        intro q hq
        simp [ClientsRoute.GET, clientAuth, hrole, hq, hb]
      · refine ⟨some b, ?_⟩
        intro q hq
        simp [ClientsRoute.GET, clientAuth, hrole, hq, hb]
  · rcases hallow with h | h
    · exact absurd h hrole
    · obtain ⟨b, hb⟩ := Option.isSome_iff_exists.1 h
      refine ⟨some b, ?_⟩
      intro q _
      simp [ClientsRoute.GET, clientAuth, hrole, hb]

/-- C27 (counterexample): the ADMIN `ana` asks for page 99999999999999999999
with the default limit. `parseInt` reads the double 10^20, `skip` is 2 * 10^21,
which does not fit a signed 64-bit integer, `findMany` refuses it and the
answer is 500 without any pagination. A page of 9007199254740993 is read as
9007199254740992. -/
theorem clients_GET_huge_page_is_500 :
    parseParam (some "99999999999999999999") "1" = some 100000000000000000000 ∧
    parseParam none "20" = some 20 ∧
    ClientsRoute.GET (some (sampleSession "ana" "ADMIN" (some "b1")))
        ⟨some "99999999999999999999", none, none, none⟩ (fun a b => a == b) storeClients
      = (internalError, storeClients) ∧
    parseParam (some "9007199254740993") "1" = some 9007199254740992 := by
  decide

/-- C27 (amended): GET /clients reads page = 1 and limit = 20 when the
parameters are absent. For a session that is allowed to list, a page >= 1 and a
limit >= 1 with page * limit < 2^31 (page, limit, skip and take are then
integers that the number type and the database read exactly), the answer is
200 with the store unchanged and a pagination object that repeats page and
limit and has totalPages = ceil(total / limit), hasPrev = (page > 1) and
hasNext = (page * limit < total); hasNext holds exactly when
page < totalPages. -/
theorem clients_GET_pagination (su : SessionUser) (q : ClientQuery)
    (contains : String → String → Bool) (s : Store) (page limit : Int)
    (hallow : su.role = "ADMIN" ∨ (sessionBusiness su).isSome)
    (hp : parseParam q.page "1" = some page) (hl : parseParam q.limit "20" = some limit)
    (h1 : 1 ≤ page) (h2 : 1 ≤ limit) (hb : page * limit < 2 ^ 31) :
    parseParam none "1" = some 1 ∧ parseParam none "20" = some 20 ∧
    ∃ rows pg, ClientsRoute.GET (some su) q contains s = (⟨200, .clients rows pg⟩, s) ∧
      pg.page = page ∧ pg.limit = limit ∧
      pg.totalPages = some (Int.ceil ((pg.total : ℚ) / (limit : ℚ))) ∧
      pg.hasPrev = decide (1 < page) ∧ pg.hasNext = decide (page * limit < (pg.total : Int)) ∧
      (pg.hasNext = true ↔ ∃ k, pg.totalPages = some k ∧ page < k) := by
  refine ⟨by decide, by decide, ?_⟩
  obtain ⟨T, hT⟩ := clients_GET_list su q.businessId contains s hallow
  have hget := (hT q rfl).trans (listClients_page q contains T s page limit hp hl h1 h2 hb)
  refine ⟨_, _, hget, rfl, rfl, ?_, rfl, rfl, ?_⟩
  · simp only []
    rw [ceilDiv_pos _ limit h2]
    have hL : 1 ≤ limit.toNat := by omega
    have e2 : (limit : ℚ) = ((limit.toNat : Nat) : ℚ) := by
      have : limit = ((limit.toNat : Nat) : Int) := by omega
      conv => lhs; rw [this]
      norm_cast
    rw [e2, ceil_is_ceil _ _ hL]
  · simp only []
    rw [ceilDiv_pos _ limit h2]
    have hL : 1 ≤ limit.toNat := by omega
    have hiff := hasNext_iff
      (s.clients.filter (clientListWhere contains T q.search)).length limit.toNat page.toNat hL
    have e1 : page = ((page.toNat : Nat) : Int) := by omega
    have e2 : limit = ((limit.toNat : Nat) : Int) := by omega
    have hmul : page * limit = ((page.toNat * limit.toNat : Nat) : Int) := by
      conv => lhs; rw [e1, e2]
      norm_cast
    rw [decide_eq_true_iff, hmul]
    constructor
    · intro h
      have h' : page.toNat * limit.toNat
          < (s.clients.filter (clientListWhere contains T q.search)).length := by
        exact_mod_cast h
      refine ⟨_, rfl, ?_⟩
      have := hiff.1 h'
      omega
    · rintro ⟨k, hk, hlt⟩
      simp only [Option.some.injEq] at hk
      have : page.toNat
          < ((s.clients.filter (clientListWhere contains T q.search)).length
              + limit.toNat - 1) / limit.toNat := by
        omega
      have := hiff.2 this
      exact_mod_cast this

/-- Witness of C27 (amended): the ADMIN `ana` asks for page 2 with limit 2; three
non-archived clients give totalPages = 2, hasPrev and no hasNext. -/
theorem clients_GET_pagination_witness :
    ∃ rows pg, ClientsRoute.GET (some (sampleSession "ana" "ADMIN" (some "b1")))
        ⟨some "2", some "2", none, none⟩ (fun a b => a == b) storeClients
        = (⟨200, .clients rows pg⟩, storeClients) ∧
      pg.page = 2 ∧ pg.limit = 2 ∧
      pg.totalPages = some (Int.ceil ((pg.total : ℚ) / ((2 : Int) : ℚ))) ∧
      pg.hasPrev = decide ((1 : Int) < 2) ∧
      pg.hasNext = decide ((2 : Int) * 2 < (pg.total : Int)) ∧
      (pg.hasNext = true ↔ ∃ k, pg.totalPages = some k ∧ (2 : Int) < k) :=
  (clients_GET_pagination (sampleSession "ana" "ADMIN" (some "b1"))
    ⟨some "2", some "2", none, none⟩ (fun a b => a == b) storeClients 2 2 (Or.inl rfl)
    (by decide) (by decide) (by decide) (by decide) (by decide)).2.2


theorem flatMap_chunks {α : Type} (l : List α) (L n : Nat) :
    (List.range n).flatMap (fun i => (l.drop (i * L)).take L) = l.take (n * L) := by
  induction n with
  | zero => simp
  | succ n ih =>
    rw [List.range_succ, List.flatMap_append, ih]
    simp only [List.flatMap_cons, List.flatMap_nil, List.append_nil]
    rw [Nat.succ_mul, List.take_add]

theorem returnedClients_page (q : ClientQuery) (contains : String → String → Bool)
    (tenant : Option String) (s : Store) (page limit : Int)
    (hp : parseParam q.page "1" = some page) (hl : parseParam q.limit "20" = some limit)
    (h1 : 1 ≤ page) (h2 : 1 ≤ limit) (hb : page * limit < 2 ^ 31) :
    returnedClients (listClients q contains tenant s)
      = ((newestFirst (fun c : Client => c.createdAt)
          (s.clients.filter (clientListWhere contains tenant q.search))).drop
            ((page.toNat - 1) * limit.toNat)).take limit.toNat ∧
    (listClients q contains tenant s).2 = s := by
  rw [listClients_page q contains tenant s page limit hp hl h1 h2 hb]
  have hid : ((fun x : Client × BusinessRef => x.1) ∘ fun c => (c, s.businessRef c)) = id := rfl
  simp [returnedClients, List.map_map, hid]

/-- C30 (counterexample): the ADMIN `ana` asks for page 1 with the limit
4294967296. The database reads `take` as a 32-bit count, which is 0, and the
page is empty, although three clients match and the slice of length at most
4294967296 at offset 0 holds all of them. -/
theorem clients_GET_wide_page_is_empty :
    parseParam (some "4294967296") "20" = some 4294967296 ∧
    returnedClients (ClientsRoute.GET (some (sampleSession "ana" "ADMIN" (some "b1")))
        ⟨none, some "4294967296", none, none⟩ (fun a b => a == b) storeClients) = [] ∧
    (((newestFirst (fun c : Client => c.createdAt)
        (storeClients.clients.filter (clientListWhere (fun a b => a == b) none none))).drop
          ((1 - 1) * 4294967296)).take 4294967296).length = 3 := by
  decide

/-- C30 (amended): for a session that is allowed to list, a fixed search,
businessId filter and limit L >= 1, there is one ordered list of the matching
clients (newest first) such that every query for a page p >= 1 with
p * L < 2^31 returns the slice of length at most L at offset (p - 1) * L and
leaves the store unchanged; these slices for the pages 1..totalPages, with
totalPages = ceil(length / L), concatenated are that list, and the slice of
every page beyond totalPages is empty. -/
theorem clients_GET_pages_partition (su : SessionUser) (contains : String → String → Bool)
    (s : Store) (search bid : Option String) (L : Nat)
    (hallow : su.role = "ADMIN" ∨ (sessionBusiness su).isSome) (hL : 1 ≤ L) :
    ∃ T, (∀ (q : ClientQuery) (p : Nat), 1 ≤ p → p * L < 2 ^ 31 →
        parseParam q.page "1" = some (p : Int) →
        parseParam q.limit "20" = some (L : Int) → q.search = search → q.businessId = bid →
        returnedClients (ClientsRoute.GET (some su) q contains s)
          = ((newestFirst (fun c : Client => c.createdAt)
              (s.clients.filter (clientListWhere contains T search))).drop
                ((p - 1) * L)).take L ∧
        (ClientsRoute.GET (some su) q contains s).2 = s) ∧
      (List.range (((s.clients.filter (clientListWhere contains T search)).length + L - 1) / L)).flatMap
          (fun i => ((newestFirst (fun c : Client => c.createdAt)
            (s.clients.filter (clientListWhere contains T search))).drop (i * L)).take L)
        = newestFirst (fun c : Client => c.createdAt)
            (s.clients.filter (clientListWhere contains T search)) ∧
      (∀ p, ((s.clients.filter (clientListWhere contains T search)).length + L - 1) / L < p →
        ((newestFirst (fun c : Client => c.createdAt)
          (s.clients.filter (clientListWhere contains T search))).drop ((p - 1) * L)).take L
          = []) := by
  obtain ⟨T, hT⟩ := clients_GET_list su bid contains s hallow
  have hlen := length_newestFirst (fun c : Client => c.createdAt)
    (s.clients.filter (clientListWhere contains T search))
  have hb := ceil_bounds (s.clients.filter (clientListWhere contains T search)).length L hL
  refine ⟨T, ?_, ?_, ?_⟩
  · intro q p hp1 hpL hp hl hs hbid
    rw [hT q hbid]
    have := returnedClients_page q contains T s (p : Int) (L : Int) hp hl
      (by omega) (by omega) (by exact_mod_cast hpL)
    rw [hs] at this
    have e1 : ((p : Nat) : Int).toNat = p := by omega
    have e2 : ((L : Nat) : Int).toNat = L := by omega
    rw [e1, e2] at this
    exact this
  · rw [flatMap_chunks]
    apply List.take_of_length_le
    rw [hlen]
    exact hb.1
  · intro p hp
    have hle : (s.clients.filter (clientListWhere contains T search)).length ≤ (p - 1) * L := by
      have : ((s.clients.filter (clientListWhere contains T search)).length + L - 1) / L
          ≤ p - 1 := by omega
      have := Nat.mul_le_mul_right L this
      omega
    rw [List.drop_of_length_le (by rw [hlen]; exact hle)]
    simp

/-- Witness of C30 (amended): the ADMIN `ana` reads page 2 of the non-archived clients in
pages of two. -/
theorem clients_GET_pages_partition_witness :
    ∃ T, returnedClients (ClientsRoute.GET (some (sampleSession "ana" "ADMIN" (some "b1")))
        ⟨some "2", some "2", none, none⟩ (fun a b => a == b) storeClients)
      = ((newestFirst (fun c : Client => c.createdAt)
          (storeClients.clients.filter
            (clientListWhere (fun a b => a == b) T none))).drop ((2 - 1) * 2)).take 2 :=
  (clients_GET_pages_partition (sampleSession "ana" "ADMIN" (some "b1")) (fun a b => a == b)
    storeClients none none 2 (Or.inl rfl) (by decide)).elim
    (fun T h => ⟨T, (h.1 ⟨some "2", some "2", none, none⟩ 2 (by decide) (by decide)
      (by decide) (by decide) rfl rfl).1⟩)

/-! ## Answers with a client-error status leave the store unchanged -/

theorem select_POST_clientError (session : Session) (body : Option JVal) (s : Store) :
    isClientError (SelectRoute.POST session body s).1.status →
    (SelectRoute.POST session body s).2 = s := by
  rcases selectPOST_result session body s with h | ⟨bid, _, _, h⟩
  · intro _; exact h.1
  · rw [h]; intro hc; simp [isClientError] at hc

theorem select_GET_clientError (session : Session) (s : Store) :
    isClientError (SelectRoute.GET session s).1.status → (SelectRoute.GET session s).2 = s := by
  rcases selectGET_result session s with h | ⟨su, fb, _, _, _, h⟩
  · intro _; exact h
  · rw [h]; intro hc; simp [isClientError] at hc

theorem businessId_GET_clientError (session : Session) (id : String) (s : Store) :
    (BusinessIdRoute.GET session id s).2 = s := by
  unfold BusinessIdRoute.GET
  repeat' split
  all_goals rfl

theorem businessGet_GET_unchanged (session : Session) (s : Store) :
    (BusinessGetRoute.GET session s).2 = s := by
  unfold BusinessGetRoute.GET
  repeat' split
  all_goals rfl

theorem businessList_GET_unchanged (session : Session) (inc : Option String) (s : Store) :
    (BusinessListRoute.GET session inc s).2 = s := by
  unfold BusinessListRoute.GET
  repeat' split
  all_goals rfl

theorem businessId_PUT_clientError (session : Session) (id : String)
    (body : Option BusinessPayload) (now : Nat) (s : Store) :
    isClientError (BusinessIdRoute.PUT session id body now s).1.status →
    (BusinessIdRoute.PUT session id body now s).2 = s := by
  unfold BusinessIdRoute.PUT
  simp only []
  repeat' split
  all_goals first
    | (intro _; rfl)
    | (intro hc; simp [isClientError, internalError] at hc)

theorem businessUpdate_PUT_clientError (session : Session) (body : Option BusinessPayload)
    (s : Store) :
    isClientError (BusinessUpdateRoute.PUT session body s).1.status →
    (BusinessUpdateRoute.PUT session body s).2 = s := by
  unfold BusinessUpdateRoute.PUT
  simp only []
  repeat' split
  all_goals first
    | (intro _; rfl)
    | (intro hc; simp [isClientError, internalError] at hc)

theorem businessCreate_POST_clientError (session : Session) (body : Option BusinessPayload)
    (g : Generated) (dflt : ColumnDefaults) (s : Store) :
    isClientError (BusinessCreateRoute.POST session body g dflt s).1.status →
    (BusinessCreateRoute.POST session body g dflt s).2 = s := by
  unfold BusinessCreateRoute.POST
  simp only []
  repeat' split
  all_goals first
    | (intro _; rfl)
    | (intro hc; simp [isClientError, internalError] at hc)

theorem register_POST_clientError (body : Option RegisterPayload) (hash : String → String)
    (g : Generated) (dflt : ColumnDefaults) (s : Store) :
    isClientError (RegisterRoute.POST body hash g dflt s).1.status →
    (RegisterRoute.POST body hash g dflt s).2 = s := by
  rcases register_cases body hash g dflt s with hl | ⟨b, hb⟩ |
    ⟨_, _, _, _, _, _, _, _, _, _, _, _, _, heq⟩
  · intro _; exact hl.1
  · rw [hb]; intro hc; simp [isClientError, internalError] at hc
  · rw [heq]; intro hc; simp [isClientError] at hc

theorem deleteBusiness_notFound (s1 : Store) (bid : String) (clients : OnDelete)
    (h : s1.deleteBusiness bid clients = .error .notFound) : s1.findBusiness bid = none := by
  unfold Store.deleteBusiness at h
  split at h
  · assumption
  · split at h
    · split at h
      · cases h
      · cases h
    · cases h

theorem businessDelete_clientError (session : Session) (body : Option JVal)
    (clients : OnDelete) (s : Store) :
    isClientError (BusinessDeleteRoute.DELETE session body clients s).1.status →
    (BusinessDeleteRoute.DELETE session body clients s).2 = s := by
  unfold BusinessDeleteRoute.DELETE
  simp only []
  split
  · intro _; rfl
  · split
    · intro _; rfl
    · split
      · intro _; rfl
      · split
        · intro hc; simp [isClientError, internalError] at hc
        · split
          · intro _; rfl
          · split
            · rename_i bid _
              split
              · intro _; rfl
              · rename_i y hy
                have hfind : (if s.users.any (fun u => u.businessId == some bid) then
                    s.detachUsers bid else s).findBusiness bid = some y := by
                  split
                  · exact hy
                  · exact hy
                split
                · intro hc; simp [isClientError] at hc
                · rename_i hdel
                  have := deleteBusiness_notFound _ _ _ hdel
                  rw [hfind] at this
                  cases this
                · intro hc; simp [isClientError, internalError] at hc
            · intro hc; simp [isClientError, internalError] at hc

theorem userUpdate_update_clientError (su : SessionUser) (name email : JVal) (s : Store) :
    isClientError (UserUpdateRoute.update su name email s).1.status →
    (UserUpdateRoute.update su name email s).2 = s := by
  unfold UserUpdateRoute.update
  simp only []
  repeat' split
  all_goals first
    | (intro _; rfl)
    | (intro hc; simp [isClientError, internalError] at hc)

theorem userUpdate_PUT_clientError (session : Session) (body : Option (JVal × JVal))
    (s : Store) :
    isClientError (UserUpdateRoute.PUT session body s).1.status →
    (UserUpdateRoute.PUT session body s).2 = s := by
  unfold UserUpdateRoute.PUT
  simp only []
  repeat' split
  all_goals first
    | (intro _; rfl)
    | exact userUpdate_update_clientError _ _ _ _

theorem listClients_unchanged (q : ClientQuery) (contains : String → String → Bool)
    (tenant : Option String) (s : Store) : (listClients q contains tenant s).2 = s := by
  unfold listClients
  simp only []
  repeat' split
  all_goals rfl

theorem clients_GET_unchanged (session : Session) (q : ClientQuery)
    (contains : String → String → Bool) (s : Store) :
    (ClientsRoute.GET session q contains s).2 = s := by
  unfold ClientsRoute.GET
  repeat' split
  all_goals first
    | rfl
    | exact listClients_unchanged _ _ _ _

theorem clients_create_clientError (p : ClientPayload) (b : String) (g : Generated)
    (dflt : ColumnDefaults) (s : Store) :
    isClientError (ClientsRoute.create p b g dflt s).1.status →
    (ClientsRoute.create p b g dflt s).2 = s := by
  rcases create_result p b g dflt s with h | ⟨data, _, _, h⟩
  · intro _; exact h.1
  · rw [h]; intro hc; simp [isClientError] at hc

theorem clients_POST_clientError (session : Session) (body : Option ClientPayload)
    (g : Generated) (dflt : ColumnDefaults) (s : Store) :
    isClientError (ClientsRoute.POST session body g dflt s).1.status →
    (ClientsRoute.POST session body g dflt s).2 = s := by
  unfold ClientsRoute.POST
  simp only []
  repeat' split
  all_goals first
    | (intro _; rfl)
    | exact clients_create_clientError _ _ _ _ _

theorem clientId_GET_unchanged (session : Session) (id : String) (s : Store) :
    (ClientIdRoute.GET session id s).2 = s := by
  unfold ClientIdRoute.GET
  repeat' split
  all_goals rfl

theorem clientId_update_clientError (p : ClientPayload) (id : String) (c : Client) (now : Nat)
    (s : Store) :
    isClientError (ClientIdRoute.update p id c now s).1.status →
    (ClientIdRoute.update p id c now s).2 = s := by
  unfold ClientIdRoute.update
  simp only []
  repeat' split
  all_goals first
    | (intro _; rfl)
    | (intro hc; simp [isClientError, internalError] at hc)

theorem clientId_PUT_clientError (session : Session) (id : String)
    (body : Option ClientPayload) (now : Nat) (s : Store) :
    isClientError (ClientIdRoute.PUT session id body now s).1.status →
    (ClientIdRoute.PUT session id body now s).2 = s := by
  unfold ClientIdRoute.PUT
  repeat' split
  all_goals first
    | (intro _; rfl)
    | exact clientId_update_clientError _ _ _ _ _

theorem clientId_DELETE_clientError (session : Session) (id : String) (now : Nat) (s : Store) :
    isClientError (ClientIdRoute.DELETE session id now s).1.status →
    (ClientIdRoute.DELETE session id now s).2 = s := by
  unfold ClientIdRoute.DELETE
  repeat' split
  all_goals first
    | (intro _; rfl)
    | (intro hc; simp [isClientError, internalError] at hc)

/-- C28: whenever a handler of the business, client, register or user-update
routes answers with status 400, 401, 403, 404 or 409, the store after the
request is the store before it, for every session, id, query, body, clock,
generated value and store. -/
theorem client_error_leaves_store (session : Session) (s : Store) (id : String)
    (jbody : Option JVal) (bbody : Option BusinessPayload) (cbody : Option ClientPayload)
    (ubody : Option (JVal × JVal)) (rbody : Option RegisterPayload) (q : ClientQuery)
    (includeArchived : Option String) (contains : String → String → Bool)
    (hash : String → String) (now : Nat) (g : Generated) (dflt : ColumnDefaults)
    (clients : OnDelete) :
    (isClientError (BusinessIdRoute.GET session id s).1.status →
      (BusinessIdRoute.GET session id s).2 = s) ∧
    (isClientError (BusinessIdRoute.PUT session id bbody now s).1.status →
      (BusinessIdRoute.PUT session id bbody now s).2 = s) ∧
    (isClientError (BusinessGetRoute.GET session s).1.status →
      (BusinessGetRoute.GET session s).2 = s) ∧
    (isClientError (BusinessUpdateRoute.PUT session bbody s).1.status →
      (BusinessUpdateRoute.PUT session bbody s).2 = s) ∧
    (isClientError (SelectRoute.POST session jbody s).1.status →
      (SelectRoute.POST session jbody s).2 = s) ∧
    (isClientError (SelectRoute.GET session s).1.status →
      (SelectRoute.GET session s).2 = s) ∧
    (isClientError (BusinessListRoute.GET session includeArchived s).1.status →
      (BusinessListRoute.GET session includeArchived s).2 = s) ∧
    (isClientError (BusinessCreateRoute.POST session bbody g dflt s).1.status →
      (BusinessCreateRoute.POST session bbody g dflt s).2 = s) ∧
    (isClientError (BusinessDeleteRoute.DELETE session jbody clients s).1.status →
      (BusinessDeleteRoute.DELETE session jbody clients s).2 = s) ∧
    (isClientError (RegisterRoute.POST rbody hash g dflt s).1.status →
      (RegisterRoute.POST rbody hash g dflt s).2 = s) ∧
    (isClientError (UserUpdateRoute.PUT session ubody s).1.status →
      (UserUpdateRoute.PUT session ubody s).2 = s) ∧
    (isClientError (ClientsRoute.GET session q contains s).1.status →
      (ClientsRoute.GET session q contains s).2 = s) ∧
    (isClientError (ClientsRoute.POST session cbody g dflt s).1.status →
      (ClientsRoute.POST session cbody g dflt s).2 = s) ∧
    (isClientError (ClientIdRoute.GET session id s).1.status →
      (ClientIdRoute.GET session id s).2 = s) ∧
    (isClientError (ClientIdRoute.PUT session id cbody now s).1.status →
      (ClientIdRoute.PUT session id cbody now s).2 = s) ∧
    (isClientError (ClientIdRoute.DELETE session id now s).1.status →
      (ClientIdRoute.DELETE session id now s).2 = s) :=
  ⟨fun _ => businessId_GET_clientError session id s,
   businessId_PUT_clientError session id bbody now s,
   fun _ => businessGet_GET_unchanged session s,
   businessUpdate_PUT_clientError session bbody s,
   select_POST_clientError session jbody s,
   select_GET_clientError session s,
   fun _ => businessList_GET_unchanged session includeArchived s,
   businessCreate_POST_clientError session bbody g dflt s,
   businessDelete_clientError session jbody clients s,
   register_POST_clientError rbody hash g dflt s,
   userUpdate_PUT_clientError session ubody s,
   fun _ => clients_GET_unchanged session q contains s,
   clients_POST_clientError session cbody g dflt s,
   fun _ => clientId_GET_unchanged session id s,
   clientId_PUT_clientError session id cbody now s,
   clientId_DELETE_clientError session id now s⟩

/-- Witness of C28: the 403 of `bob` selecting `b1` and the 409 of a duplicate
client email leave the stores unchanged. -/
theorem client_error_leaves_store_witness :
    (SelectRoute.POST (some (sampleSession "bob" "USER" (some "b2"))) (some (.str "b1"))
      storeClients).2 = storeClients ∧
    (ClientsRoute.POST (some (sampleSession "bob" "USER" (some "b2")))
      (some (samplePayload (.str "Client c9") (.str "a@x.com"))) sampleGenerated
      sampleDefaults storeClients).2 = storeClients :=
  ⟨(client_error_leaves_store (some (sampleSession "bob" "USER" (some "b2"))) storeClients
      "c1" (some (.str "b1")) none (some (samplePayload (.str "Client c9") (.str "a@x.com")))
      none none ⟨none, none, none, none⟩ none (fun a b => a == b) (fun x => x) 50
      sampleGenerated sampleDefaults .restrict).2.2.2.2.1 (by unfold isClientError; decide),
   (client_error_leaves_store (some (sampleSession "bob" "USER" (some "b2"))) storeClients
      "c1" (some (.str "b1")) none (some (samplePayload (.str "Client c9") (.str "a@x.com")))
      none none ⟨none, none, none, none⟩ none (fun a b => a == b) (fun x => x) 50
      sampleGenerated sampleDefaults .restrict).2.2.2.2.2.2.2.2.2.2.2.2.1 (by unfold isClientError; decide)⟩

/-! ## The selected business and the tenant of the session -/

/-- C29 (counterexample): with the business `b1` selected, GET
/business/select of the user `bob`, whose business is `b2`, returns `b1`. -/
theorem selected_business_of_another_tenant :
    storeArchived.findUser "bob" = some (sampleUser "bob" "USER" (some "b2")) ∧
    SelectRoute.GET (some (sampleSession "bob" "USER" (some "b2"))) storeArchived
      = (⟨200, .selected (some (sampleBusiness "b1" false true 10)) (some false) none⟩,
          storeArchived) := by
  decide

/-- C29 (amended): for an authenticated session that is not ADMIN, a business
that GET /business/select returns with autoSelected = true has the id the
stored user's businessId points to; a business returned with
autoSelected = false is the selected non-archived business of the store,
whatever its tenant. -/
theorem selected_business_of_user (su : SessionUser) (s s1 : Store) (b : Business)
    (auto : Option Bool) (msg : Option String) (hauth : su.id ≠ "")
    (hrole : su.role ≠ "ADMIN")
    (h : SelectRoute.GET (some su) s = (⟨200, .selected (some b) auto msg⟩, s1)) :
    (auto = some true ∧ ∃ user, s.findUser su.id = some user ∧ user.businessId = some b.id) ∨
    (auto = some false ∧ s1 = s ∧ b ∈ s.businesses ∧ b.isSelected = true ∧
      b.archived = false) := by
  unfold SelectRoute.GET at h
  rw [verifyApiAuth_some su hauth] at h
  simp only [] at h
  split at h
  · rename_i sel hsel
    simp only [Prod.mk.injEq, Response.mk.injEq, Body.selected.injEq, Option.some.injEq,
      true_and] at h
    obtain ⟨⟨hb, hauto, _⟩, hs⟩ := h
    subst hb
    have hp := List.find?_some hsel
    simp only [Bool.and_eq_true, Bool.not_eq_true', Bool.not_eq_eq_eq_not, Bool.not_true] at hp
    exact Or.inr ⟨hauto.symm, hs.symm, List.mem_of_find?_eq_some hsel, hp.1, hp.2⟩
  · split at h
    · rename_i fb hfb
      have hsome := findBusiness_isSome_of_mem s fb (fallbackBusiness_mem su s fb hfb)
      rw [autoSelectTransaction_ok s fb.id hsome] at h
      simp only [Prod.mk.injEq, Response.mk.injEq, Body.selected.injEq, Option.some.injEq,
        true_and] at h
      obtain ⟨⟨hb, hauto, _⟩, _⟩ := h
      left
      refine ⟨hauto.symm, ?_⟩
      unfold fallbackBusiness at hfb
      have hr : (su.role == "ADMIN") = false := by simpa using hrole
      simp only [hr, Bool.false_eq_true, if_false] at hfb
      split at hfb
      · cases hfb
      · rename_i user huser
        split at hfb
        · cases hfb
        · rename_i bid hbid
          have := (findBusiness_some s bid fb hfb).2
          refine ⟨user, huser, ?_⟩
          rw [hbid, ← hb, this]
    · simp at h

/-- Witness of C29 (amended): on the fresh store the user `bob` gets his own
business `b2` auto-selected. -/
theorem selected_business_of_user_witness :
    (some true = some true ∧ ∃ user, storeFresh.findUser "bob" = some user ∧
        user.businessId = some (sampleBusiness "b2" false true 20).id) ∨
    (some true = some false ∧ selectOnly storeFresh "b2" = storeFresh ∧
      sampleBusiness "b2" false true 20 ∈ storeFresh.businesses ∧
      (sampleBusiness "b2" false true 20).isSelected = true ∧
      (sampleBusiness "b2" false true 20).archived = false) :=
  selected_business_of_user (sampleSession "bob" "USER" (some "b2")) storeFresh
    (selectOnly storeFresh "b2") (sampleBusiness "b2" false true 20) (some true) none
    (by decide) (by decide) (by decide)

end Rework
